import Mathlib

/-!
# log_pp: the filtering and dispatch pipeline

A shallow embedding of the `log_pp` logging facade (`level.hpp`, `metadata.hpp`,
`kv.hpp`, `record.hpp`, `log_interface.hpp`, `log.hpp`, `log.cpp`).

Conventions of the embedding:

* `enum class` values are their underlying `int`, since every comparison in
  `level.hpp` goes through `static_cast<int>`.
* `std::basic_string_view<CharT>` and `std::basic_string<CharT>` are `String`;
  the character type plays no part in the control flow.
* User code (sinks, value formatters, call-site variables) acts on a user
  memory `σ`.  The facade owns the runtime ceiling, the global logger binding
  and its once-flag; these live in `World`.
* `World.trace` is instrumentation: the pipeline appends an `Event` at each
  point where the source calls into a sink or constructs one of its values.
-/

namespace log_pp

/-! ## level.hpp -/

/-- Runtime log severity, `enum class Level` (underlying type `int`). -/
structure Level where
  val : Int
deriving DecidableEq, Repr

namespace Level

def Error : Level := ⟨1⟩
def Warning : Level := ⟨2⟩
def Info : Level := ⟨3⟩
def Debug : Level := ⟨4⟩
def Trace : Level := ⟨5⟩

end Level

/-- Value-initialised `Level{}`: the enumeration's zero value. -/
instance : Inhabited Level := ⟨⟨0⟩⟩

/-- Runtime level filter, `enum class LevelFilter` (underlying type `int`). -/
structure LevelFilter where
  val : Int
deriving DecidableEq, Repr

namespace LevelFilter

def Off : LevelFilter := ⟨0⟩
def Error : LevelFilter := ⟨1⟩
def Warn : LevelFilter := ⟨2⟩
def Info : LevelFilter := ⟨3⟩
def Debug : LevelFilter := ⟨4⟩
def Trace : LevelFilter := ⟨5⟩

end LevelFilter

/-- The comparison `operator<=>(Level, Level)`. -/
def Level.spaceship (lhs rhs : Level) : Ordering :=
  compare lhs.val rhs.val

/-- The comparison `operator<=>(Level, LevelFilter)`. -/
def Level.spaceship_filter (lhs : Level) (rhs : LevelFilter) : Ordering :=
  compare lhs.val rhs.val

/-- The expression `lhs <= rhs` on two levels, rewritten by the language to
`(lhs <=> rhs) <= 0`. -/
def Level.le (lhs rhs : Level) : Bool :=
  (Level.spaceship lhs rhs).isLE

/-- The expression `lhs <= rhs` on a level and a filter, rewritten by the
language to `(lhs <=> rhs) <= 0`. -/
def Level.le_filter (lhs : Level) (rhs : LevelFilter) : Bool :=
  (Level.spaceship_filter lhs rhs).isLE

/-- The function `to_str`. -/
def to_str (level : Level) : String :=
  if level.val = 1 then "ERROR"
  else if level.val = 2 then "WARNING"
  else if level.val = 3 then "INFO"
  else if level.val = 4 then "DEBUG"
  else if level.val = 5 then "TRACE"
  else "UNKNOWN"

/-! ## metadata.hpp -/

/-- Lightweight metadata used for logger-side filtering. -/
structure BasicMetadata where
  level : Level := default
  target : String := ""
deriving DecidableEq, Repr

def BasicMetadata.get_level (self : BasicMetadata) : Level := self.level

def BasicMetadata.get_target (self : BasicMetadata) : String := self.target

/-- Builder for `BasicMetadata`. -/
structure BasicMetadataBuilder where
  metadata : BasicMetadata := {}
deriving DecidableEq, Repr

def BasicMetadataBuilder.set_level (self : BasicMetadataBuilder) (level : Level) :
    BasicMetadataBuilder :=
  { self with metadata := { self.metadata with level := level } }

def BasicMetadataBuilder.set_target (self : BasicMetadataBuilder) (target : String) :
    BasicMetadataBuilder :=
  { self with metadata := { self.metadata with target := target } }

def BasicMetadataBuilder.build (self : BasicMetadataBuilder) : BasicMetadata :=
  self.metadata

/-! ## The standard formatting library

`std::vformat` and the `std::formatter` specialisations are not code of this
repository.  They are modelled on the fragment the repository's tests use:
automatically indexed replacement fields `{}` and `{:spec}`, the escapes
`{{` and `}}`, integer presentation types `d`, `x`, `X` with zero padding
and width, and the default presentation of strings, booleans and of doubles
whose exact decimal expansion is short.  Inputs outside the fragment are
reported as `format_error` by the model. -/

/-- The exception `std::format_error`. -/
structure format_error where
  what : String
deriving DecidableEq, Repr

/-- A computation on user memory that yields text or throws `format_error`. -/
abbrev Formatting (σ : Type) := σ → Except format_error String × σ

/-- A `std::formatter<T, CharT>` specialisation: format spec, value, memory. -/
abbrev Formatter (σ T : Type) := List Char → T → Formatting σ

/-- One type-erased argument of `std::basic_format_args`: the referenced
value together with its formatter, still waiting for the format spec. -/
abbrev FormatArg (σ : Type) := List Char → Formatting σ

/-- The alias `FormatArgs<CharT>` of `record.hpp`. -/
abbrev FormatArgs (σ : Type) := List (FormatArg σ)

def lbrace : Char := Char.ofNat 123
def rbrace : Char := Char.ofNat 125
def colon : Char := Char.ofNat 58

/-- Position of the scanner of `std::vformat` inside the format string. -/
inductive ScanMode where
  | text
  | opened
  | field (content : List Char)
  | closed

/-- The format spec of a replacement field with automatic indexing. -/
def replacement_spec (content : List Char) : Option (List Char) :=
  match content with
  | [] => some []
  | c :: spec => if c = colon then some spec else none

/-- Formats the next argument with the field just closed. -/
def consume_field {σ : Type} (content : List Char) (args : FormatArgs σ) (s : σ) :
    Except format_error (List Char × FormatArgs σ) × σ :=
  match args with
  | [] => (.error ⟨"argument not found"⟩, s)
  | a :: rest =>
    match replacement_spec content with
    | none => (.error ⟨"manual indexing is outside the modelled fragment"⟩, s)
    | some spec =>
      match a spec s with
      | (.ok txt, s1) => (.ok (txt.data, rest), s1)
      | (.error e, s1) => (.error e, s1)

/-- The scanner of `std::vformat`, one character at a time. -/
def vformat_go {σ : Type} :
    List Char → ScanMode → FormatArgs σ → List Char → Formatting σ
  | [], .text, _, out => fun s => (.ok (String.mk out), s)
  | [], _, _, _ => fun s => (.error ⟨"unmatched brace in format string"⟩, s)
  | c :: cs, .text, args, out => fun s =>
    if c = lbrace then vformat_go cs .opened args out s
    else if c = rbrace then vformat_go cs .closed args out s
    else vformat_go cs .text args (out ++ [c]) s
  | c :: cs, .closed, args, out => fun s =>
    if c = rbrace then vformat_go cs .text args (out ++ [rbrace]) s
    else (.error ⟨"unmatched right brace in format string"⟩, s)
  | c :: cs, .opened, args, out => fun s =>
    if c = lbrace then vformat_go cs .text args (out ++ [lbrace]) s
    else if c = rbrace then
      match consume_field [] args s with
      | (.ok (txt, rest), s1) => vformat_go cs .text rest (out ++ txt) s1
      | (.error e, s1) => (.error e, s1)
    else vformat_go cs (.field [c]) args out s
  | c :: cs, .field content, args, out => fun s =>
    if c = rbrace then
      match consume_field content args s with
      | (.ok (txt, rest), s1) => vformat_go cs .text rest (out ++ txt) s1
      | (.error e, s1) => (.error e, s1)
    else vformat_go cs (.field (content ++ [c])) args out s

/-- The function `std::vformat(fmt, args)`. -/
def std_vformat {σ : Type} (fmt : String) (args : FormatArgs σ) : Formatting σ :=
  vformat_go fmt.data .text args []

/-- Left padding of `body` to `width` characters. -/
def pad_left (fill : Char) (width : Nat) (body : List Char) : List Char :=
  List.replicate (width - body.length) fill ++ body

/-- Integer formatting: `[0][width][d|x|X]`. -/
def format_int (spec : List Char) (v : Int) : Except format_error String :=
  let zero := spec.head? = some (Char.ofNat 48)
  let spec1 := if zero then spec.tail else spec
  let width := (spec1.takeWhile Char.isDigit).foldl (fun n c => 10 * n + (c.toNat - 48)) 0
  let sign : List Char := if v < 0 then [Char.ofNat 45] else []
  let finish (digits : List Char) : Except format_error String :=
    if zero then .ok (String.mk (sign ++ pad_left (Char.ofNat 48) (width - sign.length) digits))
    else .ok (String.mk (pad_left (Char.ofNat 32) width (sign ++ digits)))
  match spec1.dropWhile Char.isDigit with
  | [] => finish (Nat.toDigits 10 v.natAbs)
  | [t] =>
    if t = Char.ofNat 100 then finish (Nat.toDigits 10 v.natAbs)
    else if t = Char.ofNat 120 then finish (Nat.toDigits 16 v.natAbs)
    else if t = Char.ofNat 88 then finish ((Nat.toDigits 16 v.natAbs).map Char.toUpper)
    else .error ⟨"invalid presentation type for an integer"⟩
  | _ => .error ⟨"invalid format spec for an integer"⟩

/-- The specialisation `std::formatter<int>`. -/
def std_formatter_int {σ : Type} : Formatter σ Int :=
  fun spec v s => (format_int spec v, s)

/-- The specialisation `std::formatter<std::string>` and of string literals. -/
def std_formatter_string {σ : Type} : Formatter σ String :=
  fun spec v s =>
    match spec with
    | [] => (.ok v, s)
    | _ => (.error ⟨"string format specs are outside the modelled fragment"⟩, s)

/-- The specialisation `std::formatter<bool>`. -/
def std_formatter_bool {σ : Type} : Formatter σ Bool :=
  fun spec v s =>
    match spec with
    | [] => (.ok (if v then "true" else "false"), s)
    | _ => (.error ⟨"bool format specs are outside the modelled fragment"⟩, s)

/-- A finite `double`, written as the dyadic rational `num / 2 ^ exp2`. -/
structure Double where
  num : Int
  exp2 : Nat
deriving DecidableEq, Repr

/-- Removes trailing zero digits. -/
def strip_trailing_zeros (ds : List Char) : List Char :=
  (ds.reverse.dropWhile (fun c => c = Char.ofNat 48)).reverse

/-- Exact decimal expansion of a dyadic rational; it is what the default
presentation of a `double` prints when the expansion is short. -/
def format_double (v : Double) : String :=
  let n := v.num.natAbs
  let sign : List Char := if v.num < 0 then [Char.ofNat 45] else []
  let whole := Nat.toDigits 10 (n / 2 ^ v.exp2)
  let frac := strip_trailing_zeros
    (pad_left (Char.ofNat 48) v.exp2 (Nat.toDigits 10 ((n % 2 ^ v.exp2) * 5 ^ v.exp2)))
  match frac with
  | [] => String.mk (sign ++ whole)
  | _ => String.mk (sign ++ whole ++ [Char.ofNat 46] ++ frac)

/-- The specialisation `std::formatter<double>`, default presentation only. -/
def std_formatter_double {σ : Type} : Formatter σ Double :=
  fun spec v s =>
    match spec with
    | [] => (.ok (format_double v), s)
    | _ => (.error ⟨"double format specs are outside the modelled fragment"⟩, s)

/-! ## kv.hpp -/

/-- The function `detail::default_kv_value_format`. -/
def default_kv_value_format : String := "\x7b\x7d"

/-- The function `detail::format_kv_value(value, format)`: `std::vformat` of
`format` over the single argument `value`. -/
def format_kv_value {σ T : Type} (fmtr : Formatter σ T) (value : T) (format : String) :
    Formatting σ :=
  std_vformat format [fun spec => fmtr spec value]

/-- The one-argument overload `detail::format_kv_value(value)`. -/
def format_kv_value_default {σ T : Type} (fmtr : Formatter σ T) (value : T) : Formatting σ :=
  format_kv_value fmtr value default_kv_value_format

/-- The argument expression bound to a forwarding reference `T&& in_value`:
a named variable of the call site (an lvalue, read from user memory) or a
temporary (an rvalue). -/
inductive Forwarded (σ T : Type) where
  | lvalue (read : σ → T)
  | rvalue (v : T)

/-- What `detail::make_kv_value_holder` returns: `std::cref(value)` or an
owned `std::decay_t<T>` copy. -/
inductive KVValueHolder (σ T : Type) where
  | cref (read : σ → T)
  | owned (v : T)

/-- The function `detail::make_kv_value_holder`. -/
def make_kv_value_holder {σ T : Type} : Forwarded σ T → KVValueHolder σ T
  | .lvalue read => .cref read
  | .rvalue v => .owned v

/-- The two overloads of `detail::unwrap_kv_value_holder`. -/
def unwrap_kv_value_holder {σ T : Type} : KVValueHolder σ T → σ → T
  | .cref read, s => read s
  | .owned v, _ => v

/-- Key-value pair stored in a log record; `value_formatter` is the stored
`std::function<std::basic_string<CharT>()>`. -/
structure BasicKV (σ : Type) where
  key : String
  value_formatter : Formatting σ

/-- The constructor `BasicKV(in_key, in_value)`. -/
def BasicKV.ctor {σ T : Type} (fmtr : Formatter σ T) (in_key : String)
    (in_value : Forwarded σ T) : BasicKV σ :=
  let stored_value := make_kv_value_holder in_value
  { key := in_key
    value_formatter := fun s =>
      format_kv_value_default fmtr (unwrap_kv_value_holder stored_value s) s }

/-- The constructor `BasicKV(in_key, in_value, in_format)`. -/
def BasicKV.ctor_format {σ T : Type} (fmtr : Formatter σ T) (in_key : String)
    (in_value : Forwarded σ T) (in_format : String) : BasicKV σ :=
  let stored_value := make_kv_value_holder in_value
  let format := in_format
  { key := in_key
    value_formatter := fun s =>
      format_kv_value fmtr (unwrap_kv_value_holder stored_value s) format s }

/-- How a call of a `noexcept` function ends: it returns, or an exception
reaches its boundary and `std::terminate` is called. -/
inductive Completion (α : Type) where
  | returned (a : α)
  | terminated
deriving DecidableEq, Repr

def BasicKV.get_key {σ : Type} (self : BasicKV σ) : String := self.key

/-- The member `get_value() const noexcept`: runs the stored formatter. -/
def BasicKV.get_value {σ : Type} (self : BasicKV σ) (s : σ) : Completion String × σ :=
  match self.value_formatter s with
  | (.ok text, s1) => (.returned text, s1)
  | (.error _, s1) => (.terminated, s1)

/-- The alias `BasicKVList<CharT>`, a `std::vector` of fields. -/
abbrev BasicKVList (σ : Type) := List (BasicKV σ)

/-! ## record.hpp -/

/-- The type `std::source_location`. -/
structure source_location where
  function_name : String := ""
  file_name : String := ""
  line : Nat := 0
  column : Nat := 0
deriving DecidableEq, Repr

/-- The function `make_empty_format_args`. -/
def make_empty_format_args {σ : Type} : FormatArgs σ := []

/-- Structured log payload delivered to logger implementations. -/
structure BasicRecord (σ : Type) where
  metadata : BasicMetadata := {}
  format_string : String := ""
  args : FormatArgs σ := make_empty_format_args
  kvs : BasicKVList σ := []
  module : Option source_location := none

namespace BasicRecord

variable {σ : Type}

def get_metadata (self : BasicRecord σ) : BasicMetadata := self.metadata

def get_format_string (self : BasicRecord σ) : String := self.format_string

def get_args (self : BasicRecord σ) : FormatArgs σ := self.args

def get_kvs (self : BasicRecord σ) : BasicKVList σ := self.kvs

def get_level (self : BasicRecord σ) : Level := self.metadata.level

def get_target (self : BasicRecord σ) : String := self.metadata.target

def get_module_path (self : BasicRecord σ) : Option String :=
  match self.module with
  | some m => some m.function_name
  | none => none

def get_file (self : BasicRecord σ) : Option String :=
  match self.module with
  | some m => some m.file_name
  | none => none

def get_line (self : BasicRecord σ) : Option Nat :=
  match self.module with
  | some m => some m.line
  | none => none

end BasicRecord

/-- Builder for `BasicRecord`. -/
structure BasicRecordBuilder (σ : Type) where
  record : BasicRecord σ := {}

namespace BasicRecordBuilder

variable {σ : Type}

def set_metadata (self : BasicRecordBuilder σ) (metadata : BasicMetadata) :
    BasicRecordBuilder σ :=
  { self with record := { self.record with metadata := metadata } }

def set_level (self : BasicRecordBuilder σ) (level : Level) : BasicRecordBuilder σ :=
  { self with record :=
      { self.record with metadata := { self.record.metadata with level := level } } }

def set_target (self : BasicRecordBuilder σ) (target : String) : BasicRecordBuilder σ :=
  { self with record :=
      { self.record with metadata := { self.record.metadata with target := target } } }

def set_format_string (self : BasicRecordBuilder σ) (format_string : String) :
    BasicRecordBuilder σ :=
  { self with record := { self.record with format_string := format_string } }

def set_args (self : BasicRecordBuilder σ) (args : FormatArgs σ) : BasicRecordBuilder σ :=
  { self with record := { self.record with args := args } }

def set_kvs (self : BasicRecordBuilder σ) (kvs : BasicKVList σ) : BasicRecordBuilder σ :=
  { self with record := { self.record with kvs := kvs } }

def set_module (self : BasicRecordBuilder σ) (module : source_location) :
    BasicRecordBuilder σ :=
  { self with record := { self.record with module := some module } }

def build (self : BasicRecordBuilder σ) : BasicRecord σ := self.record

end BasicRecordBuilder

/-! ## log_interface.hpp -/

/-- Logger interface consumed by log_pp: the three virtual members of
`BasicLogger<CharT>`, acting on user memory.  `enabled` is `const noexcept`
in the source, which does not keep an implementation from writing to
memory outside the object (the test sink of `macro_test.cpp` prints). -/
structure BasicLogger (σ : Type) where
  enabled : BasicMetadata → σ → Bool × σ
  log : BasicRecord σ → σ → σ
  flush : σ → σ

/-! ## log.cpp and log.hpp -/

/-- A reference `BasicLogger<CharT>&`: the function-local static
`default_logger` of `global_logger()`, or a logger object of the program,
named by its address. -/
inductive LoggerRef where
  | default_logger
  | object (addr : Nat)
deriving DecidableEq, Repr

/-- Points of the pipeline recorded in `World.trace`. -/
inductive Event (σ : Type) where
  | kv_constructed (key : String)
  | args_created (count : Nat)
  | max_level_read
  | metadata_built (metadata : BasicMetadata)
  | enabled_called (logger : LoggerRef) (metadata : BasicMetadata)
  | record_built (record : BasicRecord σ)
  | log_called (logger : LoggerRef) (record : BasicRecord σ)

/-- The state of a running process: the atomic `MAX_LOG_LEVEL_FILTER` of
`log.cpp`, the static `current` of `global_logger()`, whether the
`std::once_flag` of `logger_flag()` has been used, the user memory, and the
recorded events. -/
structure World (σ : Type) where
  MAX_LOG_LEVEL_FILTER : LevelFilter := LevelFilter.Trace
  current : LoggerRef := LoggerRef.default_logger
  flag_used : Bool := false
  user : σ
  trace : List (Event σ) := []

/-- The state at process start, over the user memory `s`. -/
def World.start {σ : Type} (s : σ) : World σ := { user := s }

/-- Appends one event to the recorded trace. -/
def World.emit {σ : Type} (w : World σ) (e : Event σ) : World σ :=
  { w with trace := w.trace ++ [e] }

/-- What is fixed when the program is built: the value of the preprocessor
constant `LOG_PP_DETAIL_ACTIVE_COMPILE_LEVEL` (defined by `comptime_filter.hpp`,
which is not among the sources; every overload of `level <= x` compares
`static_cast<int>`), and the logger objects the program defines. -/
structure Program (σ : Type) where
  LOG_PP_DETAIL_ACTIVE_COMPILE_LEVEL : LevelFilter
  object : Nat → BasicLogger σ

/-- The class `default_logger_t`. -/
def default_logger_t {σ : Type} : BasicLogger σ where
  enabled := fun _ s => (false, s)
  log := fun _ s => s
  flush := fun s => s

/-- The object a logger reference designates. -/
def Program.deref {σ : Type} (P : Program σ) : LoggerRef → BasicLogger σ
  | .default_logger => default_logger_t
  | .object addr => P.object addr

/-- The function `set_max_level`. -/
def set_max_level {σ : Type} (level : LevelFilter) (w : World σ) : World σ :=
  { w with MAX_LOG_LEVEL_FILTER := level }

/-- The function `max_level`. -/
def max_level {σ : Type} (w : World σ) : LevelFilter :=
  w.MAX_LOG_LEVEL_FILTER

/-- The function `enabled(logger, level, target)` of `log.hpp`; the two `&&`
short-circuit from left to right. -/
def enabled {σ : Type} (P : Program σ) (logger : LoggerRef) (level : Level)
    (target : String) (w : World σ) : Bool × World σ :=
  if level.le_filter P.LOG_PP_DETAIL_ACTIVE_COMPILE_LEVEL then
    let w1 := w.emit .max_level_read
    if level.le_filter (max_level w1) then
      let metadata := (((BasicMetadataBuilder.mk {}).set_level level).set_target target).build
      let w2 := (w1.emit (.metadata_built metadata)).emit (.enabled_called logger metadata)
      let answer := (P.deref logger).enabled metadata w2.user
      (answer.1, { w2 with user := answer.2 })
    else (false, w1)
  else (false, w)

/-- The function `set_logger`: `std::call_once` runs the assignment only while
the flag is unused; the result compares addresses. -/
def set_logger {σ : Type} (logger : LoggerRef) (w : World σ) : Bool × World σ :=
  let w1 := if w.flag_used then w else { w with current := logger, flag_used := true }
  (decide (w1.current = logger), w1)

/-- The function `logger`. -/
def logger {σ : Type} (w : World σ) : LoggerRef := w.current

/-- The function `log_impl`. -/
def log_impl {σ : Type} (P : Program σ) (logger : LoggerRef) (level : Level)
    (target : String) (module : source_location) (fmt : String) (args : FormatArgs σ)
    (kvs : List (BasicKV σ)) (w : World σ) : World σ :=
  let admitted := enabled P logger level target w
  if admitted.1 then
    let record_builder :=
      ((((((BasicRecordBuilder.mk {}).set_level level).set_target target).set_args args).set_kvs
        kvs).set_format_string fmt).set_module module
    let record := record_builder.build
    let w1 := (admitted.2.emit (.record_built record)).emit (.log_called logger record)
    { w1 with user := (P.deref logger).log record w1.user }
  else admitted.2

/-- The wrapper `basic_target_t<CharT>`. -/
structure basic_target_t where
  val : String
deriving DecidableEq, Repr

/-- One positional argument `Args&&... args` of `log`, with the
`std::formatter` specialisation of its type. -/
structure Arg (σ : Type) where
  T : Type
  formatter : Formatter σ T
  value : Forwarded σ T

/-- The value an argument expression denotes in the current memory. -/
def Forwarded.read {σ T : Type} : Forwarded σ T → σ → T
  | .lvalue read, s => read s
  | .rvalue v, _ => v

/-- The function `std::make_format_args(args...)`: a bundle of references to
the arguments, each with its formatter; nothing is formatted. -/
def make_format_args {σ : Type} (args : List (Arg σ)) : FormatArgs σ :=
  args.map (fun a => fun spec s => a.formatter spec (a.value.read s) s)

/-- The sixteen overloads of `log`: explicit or global logger, with or without
target, with or without key-values, typed or C-string format.  An absent
logger is `logger<CharT>()`, an absent target is `{}`, absent key-values are
the default argument `kvs = {}` of `log_impl`; both kinds of format string
reach `log_impl` as a string view. -/
def log {σ : Type} (P : Program σ) (level : Level) (module : source_location)
    (explicit_logger : Option LoggerRef) (target : Option basic_target_t)
    (kvs : Option (List (BasicKV σ))) (fmt : String) (args : List (Arg σ))
    (w : World σ) : World σ :=
  let store := make_format_args args
  let w1 := w.emit (.args_created args.length)
  let lg := match explicit_logger with
    | some l => l
    | none => log_pp.logger w1
  let tgt := match target with
    | some t => t.val
    | none => ""
  match kvs with
  | some k => log_impl P lg level tgt module fmt store k w1
  | none => log_impl P lg level tgt module fmt store [] w1

/-- One element `{key, value}` or `{key, value, format}` of the braced
key-value list of a call site, with the formatter of the value's type. -/
structure KVInit (σ : Type) where
  T : Type
  formatter : Formatter σ T
  in_key : String
  in_value : Forwarded σ T
  in_format : Option String := none

/-- The `BasicKV` constructor the element selects. -/
def KVInit.construct {σ : Type} (i : KVInit σ) : BasicKV σ :=
  match i.in_format with
  | none => BasicKV.ctor i.formatter i.in_key i.in_value
  | some f => BasicKV.ctor_format i.formatter i.in_key i.in_value f

/-- The arguments a call site writes after the level. -/
structure CallArgs (σ : Type) where
  explicit_logger : Option LoggerRef := none
  target : Option basic_target_t := none
  kvs : Option (List (KVInit σ)) := none
  fmt : String
  args : List (Arg σ) := []

/-- The statement `LOG_PP(level, ...)`, which expands to
`log_pp::log(level, std::source_location::current(), ...)`: the key-value
fields of the braced list are constructed while the arguments are evaluated,
then `log` is entered. -/
def LOG_PP {σ : Type} (P : Program σ) (level : Level) (here : source_location)
    (va : CallArgs σ) (w : World σ) : World σ :=
  match va.kvs with
  | none => log P level here va.explicit_logger va.target none va.fmt va.args w
  | some inits =>
    let kvs := inits.map KVInit.construct
    let w1 : World σ :=
      { w with trace := w.trace ++ inits.map (fun i => Event.kv_constructed i.in_key) }
    log P level here va.explicit_logger va.target (some kvs) va.fmt va.args w1

def LOG_PP_TRACE {σ : Type} (P : Program σ) (here : source_location) (va : CallArgs σ)
    (w : World σ) : World σ :=
  LOG_PP P Level.Trace here va w

def LOG_PP_DEBUG {σ : Type} (P : Program σ) (here : source_location) (va : CallArgs σ)
    (w : World σ) : World σ :=
  LOG_PP P Level.Debug here va w

def LOG_PP_INFO {σ : Type} (P : Program σ) (here : source_location) (va : CallArgs σ)
    (w : World σ) : World σ :=
  LOG_PP P Level.Info here va w

def LOG_PP_WARN {σ : Type} (P : Program σ) (here : source_location) (va : CallArgs σ)
    (w : World σ) : World σ :=
  LOG_PP P Level.Warning here va w

def LOG_PP_ERROR {σ : Type} (P : Program σ) (here : source_location) (va : CallArgs σ)
    (w : World σ) : World σ :=
  LOG_PP P Level.Error here va w

/-! ## Reading the recorded trace -/

/-- The calls of a sink's `enabled` in a trace, in order. -/
def enabled_calls {σ : Type} (t : List (Event σ)) : List (LoggerRef × BasicMetadata) :=
  t.filterMap (fun e =>
    match e with
    | .enabled_called l m => some (l, m)
    | _ => none)

/-- The calls of a sink's `log` in a trace, in order. -/
def log_calls {σ : Type} (t : List (Event σ)) : List (LoggerRef × BasicRecord σ) :=
  t.filterMap (fun e =>
    match e with
    | .log_called l r => some (l, r)
    | _ => none)

/-- The records built in a trace, in order. -/
def records_built {σ : Type} (t : List (Event σ)) : List (BasicRecord σ) :=
  t.filterMap (fun e =>
    match e with
    | .record_built r => some r
    | _ => none)

/-- The metadata values built in a trace, in order. -/
def metadata_built {σ : Type} (t : List (Event σ)) : List BasicMetadata :=
  t.filterMap (fun e =>
    match e with
    | .metadata_built m => some m
    | _ => none)

/-- The keys of the key-value fields constructed in a trace, in order. -/
def kvs_constructed {σ : Type} (t : List (Event σ)) : List String :=
  t.filterMap (fun e =>
    match e with
    | .kv_constructed k => some k
    | _ => none)

/-- The sizes of the positional-argument bundles created in a trace. -/
def args_bundles {σ : Type} (t : List (Event σ)) : List Nat :=
  t.filterMap (fun e =>
    match e with
    | .args_created n => some n
    | _ => none)

/-- The text every field of a list renders to in memory `s`, each read on
its own from `s`. -/
def rendered_values {σ : Type} (kvs : List (BasicKV σ)) (s : σ) : List (Completion String) :=
  kvs.map (fun kv => (kv.get_value s).1)

/-! ## Sinks of the examples and tests -/

/-- Memory of a process that prints: the text written to `std::cout`, and
whether `std::terminate` was called. -/
structure ConsoleMemory where
  stdout : String := ""
  stopped : Bool := false
deriving DecidableEq, Repr

/-- The accumulation `"{}: {}, "` over the fields in the `log` members of the
example sinks. -/
def kv_text : List (BasicKV ConsoleMemory) → String → ConsoleMemory →
    Completion String × ConsoleMemory
  | [], acc, m => (.returned acc, m)
  | kv :: rest, acc, m =>
    match kv.get_value m with
    | (.returned v, m1) => kv_text rest (acc ++ kv.get_key ++ ": " ++ v ++ ", ") m1
    | (.terminated, m1) => (.terminated, m1)

/-- The body shared by the `log` members of the example sinks: the field
text, the message, then one line `<tag>[<level>] [<target>] <fields><message>`
on `std::cout`.  The members are `noexcept`, so a formatting failure
terminates. -/
def example_log (tag : String) (record : BasicRecord ConsoleMemory) (m : ConsoleMemory) :
    ConsoleMemory :=
  match kv_text record.get_kvs "" m with
  | (.terminated, m1) => { m1 with stopped := true }
  | (.returned text, m1) =>
    match std_vformat record.get_format_string record.get_args m1 with
    | (.error _, m2) => { m2 with stopped := true }
    | (.ok message, m2) =>
      { m2 with stdout := m2.stdout ++ tag ++ "[" ++ to_str record.get_level ++ "] [" ++
          record.get_target ++ "] " ++ text ++ message ++ "\n" }

namespace target_filter

/-- The member `SimpleLogger::enabled` of `examples/target_filter/main.cpp`. -/
def SimpleLogger.enabled (meta : BasicMetadata) : Bool :=
  if meta.get_target = "enabled_target" then true
  else if meta.get_target = "disabled_target" then false
  else if meta.get_target = "info_target" then meta.get_level.le Level.Info
  else true

/-- The member `SimpleLogger::log` of `examples/target_filter/main.cpp`. -/
def SimpleLogger.log (record : BasicRecord ConsoleMemory) (m : ConsoleMemory) : ConsoleMemory :=
  example_log "" record m

/-- The class `SimpleLogger` of `examples/target_filter/main.cpp`. -/
def SimpleLogger : BasicLogger ConsoleMemory where
  enabled := fun meta m => (SimpleLogger.enabled meta, m)
  log := SimpleLogger.log
  flush := fun m => m

end target_filter

namespace local_logger

/-- The class `SimpleLogger` of `examples/local_logger/main.cpp`. -/
def SimpleLogger : BasicLogger ConsoleMemory where
  enabled := fun _ m => (true, m)
  log := example_log "SimpleLogger: "
  flush := fun m => m

/-- The class `LocalLogger` of `examples/local_logger/main.cpp`. -/
def LocalLogger : BasicLogger ConsoleMemory where
  enabled := fun _ m => (true, m)
  log := example_log "LocalLogger: "
  flush := fun m => m

end local_logger

namespace macro_test

/-- The bracketed, comma-separated field list printed by `SimpleLogger::log`. -/
def kvs_text : List (BasicKV ConsoleMemory) → Bool → String → ConsoleMemory →
    Completion String × ConsoleMemory
  | [], _, acc, m => (.returned acc, m)
  | kv :: rest, first, acc, m =>
    let acc1 := if first then acc else acc ++ ","
    match kv.get_value m with
    | (.returned v, m1) => kvs_text rest false (acc1 ++ kv.get_key ++ "=" ++ v) m1
    | (.terminated, m1) => (.terminated, m1)

/-- The member `SimpleLogger::enabled` of `tests/macro_test.cpp`: it prints and
answers true. -/
def SimpleLogger.enabled (meta : BasicMetadata) (m : ConsoleMemory) : Bool × ConsoleMemory :=
  (true, { m with stdout := m.stdout ++ "Enabled check: " ++ to_str meta.get_level ++ " - " ++
      meta.get_target ++ "\n\n" })

/-- The member `SimpleLogger::log` of `tests/macro_test.cpp`. -/
def SimpleLogger.log (record : BasicRecord ConsoleMemory) (m : ConsoleMemory) : ConsoleMemory :=
  let level := "[" ++ to_str record.get_level ++ "]"
  let target := "[" ++ record.get_target ++ "]"
  let kvs :=
    match record.get_kvs with
    | [] => (Completion.returned "[]", m)
    | fields =>
      match kvs_text fields true "[" m with
      | (.returned text, m1) => (Completion.returned (text ++ "]"), m1)
      | (.terminated, m1) => (Completion.terminated, m1)
  match kvs with
  | (.terminated, m1) => { m1 with stopped := true }
  | (.returned kvs_str, m1) =>
    let module :=
      match record.get_module_path with
      | some path => "[" ++ path ++ "]"
      | none => ""
    let file_line :=
      match record.get_file, record.get_line with
      | some file, some line => "[" ++ file ++ ":" ++ toString line ++ "]"
      | _, _ => ""
    match std_vformat record.get_format_string record.get_args m1 with
    | (.error _, m2) => { m2 with stopped := true }
    | (.ok message, m2) =>
      { m2 with stdout := m2.stdout ++ level ++ " " ++ target ++ " " ++ kvs_str ++ " " ++
          module ++ " " ++ file_line ++ " " ++ message ++ "\n" }

/-- The class `SimpleLogger` of `tests/macro_test.cpp`. -/
def SimpleLogger : BasicLogger ConsoleMemory where
  enabled := SimpleLogger.enabled
  log := SimpleLogger.log
  flush := fun m => m

end macro_test

namespace kv_test

/-- The value type `CountingValue` of `tests/kv_test.cpp`. -/
structure CountingValue where
  value : Int := 0
deriving DecidableEq, Repr

/-- Memory of the key-value tests: the members of the `CaptureLogger<char>`
object, the global `g_counting_value_format_calls`, and whether an exception
left the sink or `std::terminate` was called. -/
structure Memory where
  last_target : String := ""
  last_message : String := ""
  last_kv_dump : String := ""
  g_counting_value_format_calls : Int := 0
  stopped : Bool := false
deriving DecidableEq, Repr

/-- The specialisation `std::formatter<CountingValue, char>`: `parse` is the
integer formatter's, `format` increments the global counter and formats the
wrapped integer. -/
def formatter_CountingValue : Formatter Memory CountingValue :=
  fun spec v m =>
    match format_int spec v.value with
    | .error e => (.error e, m)
    | .ok text =>
      (.ok text, { m with g_counting_value_format_calls := m.g_counting_value_format_calls + 1 })

/-- The loop of `CaptureLogger<char>::log` that fills `last_kv_dump`. -/
def CaptureLogger.dump : List (BasicKV Memory) → Bool → Memory → Memory
  | [], _, m => m
  | kv :: rest, first, m =>
    let m1 := if first then m else { m with last_kv_dump := m.last_kv_dump ++ ";" }
    match kv.get_value m1 with
    | (.returned v, m2) =>
      CaptureLogger.dump rest false
        { m2 with last_kv_dump := m2.last_kv_dump ++ kv.get_key ++ "=" ++ v }
    | (.terminated, m2) => { m2 with stopped := true }

/-- The member `CaptureLogger<char>::log` of `tests/kv_test.cpp`. -/
def CaptureLogger.log (record : BasicRecord Memory) (m : Memory) : Memory :=
  let m1 := { m with last_target := record.get_target }
  match std_vformat record.get_format_string record.get_args m1 with
  | (.error _, m2) => { m2 with stopped := true }
  | (.ok message, m2) =>
    CaptureLogger.dump record.get_kvs true
      { m2 with last_message := message, last_kv_dump := "" }

/-- The class `CaptureLogger<char>` of `tests/kv_test.cpp`. -/
def CaptureLogger : BasicLogger Memory where
  enabled := fun _ m => (true, m)
  log := CaptureLogger.log
  flush := fun m => m

end kv_test

namespace fallback_test

/-- Memory of `tests/compile_filter_release_fallback_test.cpp`: the members of
`shared_logger`, and whether `std::terminate` was called. -/
structure Memory where
  last_message : String := ""
  last_level : Level := Level.Error
  stopped : Bool := false
deriving DecidableEq, Repr

/-- The member `CaptureLogger::log` of the fallback test; it is `noexcept`. -/
def CaptureLogger.log (record : BasicRecord Memory) (m : Memory) : Memory :=
  let m1 := { m with last_level := record.get_level }
  match std_vformat record.get_format_string record.get_args m1 with
  | (.error _, m2) => { m2 with stopped := true }
  | (.ok message, m2) => { m2 with last_message := message }

/-- The class `CaptureLogger` of the fallback test. -/
def CaptureLogger : BasicLogger Memory where
  enabled := fun _ m => (true, m)
  log := CaptureLogger.log
  flush := fun m => m

end fallback_test

end log_pp

namespace log_pp

/-! ## Programs of the examples and tests -/

/-- The program `examples/target_filter/main.cpp`, built with static ceiling
`c`: its one logger object is the static `SimpleLogger logger`. -/
def target_filter.program (c : LevelFilter) : Program ConsoleMemory where
  LOG_PP_DETAIL_ACTIVE_COMPILE_LEVEL := c
  object := fun _ => target_filter.SimpleLogger

/-- The program `examples/local_logger/main.cpp`, built with static ceiling
`c`: object 0 is the static `SimpleLogger logger`, every other address a
`LocalLogger`. -/
def local_logger.program (c : LevelFilter) : Program ConsoleMemory where
  LOG_PP_DETAIL_ACTIVE_COMPILE_LEVEL := c
  object := fun addr => if addr = 0 then local_logger.SimpleLogger else local_logger.LocalLogger

/-- The test binary of `tests/macro_test.cpp`, built with static ceiling `c`. -/
def macro_test.program (c : LevelFilter) : Program ConsoleMemory where
  LOG_PP_DETAIL_ACTIVE_COMPILE_LEVEL := c
  object := fun _ => macro_test.SimpleLogger

/-- The test binary of `tests/kv_test.cpp`, built with static ceiling `c`. -/
def kv_test.program (c : LevelFilter) : Program kv_test.Memory where
  LOG_PP_DETAIL_ACTIVE_COMPILE_LEVEL := c
  object := fun _ => kv_test.CaptureLogger

/-- The test binary of `tests/compile_filter_release_fallback_test.cpp`, built
with static ceiling `c`. -/
def fallback_test.program (c : LevelFilter) : Program fallback_test.Memory where
  LOG_PP_DETAIL_ACTIVE_COMPILE_LEVEL := c
  object := fun _ => fallback_test.CaptureLogger

/-- An integer literal passed as a positional argument or field value. -/
def Arg.int {σ : Type} (v : Int) : Arg σ :=
  { T := Int, formatter := std_formatter_int, value := .rvalue v }

/-- A string literal passed as a positional argument. -/
def Arg.str {σ : Type} (v : String) : Arg σ :=
  { T := String, formatter := std_formatter_string, value := .rvalue v }

end log_pp

namespace log_pp

/-! ## What a call site hands to `log_impl` -/

/-- The sink a call addresses: the explicit logger, else `logger<CharT>()`. -/
def CallArgs.sink {σ : Type} (va : CallArgs σ) (w : World σ) : LoggerRef :=
  match va.explicit_logger with
  | some l => l
  | none => logger w

/-- The target text a call passes on: `target.val`, else the empty view. -/
def CallArgs.target_text {σ : Type} (va : CallArgs σ) : String :=
  match va.target with
  | some t => t.val
  | none => ""

/-- The key-value fields a call passes on: those constructed from its braced
list, else the empty default. -/
def CallArgs.fields {σ : Type} (va : CallArgs σ) : List (BasicKV σ) :=
  match va.kvs with
  | some inits => inits.map KVInit.construct
  | none => []

/-- The events of evaluating a call's arguments: one per constructed field,
then the creation of the positional-argument bundle. -/
def CallArgs.capture_events {σ : Type} (va : CallArgs σ) : List (Event σ) :=
  (match va.kvs with
    | some inits => inits.map (fun i => Event.kv_constructed i.in_key)
    | none => []) ++ [Event.args_created va.args.length]

/-- The record `log_impl` builds for an admitted call. -/
def dispatched_record {σ : Type} (L : Level) (T : String) (module : source_location)
    (fmt : String) (args : FormatArgs σ) (kvs : List (BasicKV σ)) : BasicRecord σ :=
  { metadata := { level := L, target := T }
    format_string := fmt
    args := args
    kvs := kvs
    module := some module }

end log_pp

namespace log_pp

/-! ## Sequences of facade calls -/

/-- A series of `set_logger` calls, one after the other, with the value each
call returns. -/
def set_logger_series {σ : Type} : List LoggerRef → World σ → List Bool × World σ
  | [], w => ([], w)
  | a :: rest, w =>
    ((set_logger a w).1 :: (set_logger_series rest (set_logger a w).2).1,
      (set_logger_series rest (set_logger a w).2).2)

/-- One call of the facade made by a single-threaded program. -/
inductive Step (σ : Type) where
  | set_max_level (level : LevelFilter)
  | set_logger (logger : LoggerRef)
  | log (level : Level) (here : source_location) (va : CallArgs σ)

/-- Whether the step is a `set_logger` call. -/
def Step.is_set_logger {σ : Type} : Step σ → Bool
  | .set_logger _ => true
  | _ => false

/-- The state after one step. -/
def Step.run {σ : Type} (P : Program σ) : Step σ → World σ → World σ
  | .set_max_level level, w => log_pp.set_max_level level w
  | .set_logger l, w => (log_pp.set_logger l w).2
  | .log level here va, w => LOG_PP P level here va w

/-- The state after a sequence of steps. -/
def run {σ : Type} (P : Program σ) : List (Step σ) → World σ → World σ
  | [], w => w
  | st :: rest, w => run P rest (st.run P w)

/-- The text the value of a braced key-value element formats to in memory `s`
under the element's own format, or under `{}` when it has none; `terminated`
when that formatting throws. -/
def KVInit.rendered {σ : Type} (i : KVInit σ) (s : σ) : Completion String :=
  let format := match i.in_format with
    | some f => f
    | none => "\x7b\x7d"
  match (std_vformat format [fun spec => i.formatter spec (i.in_value.read s)] s).1 with
  | .ok text => .returned text
  | .error _ => .terminated

/-- The braced key-value list of a call, empty when the call has none. -/
def CallArgs.inits {σ : Type} (va : CallArgs σ) : List (KVInit σ) :=
  match va.kvs with
  | some inits => inits
  | none => []

namespace kv_test

/-- The call of the test `kv_value_format_is_not_evaluated_when_log_is_filtered_out`:
explicit logger, one field `{"counted", CountingValue{31}, "0x{:X}"}`, format
`"filtered {}"` with the argument `"out"`. -/
def counted_call : CallArgs Memory where
  explicit_logger := some (.object 0)
  kvs := some [{ T := CountingValue, formatter := formatter_CountingValue, in_key := "counted",
                 in_value := .rvalue { value := 31 }, in_format := some "0x\x7b:X\x7d" }]
  fmt := "filtered \x7b\x7d"
  args := [Arg.str "out"]

/-- The call of the test `format_string_and_kv_without_target`: explicit
logger, fields `{"id", 100}`, `{"user", "alice"}`, `{"ratio", 1.25}`, format
`"message {} {}"` with the arguments `"ok"` and `7`. -/
def without_target_call : CallArgs Memory where
  explicit_logger := some (.object 0)
  kvs := some [{ T := Int, formatter := std_formatter_int, in_key := "id", in_value := .rvalue 100 },
               { T := String, formatter := std_formatter_string, in_key := "user",
                 in_value := .rvalue "alice" },
               { T := Double, formatter := std_formatter_double, in_key := "ratio",
                 in_value := .rvalue { num := 5, exp2 := 2 } }]
  fmt := "message \x7b\x7d \x7b\x7d"
  args := [Arg.str "ok", Arg.int 7]

end kv_test

namespace fallback_test

/-- The state both tests of the fallback file arrange: `shared_logger` bound by
`set_logger`, runtime ceiling set to Trace. -/
def arranged : World Memory :=
  set_max_level LevelFilter.Trace (set_logger (.object 0) (World.start {})).2

/-- The arguments of `LOG_PP_DEBUG("debug {}", 1)`. -/
def debug_call : CallArgs Memory := { fmt := "debug \x7b\x7d", args := [Arg.int 1] }

/-- The arguments of `LOG_PP_TRACE("trace {}", 2)`. -/
def trace_call : CallArgs Memory := { fmt := "trace \x7b\x7d", args := [Arg.int 2] }

/-- The arguments of `LOG_PP_INFO("info {}", 1)`. -/
def info_call : CallArgs Memory := { fmt := "info \x7b\x7d", args := [Arg.int 1] }

end fallback_test

end log_pp


namespace log_pp

/-! ## level.hpp: the remaining operators -/

/-- The comparison `operator<=>(Level, int)`. -/
def Level.spaceship_int (lhs : Level) (rhs : Int) : Ordering :=
  compare lhs.val rhs

/-- The comparison `operator<=>(int, Level)`. -/
def Level.int_spaceship (lhs : Int) (rhs : Level) : Ordering :=
  compare lhs rhs.val

/-- The operator `operator==(Level, Level)`. -/
def Level.eq (lhs rhs : Level) : Bool :=
  decide (lhs.val = rhs.val)

/-- The operator `operator==(Level, int)`. -/
def Level.eq_int (lhs : Level) (rhs : Int) : Bool :=
  decide (lhs.val = rhs)

/-- The operator `operator==(int, Level)`, which returns `rhs == lhs`. -/
def Level.int_eq (lhs : Int) (rhs : Level) : Bool :=
  Level.eq_int rhs lhs

/-- The operator `operator!=(Level, Level)`. -/
def Level.ne (lhs rhs : Level) : Bool :=
  !(Level.eq lhs rhs)

/-- The operator `operator!=(Level, int)`. -/
def Level.ne_int (lhs : Level) (rhs : Int) : Bool :=
  !(Level.eq_int lhs rhs)

/-- The operator `operator!=(int, Level)`, which returns `!(rhs == lhs)`. -/
def Level.int_ne (lhs : Int) (rhs : Level) : Bool :=
  !(Level.eq_int rhs lhs)

/-- The expression `lhs < rhs` on two levels: `(lhs <=> rhs) < 0`. -/
def Level.lt (lhs rhs : Level) : Bool :=
  Level.spaceship lhs rhs == .lt

/-- The expression `lhs > rhs` on two levels: `(lhs <=> rhs) > 0`. -/
def Level.gt (lhs rhs : Level) : Bool :=
  Level.spaceship lhs rhs == .gt

/-- The expression `lhs >= rhs` on two levels: `(lhs <=> rhs) >= 0`. -/
def Level.ge (lhs rhs : Level) : Bool :=
  (Level.spaceship lhs rhs).isGE

/-- The expression `lhs < rhs` on a level and an `int`. -/
def Level.lt_int (lhs : Level) (rhs : Int) : Bool :=
  Level.spaceship_int lhs rhs == .lt

/-- The expression `lhs > rhs` on a level and an `int`. -/
def Level.gt_int (lhs : Level) (rhs : Int) : Bool :=
  Level.spaceship_int lhs rhs == .gt

/-- The expression `lhs < rhs` on an `int` and a level. -/
def Level.int_lt (lhs : Int) (rhs : Level) : Bool :=
  Level.int_spaceship lhs rhs == .lt

/-- The expression `lhs > rhs` on an `int` and a level. -/
def Level.int_gt (lhs : Int) (rhs : Level) : Bool :=
  Level.int_spaceship lhs rhs == .gt

/-- The comparison `operator<=>(LevelFilter, LevelFilter)`. -/
def LevelFilter.spaceship (lhs rhs : LevelFilter) : Ordering :=
  compare lhs.val rhs.val

/-- The comparison `operator<=>(LevelFilter, Level)`. -/
def LevelFilter.spaceship_level (lhs : LevelFilter) (rhs : Level) : Ordering :=
  compare lhs.val rhs.val

/-- The operator `operator==(LevelFilter, LevelFilter)`. -/
def LevelFilter.eq (lhs rhs : LevelFilter) : Bool :=
  decide (lhs.val = rhs.val)

/-- The operator `operator==(LevelFilter, Level)`. -/
def LevelFilter.eq_level (lhs : LevelFilter) (rhs : Level) : Bool :=
  decide (lhs.val = rhs.val)

/-- The operator `operator==(Level, LevelFilter)`, which returns `rhs == lhs`. -/
def Level.eq_filter (lhs : Level) (rhs : LevelFilter) : Bool :=
  LevelFilter.eq_level rhs lhs

/-- The operator `operator!=(LevelFilter, LevelFilter)`. -/
def LevelFilter.ne (lhs rhs : LevelFilter) : Bool :=
  !(LevelFilter.eq lhs rhs)

/-- The operator `operator!=(LevelFilter, Level)`. -/
def LevelFilter.ne_level (lhs : LevelFilter) (rhs : Level) : Bool :=
  !(LevelFilter.eq_level lhs rhs)

/-- The operator `operator!=(Level, LevelFilter)`, which returns `!(rhs == lhs)`. -/
def Level.ne_filter (lhs : Level) (rhs : LevelFilter) : Bool :=
  !(LevelFilter.eq_level rhs lhs)

/-- The expression `lhs < rhs` on two filters. -/
def LevelFilter.lt (lhs rhs : LevelFilter) : Bool :=
  LevelFilter.spaceship lhs rhs == .lt

/-- The expression `lhs > rhs` on two filters. -/
def LevelFilter.gt (lhs rhs : LevelFilter) : Bool :=
  LevelFilter.spaceship lhs rhs == .gt

/-- The expression `lhs <= rhs` on two filters. -/
def LevelFilter.le (lhs rhs : LevelFilter) : Bool :=
  (LevelFilter.spaceship lhs rhs).isLE

/-- The expression `lhs < rhs` on a filter and a level. -/
def LevelFilter.lt_level (lhs : LevelFilter) (rhs : Level) : Bool :=
  LevelFilter.spaceship_level lhs rhs == .lt

/-- The expression `lhs > rhs` on a filter and a level. -/
def LevelFilter.gt_level (lhs : LevelFilter) (rhs : Level) : Bool :=
  LevelFilter.spaceship_level lhs rhs == .gt

/-- The expression `lhs < rhs` on a level and a filter. -/
def Level.lt_filter (lhs : Level) (rhs : LevelFilter) : Bool :=
  Level.spaceship_filter lhs rhs == .lt

/-- The expression `lhs > rhs` on a level and a filter. -/
def Level.gt_filter (lhs : Level) (rhs : LevelFilter) : Bool :=
  Level.spaceship_filter lhs rhs == .gt

/-- The five enumerators of `Level`, in declaration order. -/
def Level.enumerators : List Level :=
  [Level.Error, Level.Warning, Level.Info, Level.Debug, Level.Trace]

/-- The six enumerators of `LevelFilter`, in declaration order. -/
def LevelFilter.enumerators : List LevelFilter :=
  [LevelFilter.Off, LevelFilter.Error, LevelFilter.Warn, LevelFilter.Info, LevelFilter.Debug,
    LevelFilter.Trace]

/-- Each filter other than `Off` with the level of the same name. -/
def same_named : List (LevelFilter × Level) :=
  [(LevelFilter.Error, Level.Error), (LevelFilter.Warn, Level.Warning),
    (LevelFilter.Info, Level.Info), (LevelFilter.Debug, Level.Debug),
    (LevelFilter.Trace, Level.Trace)]

/-! ### Arithmetic on `int` -/

/-- The largest value of `int`. -/
def INT_MAX : Int := 2147483647

/-- The smallest value of `int`. -/
def INT_MIN : Int := -2147483648

/-- The expression `a + b` on two `int` operands.  Signed overflow is undefined
behaviour: the expression has no value then. -/
def int_add (a b : Int) : Option Int :=
  if INT_MIN ≤ a + b ∧ a + b ≤ INT_MAX then some (a + b) else none

/-- The expression `a - b` on two `int` operands.  Signed overflow is undefined
behaviour: the expression has no value then. -/
def int_sub (a b : Int) : Option Int :=
  if INT_MIN ≤ a - b ∧ a - b ≤ INT_MAX then some (a - b) else none

/-- The function `std::clamp(v, lo, hi)`. -/
def std_clamp (v lo hi : Int) : Int :=
  if v < lo then lo else if hi < v then hi else v

/-! ### Increment, decrement and compound assignment

Each operator is modelled by the pair of the value it returns and the value
its operand `lhs` holds after the call.  The overloads on a mutable operand
assign to `lhs` and return `lhs`; the overloads on a `const` operand only
return.  There is no pair when the `int` arithmetic overflows. -/

/-- The overload `operator++(const Level& lhs, int)`. -/
def Level.post_inc_const (lhs : Level) : Option (Level × Level) :=
  (int_add lhs.val 1).map (fun v => (⟨std_clamp v Level.Error.val Level.Trace.val⟩, lhs))

/-- The overload `operator++(Level& lhs, int)`. -/
def Level.post_inc (lhs : Level) : Option (Level × Level) :=
  (int_add lhs.val 1).map (fun v =>
    let lhs1 : Level := ⟨std_clamp v Level.Error.val Level.Trace.val⟩
    (lhs1, lhs1))

/-- The operator `operator+=(Level& lhs, int offset)`. -/
def Level.add_assign (lhs : Level) (offset : Int) : Option (Level × Level) :=
  (int_add lhs.val offset).map (fun v =>
    let lhs1 : Level := ⟨std_clamp v Level.Error.val Level.Trace.val⟩
    (lhs1, lhs1))

/-- The overload `operator--(const Level& lhs, int)`. -/
def Level.post_dec_const (lhs : Level) : Option (Level × Level) :=
  (int_sub lhs.val 1).map (fun v => (⟨std_clamp v Level.Error.val Level.Trace.val⟩, lhs))

/-- The overload `operator--(Level& lhs, int)`. -/
def Level.post_dec (lhs : Level) : Option (Level × Level) :=
  (int_sub lhs.val 1).map (fun v =>
    let lhs1 : Level := ⟨std_clamp v Level.Error.val Level.Trace.val⟩
    (lhs1, lhs1))

/-- The operator `operator-=(Level& lhs, int offset)`. -/
def Level.sub_assign (lhs : Level) (offset : Int) : Option (Level × Level) :=
  (int_sub lhs.val offset).map (fun v =>
    let lhs1 : Level := ⟨std_clamp v Level.Error.val Level.Trace.val⟩
    (lhs1, lhs1))

/-- The overload `operator++(const LevelFilter& lhs, int)`. -/
def LevelFilter.post_inc_const (lhs : LevelFilter) : Option (LevelFilter × LevelFilter) :=
  (int_add lhs.val 1).map (fun v =>
    (⟨std_clamp v LevelFilter.Off.val LevelFilter.Trace.val⟩, lhs))

/-- The overload `operator++(LevelFilter& lhs, int)`. -/
def LevelFilter.post_inc (lhs : LevelFilter) : Option (LevelFilter × LevelFilter) :=
  (int_add lhs.val 1).map (fun v =>
    let lhs1 : LevelFilter := ⟨std_clamp v LevelFilter.Off.val LevelFilter.Trace.val⟩
    (lhs1, lhs1))

/-- The operator `operator+=(LevelFilter& lhs, int offset)`. -/
def LevelFilter.add_assign (lhs : LevelFilter) (offset : Int) :
    Option (LevelFilter × LevelFilter) :=
  (int_add lhs.val offset).map (fun v =>
    let lhs1 : LevelFilter := ⟨std_clamp v LevelFilter.Off.val LevelFilter.Trace.val⟩
    (lhs1, lhs1))

/-- The overload `operator--(const LevelFilter& lhs, int)`. -/
def LevelFilter.post_dec_const (lhs : LevelFilter) : Option (LevelFilter × LevelFilter) :=
  (int_sub lhs.val 1).map (fun v =>
    (⟨std_clamp v LevelFilter.Off.val LevelFilter.Trace.val⟩, lhs))

/-- The overload `operator--(LevelFilter& lhs, int)`. -/
def LevelFilter.post_dec (lhs : LevelFilter) : Option (LevelFilter × LevelFilter) :=
  (int_sub lhs.val 1).map (fun v =>
    let lhs1 : LevelFilter := ⟨std_clamp v LevelFilter.Off.val LevelFilter.Trace.val⟩
    (lhs1, lhs1))

/-- The operator `operator-=(LevelFilter& lhs, int offset)`. -/
def LevelFilter.sub_assign (lhs : LevelFilter) (offset : Int) :
    Option (LevelFilter × LevelFilter) :=
  (int_sub lhs.val offset).map (fun v =>
    let lhs1 : LevelFilter := ⟨std_clamp v LevelFilter.Off.val LevelFilter.Trace.val⟩
    (lhs1, lhs1))

/-- The statement `x = op(x);` for one of the mutable overloads above: the
call updates `x` and returns a value, which the assignment then stores in
`x`.  The result is the final value of `x`. -/
def assign_result {α : Type} (op : α → Option (α × α)) (x : α) : Option α :=
  (op x).map (fun r => r.1)

/-- The statement `x op;` repeated `k` times on a variable: the final value
of the variable, when no step is undefined. -/
def repeat_statement {α : Type} (op : α → Option (α × α)) : Nat → α → Option α
  | 0, x => some x
  | k + 1, x =>
    match op x with
    | some r => repeat_statement op k r.2
    | none => none

/-! ### Formatting of levels -/

/-- The specialisation `std::formatter<log_pp::Level, CharT>`: `parse` returns
`ctx.begin()`, so only the empty format spec ends at the closing brace;
`format` writes `to_str(level)`. -/
def std_formatter_Level {σ : Type} : Formatter σ Level :=
  fun spec level s =>
    match spec with
    | [] => std_vformat "\x7b\x7d" [fun sp => std_formatter_string sp (to_str level)] s
    | _ => (.error ⟨"format spec not consumed by parse"⟩, s)

/-- The conversion `static_cast<log_pp::Level>(level_filter)`. -/
def LevelFilter.to_level (level_filter : LevelFilter) : Level :=
  ⟨level_filter.val⟩

/-- The specialisation `std::formatter<log_pp::LevelFilter, CharT>`: `format`
writes the filter converted to `Level`. -/
def std_formatter_LevelFilter {σ : Type} : Formatter σ LevelFilter :=
  fun spec level_filter s =>
    match spec with
    | [] =>
      std_vformat "\x7b\x7d" [fun sp => std_formatter_Level sp level_filter.to_level] s
    | _ => (.error ⟨"format spec not consumed by parse"⟩, s)

end log_pp

namespace log_pp

/-! ## Key-value fields of the tests, and a probe on the stored formatter -/

namespace kv_test

/-- The local variable `std::string user` of the two capture tests of
`tests/kv_test.cpp`. -/
structure Locals where
  user : String := "alice"
deriving DecidableEq, Repr

/-- The assignment `user = v;`. -/
def assign_user (v : String) (m : Locals) : Locals :=
  { m with user := v }

/-- The braced element `{"user", user}` on the named variable `user`. -/
def variable_element : KVInit Locals where
  T := String
  formatter := std_formatter_string
  in_key := "user"
  in_value := .lvalue (fun m => m.user)

/-- The braced element `{"user", std::string{"alice"}}` on a temporary. -/
def temporary_element : KVInit Locals where
  T := String
  formatter := std_formatter_string
  in_key := "user"
  in_value := .rvalue "alice"

/-- The field `log_pp::KV kv{"user", user}` of the test
`kv_keeps_lvalue_value_by_reference_when_possible`: the value argument is the
named variable `user`. -/
def kv_on_variable : BasicKV Locals :=
  BasicKV.ctor std_formatter_string "user" (.lvalue (fun m => m.user))

/-- The field `log_pp::KV{"user", std::string{"alice"}}` of the test
`kv_keeps_rvalue_value_by_ownership`: the value argument is a temporary. -/
def kv_on_temporary : BasicKV Locals :=
  BasicKV.ctor std_formatter_string "user" (.rvalue "alice")

end kv_test

/-- That the text a formatter produces depends on the format spec and the
value only, not on the memory it runs in (as for the standard formatters and
for `CountingValue`). -/
def Formatter.text_by_value {σ T : Type} (fmtr : Formatter σ T) : Prop :=
  ∀ (spec : List Char) (v : T) (s s1 : σ), (fmtr spec v s).1 = (fmtr spec v s1).1

end log_pp

namespace log_pp

/-! ## Hexadecimal numerals, and whether a call is emitted -/

/-- The uppercase hexadecimal digit of a value below sixteen. -/
def upper_hex_digit (d : Nat) : Char :=
  "0123456789ABCDEF".data.getD d (Char.ofNat 42)

/-- The uppercase hexadecimal numeral of `n`, most significant digit first,
written with at most `fuel` digits. -/
def upper_hex_upto : Nat → Nat → List Char
  | 0, _ => []
  | fuel + 1, n =>
    if n < 16 then [upper_hex_digit n]
    else upper_hex_upto fuel (n / 16) ++ [upper_hex_digit (n % 16)]

/-- The uppercase hexadecimal digits of `n` as the numeral is written: most
significant digit first, no leading zero, `0` for zero. -/
def upper_hex (n : Nat) : List Char :=
  upper_hex_upto (n + 1) n

/-- A numeral left-padded with zeros to at least `width` digits. -/
def zero_padded (width : Nat) (digits : List Char) : List Char :=
  List.replicate (width - digits.length) (Char.ofNat 48) ++ digits

/-- That the call of a call site is emitted: the sink's `log` is called once
more than before the call. -/
def emitted {σ : Type} (P : Program σ) (L : Level) (here : source_location)
    (va : CallArgs σ) (w : World σ) : Prop :=
  (log_calls (LOG_PP P L here va w).trace).length = (log_calls w.trace).length + 1

namespace kv_test

/-- A call like those of `tests/kv_test.cpp` whose one field carries a format
spec that is invalid for its integer value: `{"id", 255, "{:s}"}`. -/
def invalid_format_call : CallArgs Memory where
  explicit_logger := some (.object 0)
  kvs := some [{ T := Int, formatter := std_formatter_int, in_key := "id",
                 in_value := .rvalue 255, in_format := some "\x7b:s\x7d" }]
  fmt := "formatted \x7b\x7d"
  args := [Arg.str "kv"]

end kv_test

end log_pp

namespace log_pp

/-! ## A probe on the value's formatter, and values formatted from memory -/

namespace kv_test

/-- A value type of a caller with a formatter of its own, in the manner of
`CountingValue`: `struct StampedValue { std::string text; }`. -/
structure StampedValue where
  text : String := ""
deriving DecidableEq, Repr

/-- A local variable `StampedValue user{"alice"}` and a global counter
`g_stamp`, in the manner of `g_counting_value_format_calls`. -/
structure StampedLocals where
  user : StampedValue := { text := "alice" }
  g_stamp : Nat := 0
deriving DecidableEq, Repr

/-- A specialisation `std::formatter<StampedValue, char>` whose `format` writes
the text followed by the current value of the global counter, then increments
the counter. -/
def formatter_StampedValue : Formatter StampedLocals StampedValue :=
  fun spec v m =>
    match spec with
    | [] => (.ok (v.text ++ String.mk (Nat.toDigits 10 m.g_stamp)),
        { m with g_stamp := m.g_stamp + 1 })
    | _ => (.error ⟨"StampedValue takes no format spec"⟩, m)

/-- The braced element `{"user", user}` on the named variable `user` of type
`StampedValue`. -/
def stamped_element : KVInit StampedLocals where
  T := StampedValue
  formatter := formatter_StampedValue
  in_key := "user"
  in_value := .lvalue (fun m => m.user)

/-- The address of the local variable of the capture tests: `&user`. -/
inductive Address where
  | of_user
deriving DecidableEq, Repr

/-- The string an address designates in a memory. -/
def Address.deref : Address → Locals → String
  | .of_user, m => m.user

/-- A view type of a caller, `struct NameView { const std::string* name; }`:
copying a view copies the pointer, not the string it points at. -/
structure NameView where
  name : Address
deriving DecidableEq, Repr

/-- A specialisation `std::formatter<NameView, char>` whose `format` writes the
string the view points at. -/
def formatter_NameView : Formatter Locals NameView :=
  fun spec v m =>
    match spec with
    | [] => (.ok (v.name.deref m), m)
    | _ => (.error ⟨"NameView takes no format spec"⟩, m)

/-- The braced element `{"user", NameView{&user}}`: the value argument is a
temporary view of the variable `user`. -/
def view_element : KVInit Locals where
  T := NameView
  formatter := formatter_NameView
  in_key := "user"
  in_value := .rvalue { name := .of_user }

end kv_test

end log_pp
namespace log_pp

/-! ## Ordering lemmas -/

theorem Level.le_filter_iff (l : Level) (f : LevelFilter) :
    l.le_filter f = true ↔ l.val ≤ f.val := by
  unfold Level.le_filter Level.spaceship_filter
  simp only [compare, compareOfLessAndEq]
  split_ifs with h1 h2
  · simp [Ordering.isLE]; omega
  · simp [Ordering.isLE]; omega
  · simp [Ordering.isLE]; omega

theorem Level.le_iff (a b : Level) : a.le b = true ↔ a.val ≤ b.val := by
  unfold Level.le Level.spaceship
  simp only [compare, compareOfLessAndEq]
  split_ifs with h1 h2
  · simp [Ordering.isLE]; omega
  · simp [Ordering.isLE]; omega
  · simp [Ordering.isLE]; omega

/-- The metadata the admission check hands to the sink. -/
theorem built_metadata (L : Level) (T : String) :
    (((BasicMetadataBuilder.mk {}).set_level L).set_target T).build
      = { level := L, target := T } := rfl

variable {σ : Type}

/-- The admission check, with the ceilings compared as integers. -/
theorem enabled_eq (P : Program σ) (S : LoggerRef) (L : Level) (T : String) (w : World σ) :
    enabled P S L T w =
      if L.val ≤ P.LOG_PP_DETAIL_ACTIVE_COMPILE_LEVEL.val then
        if L.val ≤ w.MAX_LOG_LEVEL_FILTER.val then
          (((P.deref S).enabled { level := L, target := T } w.user).1,
            { w with
              trace := w.trace ++ [.max_level_read, .metadata_built { level := L, target := T },
                .enabled_called S { level := L, target := T }]
              user := ((P.deref S).enabled { level := L, target := T } w.user).2 })
        else (false, { w with trace := w.trace ++ [.max_level_read] })
      else (false, w) := by
  unfold enabled
  by_cases h1 : L.val ≤ P.LOG_PP_DETAIL_ACTIVE_COMPILE_LEVEL.val
  · have h1b := (Level.le_filter_iff L P.LOG_PP_DETAIL_ACTIVE_COMPILE_LEVEL).mpr h1
    by_cases h2 : L.val ≤ w.MAX_LOG_LEVEL_FILTER.val
    · have h2b := (Level.le_filter_iff L w.MAX_LOG_LEVEL_FILTER).mpr h2
      simp [h1, h2, h1b, h2b, max_level, World.emit, built_metadata]
    · have h2b : ¬ (L.le_filter w.MAX_LOG_LEVEL_FILTER = true) :=
        fun h => h2 ((Level.le_filter_iff L w.MAX_LOG_LEVEL_FILTER).mp h)
      simp [h1, h2, h1b, h2b, max_level, World.emit]
  · have h1b : ¬ (L.le_filter P.LOG_PP_DETAIL_ACTIVE_COMPILE_LEVEL = true) :=
      fun h => h1 ((Level.le_filter_iff L P.LOG_PP_DETAIL_ACTIVE_COMPILE_LEVEL).mp h)
    simp [h1, h1b]

end log_pp

namespace log_pp

variable {σ : Type}

/-- The dispatch routine in terms of the admission check. -/
theorem log_impl_eq (P : Program σ) (S : LoggerRef) (L : Level) (T : String)
    (module : source_location) (fmt : String) (args : FormatArgs σ) (kvs : List (BasicKV σ))
    (w : World σ) :
    log_impl P S L T module fmt args kvs w =
      if (enabled P S L T w).1 = true then
        { (enabled P S L T w).2 with
          trace := (enabled P S L T w).2.trace ++
            [.record_built (dispatched_record L T module fmt args kvs),
              .log_called S (dispatched_record L T module fmt args kvs)]
          user := (P.deref S).log (dispatched_record L T module fmt args kvs)
            (enabled P S L T w).2.user }
      else (enabled P S L T w).2 := by
  unfold log_impl
  by_cases h : (enabled P S L T w).1 = true
  · simp [h, World.emit, dispatched_record, BasicRecordBuilder.build,
      BasicRecordBuilder.set_module, BasicRecordBuilder.set_format_string,
      BasicRecordBuilder.set_kvs, BasicRecordBuilder.set_args, BasicRecordBuilder.set_target,
      BasicRecordBuilder.set_level]
  · simp [h]

/-- A call site in terms of the dispatch routine. -/
theorem LOG_PP_eq (P : Program σ) (L : Level) (here : source_location) (va : CallArgs σ)
    (w : World σ) :
    LOG_PP P L here va w =
      log_impl P (va.sink w) L va.target_text here va.fmt (make_format_args va.args) va.fields
        { w with trace := w.trace ++ va.capture_events } := by
  unfold LOG_PP log CallArgs.sink CallArgs.target_text CallArgs.fields CallArgs.capture_events
  cases hk : va.kvs <;> cases hl : va.explicit_logger <;> cases ht : va.target <;>
    simp [World.emit, logger]

theorem enabled_calls_append (a b : List (Event σ)) :
    enabled_calls (a ++ b) = enabled_calls a ++ enabled_calls b := by
  simp [enabled_calls]

theorem log_calls_append (a b : List (Event σ)) :
    log_calls (a ++ b) = log_calls a ++ log_calls b := by
  simp [log_calls]

theorem records_built_append (a b : List (Event σ)) :
    records_built (a ++ b) = records_built a ++ records_built b := by
  simp [records_built]

theorem metadata_built_append (a b : List (Event σ)) :
    metadata_built (a ++ b) = metadata_built a ++ metadata_built b := by
  simp [metadata_built]

/-- Evaluating a call's arguments calls no sink and builds neither metadata
nor a record. -/
theorem capture_events_silent (va : CallArgs σ) :
    enabled_calls va.capture_events = [] ∧ log_calls va.capture_events = [] ∧
      records_built va.capture_events = [] ∧ metadata_built va.capture_events = [] := by
  unfold CallArgs.capture_events
  cases va.kvs <;>
    simp [enabled_calls, log_calls, records_built, metadata_built, List.filterMap_map,
      Function.comp_def]

end log_pp

namespace log_pp

variable {σ : Type}

/-- The dispatch routine, tier by tier, with the ceilings compared as
integers. -/
theorem log_impl_tiers (P : Program σ) (S : LoggerRef) (L : Level) (T : String)
    (module : source_location) (fmt : String) (args : FormatArgs σ) (kvs : List (BasicKV σ))
    (w : World σ) :
    log_impl P S L T module fmt args kvs w =
      if L.val ≤ P.LOG_PP_DETAIL_ACTIVE_COMPILE_LEVEL.val then
        if L.val ≤ w.MAX_LOG_LEVEL_FILTER.val then
          if ((P.deref S).enabled { level := L, target := T } w.user).1 = true then
            { w with
              trace := w.trace ++ [.max_level_read, .metadata_built { level := L, target := T },
                .enabled_called S { level := L, target := T },
                .record_built (dispatched_record L T module fmt args kvs),
                .log_called S (dispatched_record L T module fmt args kvs)]
              user := (P.deref S).log (dispatched_record L T module fmt args kvs)
                ((P.deref S).enabled { level := L, target := T } w.user).2 }
          else
            { w with
              trace := w.trace ++ [.max_level_read, .metadata_built { level := L, target := T },
                .enabled_called S { level := L, target := T }]
              user := ((P.deref S).enabled { level := L, target := T } w.user).2 }
        else { w with trace := w.trace ++ [.max_level_read] }
      else w := by
  rw [log_impl_eq, enabled_eq]
  by_cases h1 : L.val ≤ P.LOG_PP_DETAIL_ACTIVE_COMPILE_LEVEL.val
  · by_cases h2 : L.val ≤ w.MAX_LOG_LEVEL_FILTER.val
    · by_cases h3 : ((P.deref S).enabled { level := L, target := T } w.user).1 = true
      · simp [h1, h2, h3]
      · simp [h1, h2, h3]
    · simp [h1, h2]
  · simp [h1]

/-- The admission check answers true exactly when the three tiers pass. -/
theorem enabled_true_iff (P : Program σ) (S : LoggerRef) (L : Level) (T : String)
    (w : World σ) :
    (enabled P S L T w).1 = true ↔
      (L.val ≤ P.LOG_PP_DETAIL_ACTIVE_COMPILE_LEVEL.val ∧ L.val ≤ w.MAX_LOG_LEVEL_FILTER.val ∧
        ((P.deref S).enabled { level := L, target := T } w.user).1 = true) := by
  rw [enabled_eq]
  by_cases h1 : L.val ≤ P.LOG_PP_DETAIL_ACTIVE_COMPILE_LEVEL.val
  · by_cases h2 : L.val ≤ w.MAX_LOG_LEVEL_FILTER.val
    · simp [h1, h2]
    · simp [h1, h2]
  · simp [h1]

theorem kvs_constructed_append (a b : List (Event σ)) :
    kvs_constructed (a ++ b) = kvs_constructed a ++ kvs_constructed b := by
  simp [kvs_constructed]

theorem args_bundles_append (a b : List (Event σ)) :
    args_bundles (a ++ b) = args_bundles a ++ args_bundles b := by
  simp [args_bundles]

/-- Evaluating a call's arguments constructs its fields, in order, and one
positional-argument bundle. -/
theorem capture_events_content (va : CallArgs σ) :
    kvs_constructed va.capture_events = va.inits.map KVInit.in_key ∧
      args_bundles va.capture_events = [va.args.length] := by
  unfold CallArgs.capture_events CallArgs.inits
  cases va.kvs with
  | none => simp [kvs_constructed, args_bundles]
  | some inits =>
    have hk : ∀ l : List (KVInit σ),
        List.filterMap (fun x : KVInit σ => some x.in_key) l = l.map KVInit.in_key := by
      intro l
      induction l with
      | nil => rfl
      | cons a t ih => simp [List.filterMap_cons, ih]
    simp [kvs_constructed, args_bundles, List.filterMap_map, Function.comp_def,
      List.filterMap_append, hk]

end log_pp

namespace log_pp

variable {σ : Type}

/-- A constructed field renders what its braced element renders. -/
theorem construct_get_value (i : KVInit σ) (s : σ) :
    (i.construct.get_value s).1 = i.rendered s := by
  obtain ⟨T, formatter, in_key, in_value, in_format⟩ := i
  have hread : ∀ v : Forwarded σ T,
      unwrap_kv_value_holder (make_kv_value_holder v) s = v.read s := by
    intro v
    cases v <;> rfl
  cases in_format with
  | none =>
    simp only [KVInit.construct, BasicKV.ctor, BasicKV.get_value, KVInit.rendered,
      format_kv_value_default, format_kv_value, default_kv_value_format, hread]
    cases h : std_vformat "\x7b\x7d" [fun spec => formatter spec (in_value.read s)] s with
    | mk res s1 => cases res <;> rfl
  | some f =>
    simp only [KVInit.construct, BasicKV.ctor_format, BasicKV.get_value, KVInit.rendered,
      format_kv_value, hread]
    cases h : std_vformat f [fun spec => formatter spec (in_value.read s)] s with
    | mk res s1 => cases res <;> rfl

/-- The fields a call passes on keep the keys of its braced list, in order. -/
theorem fields_keys (va : CallArgs σ) :
    va.fields.map BasicKV.get_key = va.inits.map KVInit.in_key := by
  unfold CallArgs.fields CallArgs.inits
  cases va.kvs with
  | none => rfl
  | some inits =>
    simp only [List.map_map]
    apply List.map_congr_left
    intro i _
    obtain ⟨T, formatter, in_key, in_value, in_format⟩ := i
    cases in_format <;> rfl

/-- The fields a call passes on render what its braced list renders, in
order. -/
theorem fields_rendered (va : CallArgs σ) (s : σ) :
    rendered_values va.fields s = va.inits.map (fun i => i.rendered s) := by
  unfold CallArgs.fields CallArgs.inits rendered_values
  cases va.kvs with
  | none => rfl
  | some inits =>
    simp only [List.map_map]
    apply List.map_congr_left
    intro i _
    exact construct_get_value i s

theorem fields_length (va : CallArgs σ) : va.fields.length = va.inits.length := by
  unfold CallArgs.fields CallArgs.inits
  cases va.kvs <;> simp

end log_pp

namespace log_pp

variable {σ : Type}

/-- A log call leaves the runtime ceiling, the global binding and the
once-flag as they are. -/
theorem LOG_PP_frame (P : Program σ) (L : Level) (here : source_location) (va : CallArgs σ)
    (w : World σ) :
    (LOG_PP P L here va w).current = w.current ∧
      (LOG_PP P L here va w).flag_used = w.flag_used ∧
      (LOG_PP P L here va w).MAX_LOG_LEVEL_FILTER = w.MAX_LOG_LEVEL_FILTER := by
  rw [LOG_PP_eq, log_impl_tiers]
  by_cases h1 : L.val ≤ P.LOG_PP_DETAIL_ACTIVE_COMPILE_LEVEL.val
  · by_cases h2 : L.val ≤ w.MAX_LOG_LEVEL_FILTER.val
    · by_cases h3 : ((P.deref (va.sink w)).enabled
          { level := L, target := va.target_text } w.user).1 = true
      · simp [h1, h2, h3]
      · simp [h1, h2, h3]
    · simp [h1, h2]
  · simp [h1]

/-- With the once-flag used, `set_logger` only compares. -/
theorem set_logger_used (a : LoggerRef) (w : World σ) (h : w.flag_used = true) :
    set_logger a w = (decide (w.current = a), w) := by
  simp [set_logger, h]

/-- With the once-flag unused, `set_logger` binds its argument. -/
theorem set_logger_unused (a : LoggerRef) (w : World σ) (h : w.flag_used = false) :
    set_logger a w = (true, { w with current := a, flag_used := true }) := by
  simp [set_logger, h]

/-- After any `set_logger` call the once-flag is used. -/
theorem set_logger_flag (a : LoggerRef) (w : World σ) : (set_logger a w).2.flag_used = true := by
  cases h : w.flag_used
  · rw [set_logger_unused a w h]
  · rw [set_logger_used a w h]; exact h

/-- With the once-flag used, a series of `set_logger` calls changes nothing and
each call reports whether its argument is the bound sink. -/
theorem set_logger_series_used (l : List LoggerRef) (w : World σ) (h : w.flag_used = true) :
    set_logger_series l w = (l.map (fun a => decide (a = w.current)), w) := by
  induction l with
  | nil => rfl
  | cons a t ih =>
    simp only [set_logger_series, set_logger_used a w h, ih, List.map_cons]
    congr 2
    exact decide_eq_decide.mpr eq_comm

/-- One step keeps a used once-flag used and the bound sink bound. -/
theorem step_run_used (P : Program σ) (st : Step σ) (w : World σ) (h : w.flag_used = true) :
    (st.run P w).flag_used = true ∧ (st.run P w).current = w.current := by
  cases st with
  | set_max_level level => exact ⟨h, rfl⟩
  | set_logger l =>
    simp only [Step.run]
    rw [set_logger_used l w h]
    exact ⟨h, rfl⟩
  | log level here va =>
    simp only [Step.run]
    have hf := LOG_PP_frame P level here va w
    exact ⟨hf.2.1.trans h, hf.1⟩

/-- A sequence of steps keeps a used once-flag used and the bound sink bound. -/
theorem run_used (P : Program σ) (steps : List (Step σ)) (w : World σ)
    (h : w.flag_used = true) :
    (run P steps w).flag_used = true ∧ (run P steps w).current = w.current := by
  induction steps generalizing w with
  | nil => exact ⟨h, rfl⟩
  | cons st rest ih =>
    simp only [run]
    have h1 := step_run_used P st w h
    have h2 := ih (st.run P w) h1.1
    exact ⟨h2.1, h2.2.trans h1.2⟩

/-- Steps other than `set_logger` leave the once-flag and the binding alone. -/
theorem run_without_set_logger (P : Program σ) (steps : List (Step σ)) (w : World σ)
    (h : ∀ st ∈ steps, st.is_set_logger = false) :
    (run P steps w).flag_used = w.flag_used ∧ (run P steps w).current = w.current := by
  induction steps generalizing w with
  | nil => exact ⟨rfl, rfl⟩
  | cons st rest ih =>
    simp only [run]
    have hrest := ih (st.run P w) (fun x hx => h x (List.mem_cons_of_mem _ hx))
    have hst := h st (List.mem_cons_self _ _)
    cases st with
    | set_max_level level => exact hrest
    | set_logger l => simp [Step.is_set_logger] at hst
    | log level here va =>
      simp only [Step.run] at hrest ⊢
      have hf := LOG_PP_frame P level here va w
      exact ⟨hrest.1.trans hf.2.1, hrest.2.trans hf.1⟩

/-- A call above the static ceiling: only the evaluation of its arguments is
recorded. -/
theorem LOG_PP_above_static (P : Program σ) (L : Level) (here : source_location)
    (va : CallArgs σ) (w : World σ)
    (h : ¬ (L.le_filter P.LOG_PP_DETAIL_ACTIVE_COMPILE_LEVEL = true)) :
    LOG_PP P L here va w = { w with trace := w.trace ++ va.capture_events } := by
  rw [LOG_PP_eq, log_impl_tiers]
  rw [Level.le_filter_iff] at h
  simp [h]

end log_pp

namespace log_pp

/-- C1: the admission function `enabled(S, L, T)` returns true exactly when
`L <=` the static ceiling, `L <= max_level()` and the sink's own `enabled`
answers true on the metadata with level `L` and target `T`.  In the target-filter
example with runtime ceiling Info, a Debug call on "info_target" is rejected
whatever the static ceiling is, and an Info call is admitted as soon as the
static ceiling admits Info. -/
theorem C1_enabled_iff_three_tiers :
    (∀ (σ : Type) (P : Program σ) (S : LoggerRef) (L : Level) (T : String) (w : World σ),
      (enabled P S L T w).1 = true ↔
        (L.le_filter P.LOG_PP_DETAIL_ACTIVE_COMPILE_LEVEL = true ∧
          L.le_filter (max_level w) = true ∧
          ((P.deref S).enabled { level := L, target := T } w.user).1 = true)) ∧
    (∀ c : LevelFilter,
      (enabled (target_filter.program c) (.object 0) Level.Debug "info_target"
        (set_max_level LevelFilter.Info (set_logger (.object 0) (World.start {})).2)).1 = false ∧
      ((enabled (target_filter.program c) (.object 0) Level.Info "info_target"
        (set_max_level LevelFilter.Info (set_logger (.object 0) (World.start {})).2)).1 = true
        ↔ Level.Info.le_filter c = true)) := by
  constructor
  · intro σ P S L T w
    rw [enabled_eq]
    simp only [max_level, Level.le_filter_iff]
    by_cases h1 : L.val ≤ P.LOG_PP_DETAIL_ACTIVE_COMPILE_LEVEL.val
    · by_cases h2 : L.val ≤ w.MAX_LOG_LEVEL_FILTER.val
      · simp [h1, h2]
      · simp [h1, h2]
    · simp [h1]
  · intro c
    constructor
    · rw [enabled_eq]
      simp [set_max_level, set_logger, World.start, LevelFilter.Info, Level.Debug]
      split_ifs <;> rfl
    · rw [enabled_eq]
      simp [set_max_level, set_logger, World.start, LevelFilter.Info, Level.Info,
        Level.le_filter_iff, target_filter.program, Program.deref, target_filter.SimpleLogger,
        target_filter.SimpleLogger.enabled, BasicMetadata.get_target, BasicMetadata.get_level,
        Level.le_iff]
      by_cases h : 3 ≤ c.val <;> simp [h, Level.le_iff]

end log_pp

namespace log_pp

/-- C2: in every log call at level `L` with target `T` against sink `S`, the
sink's `enabled` is called exactly once, on the metadata with level `L` and
target `T`, when `L <=` the static ceiling and `L <=` the runtime ceiling, and
not at all when either ceiling rejects `L`.  The order of the tests shows in
the trace of the admission check: nothing is recorded when the static ceiling
rejects, only the read of the runtime ceiling when that one rejects, and
otherwise the read, then the metadata, then the sink's `enabled`.  The call
recorded is the call made: when both ceilings admit `L`, the answer of the
admission check is the answer of the sink's `enabled` on that metadata and the
user memory after it is the memory one run of the sink's `enabled` leaves from
the memory before; when a ceiling rejects, the answer is false and the user
memory is the memory before.  Over the whole call the sink's `enabled` takes
effect once as well: the memory after the call is what the sink's `log` makes
of the memory one run of `enabled` left when the sink admits, that memory
itself when the sink rejects, and the memory before when a ceiling rejects.
With the printing sink of the macro test under runtime ceiling Debug, the
admission check of a Debug call prints the line of `enabled` once when the
static ceiling admits Debug and nothing otherwise, and the check of a Trace
call prints nothing. -/
theorem C2_sink_enabled_called_once_after_both_ceilings (σ : Type) (P : Program σ)
    (S : LoggerRef) (L : Level) (T : String) (module : source_location) (fmt : String)
    (args : FormatArgs σ) (kvs : List (BasicKV σ)) (here : source_location)
    (va : CallArgs σ) (w : World σ) :
    (enabled P S L T w).2.trace = w.trace ++
      (if L.le_filter P.LOG_PP_DETAIL_ACTIVE_COMPILE_LEVEL = true then
        Event.max_level_read ::
          (if L.le_filter (max_level w) = true then
            [Event.metadata_built { level := L, target := T },
              Event.enabled_called S { level := L, target := T }]
          else [])
      else []) ∧
    enabled_calls (log_impl P S L T module fmt args kvs w).trace =
      enabled_calls w.trace ++
        (if L.le_filter P.LOG_PP_DETAIL_ACTIVE_COMPILE_LEVEL = true ∧
            L.le_filter (max_level w) = true then
          [(S, { level := L, target := T })]
        else []) ∧
    enabled_calls (LOG_PP P L here va w).trace =
      enabled_calls w.trace ++
        (if L.le_filter P.LOG_PP_DETAIL_ACTIVE_COMPILE_LEVEL = true ∧
            L.le_filter (max_level w) = true then
          [(va.sink w, { level := L, target := va.target_text })]
        else []) ∧
    (enabled P S L T w).1 =
      (if L.le_filter P.LOG_PP_DETAIL_ACTIVE_COMPILE_LEVEL = true ∧
          L.le_filter (max_level w) = true then
        ((P.deref S).enabled { level := L, target := T } w.user).1
      else false) ∧
    (enabled P S L T w).2.user =
      (if L.le_filter P.LOG_PP_DETAIL_ACTIVE_COMPILE_LEVEL = true ∧
          L.le_filter (max_level w) = true then
        ((P.deref S).enabled { level := L, target := T } w.user).2
      else w.user) ∧
    (log_impl P S L T module fmt args kvs w).user =
      (if L.le_filter P.LOG_PP_DETAIL_ACTIVE_COMPILE_LEVEL = true ∧
          L.le_filter (max_level w) = true then
        (if ((P.deref S).enabled { level := L, target := T } w.user).1 = true then
          (P.deref S).log (dispatched_record L T module fmt args kvs)
            ((P.deref S).enabled { level := L, target := T } w.user).2
        else ((P.deref S).enabled { level := L, target := T } w.user).2)
      else w.user) ∧
    (LOG_PP P L here va w).user =
      (if L.le_filter P.LOG_PP_DETAIL_ACTIVE_COMPILE_LEVEL = true ∧
          L.le_filter (max_level w) = true then
        (if ((P.deref (va.sink w)).enabled
            { level := L, target := va.target_text } w.user).1 = true then
          (P.deref (va.sink w)).log
            (dispatched_record L va.target_text here va.fmt (make_format_args va.args)
              va.fields)
            ((P.deref (va.sink w)).enabled { level := L, target := va.target_text } w.user).2
        else ((P.deref (va.sink w)).enabled { level := L, target := va.target_text } w.user).2)
      else w.user) ∧
    (∀ c : LevelFilter,
      (enabled (macro_test.program c) (.object 0) Level.Debug "a"
        (set_max_level LevelFilter.Debug
          (set_logger (.object 0) (World.start {})).2)).2.user.stdout =
        (if Level.Debug.le_filter c = true then "Enabled check: DEBUG - a\n\n" else "") ∧
      (enabled (macro_test.program c) (.object 0) Level.Trace "a"
        (set_max_level LevelFilter.Debug
          (set_logger (.object 0) (World.start {})).2)).2.user.stdout = "") := by
  have key : ∀ (S : LoggerRef) (T : String) (module : source_location) (fmt : String)
      (args : FormatArgs σ) (kvs : List (BasicKV σ)) (w : World σ),
      enabled_calls (log_impl P S L T module fmt args kvs w).trace =
        enabled_calls w.trace ++
          (if L.le_filter P.LOG_PP_DETAIL_ACTIVE_COMPILE_LEVEL = true ∧
              L.le_filter (max_level w) = true then
            [(S, { level := L, target := T })]
          else []) := by
    intro S T module fmt args kvs w
    rw [log_impl_eq, enabled_eq]
    simp only [max_level, Level.le_filter_iff]
    by_cases h1 : L.val ≤ P.LOG_PP_DETAIL_ACTIVE_COMPILE_LEVEL.val
    · by_cases h2 : L.val ≤ w.MAX_LOG_LEVEL_FILTER.val
      · by_cases h3 : ((P.deref S).enabled { level := L, target := T } w.user).1 = true
        · simp [h1, h2, h3, enabled_calls]
        · simp [h1, h2, h3, enabled_calls]
      · simp [h1, h2, enabled_calls]
    · simp [h1]
  have user_key : ∀ (S : LoggerRef) (T : String) (module : source_location) (fmt : String)
      (args : FormatArgs σ) (kvs : List (BasicKV σ)) (w : World σ),
      (log_impl P S L T module fmt args kvs w).user =
        (if L.le_filter P.LOG_PP_DETAIL_ACTIVE_COMPILE_LEVEL = true ∧
            L.le_filter (max_level w) = true then
          (if ((P.deref S).enabled { level := L, target := T } w.user).1 = true then
            (P.deref S).log (dispatched_record L T module fmt args kvs)
              ((P.deref S).enabled { level := L, target := T } w.user).2
          else ((P.deref S).enabled { level := L, target := T } w.user).2)
        else w.user) := by
    intro S T module fmt args kvs w
    rw [log_impl_tiers]
    simp only [max_level, Level.le_filter_iff]
    by_cases h1 : L.val ≤ P.LOG_PP_DETAIL_ACTIVE_COMPILE_LEVEL.val
    · by_cases h2 : L.val ≤ w.MAX_LOG_LEVEL_FILTER.val
      · by_cases h3 : ((P.deref S).enabled { level := L, target := T } w.user).1 = true
        · simp [h1, h2, h3]
        · simp [h1, h2, h3]
      · simp [h1, h2]
    · simp [h1]
  refine ⟨?_, key S T module fmt args kvs w, ?_, ?_, ?_, user_key S T module fmt args kvs w,
    ?_, ?_⟩
  · rw [enabled_eq]
    simp only [max_level, Level.le_filter_iff]
    by_cases h1 : L.val ≤ P.LOG_PP_DETAIL_ACTIVE_COMPILE_LEVEL.val
    · by_cases h2 : L.val ≤ w.MAX_LOG_LEVEL_FILTER.val
      · simp [h1, h2]
      · simp [h1, h2]
    · simp [h1]
  · rw [LOG_PP_eq, key]
    simp [enabled_calls_append, (capture_events_silent va).1, max_level]
  · rw [enabled_eq]
    simp only [max_level, Level.le_filter_iff]
    by_cases h1 : L.val ≤ P.LOG_PP_DETAIL_ACTIVE_COMPILE_LEVEL.val
    · by_cases h2 : L.val ≤ w.MAX_LOG_LEVEL_FILTER.val
      · simp [h1, h2]
      · simp [h1, h2]
    · simp [h1]
  · rw [enabled_eq]
    simp only [max_level, Level.le_filter_iff]
    by_cases h1 : L.val ≤ P.LOG_PP_DETAIL_ACTIVE_COMPILE_LEVEL.val
    · by_cases h2 : L.val ≤ w.MAX_LOG_LEVEL_FILTER.val
      · simp [h1, h2]
      · simp [h1, h2]
    · simp [h1]
  · rw [LOG_PP_eq, user_key]
    simp [max_level]
  · intro c
    constructor
    · rw [enabled_eq]
      simp only [Level.le_filter_iff]
      by_cases h : Level.Debug.val ≤ c.val
      · have h1 : Level.Debug.val ≤ (macro_test.program c).LOG_PP_DETAIL_ACTIVE_COMPILE_LEVEL.val := h
        simp only [h, h1, if_true]
        rfl
      · have h1 : ¬ Level.Debug.val ≤ (macro_test.program c).LOG_PP_DETAIL_ACTIVE_COMPILE_LEVEL.val := h
        simp only [h, h1, if_false]
        rfl
    · rw [enabled_eq]
      by_cases h1 : Level.Trace.val ≤ (macro_test.program c).LOG_PP_DETAIL_ACTIVE_COMPILE_LEVEL.val
      · simp only [h1, if_true]
        rfl
      · simp only [h1, if_false]
        rfl

/-- C3: the dispatch routine `log_impl` calls the sink's `log` exactly once, on
the record it built, when the admission check `enabled(S, L, T)` is true, and
not at all otherwise; the same holds for a call site.  The call recorded is
the call made: the user memory after the routine is what one run of the
sink's `log`, on that record, makes of the memory the admission check left
when the check is true, and the memory the admission check left otherwise.
In the macro test, with runtime ceiling Debug and the always-enabled printing
sink bound, a Trace call prints nothing and calls no sink member, and the
Debug call on target "a" prints, after the line of `enabled`, exactly one
record line when the static ceiling admits Debug and nothing otherwise. -/
theorem C3_sink_log_called_iff_enabled :
    (∀ (σ : Type) (P : Program σ) (S : LoggerRef) (L : Level) (T : String)
      (module : source_location) (fmt : String) (args : FormatArgs σ)
      (kvs : List (BasicKV σ)) (w : World σ),
      log_calls (log_impl P S L T module fmt args kvs w).trace =
        log_calls w.trace ++
          (if (enabled P S L T w).1 = true then
            [(S, dispatched_record L T module fmt args kvs)]
          else [])) ∧
    (∀ (σ : Type) (P : Program σ) (L : Level) (here : source_location) (va : CallArgs σ)
      (w : World σ),
      log_calls (LOG_PP P L here va w).trace =
        log_calls w.trace ++
          (if (enabled P (va.sink w) L va.target_text w).1 = true then
            [(va.sink w, dispatched_record L va.target_text here va.fmt
              (make_format_args va.args) va.fields)]
          else [])) ∧
    (∀ (c : LevelFilter) (here : source_location),
      (LOG_PP_TRACE (macro_test.program c) here
        { fmt := "This is a trace message with logger.\x7b\x7d will be no output",
          args := [Arg.int 1] }
        (set_max_level LevelFilter.Debug (set_logger (.object 0) (World.start {})).2)).user.stdout
        = "" ∧
      log_calls (LOG_PP_TRACE (macro_test.program c) here
        { fmt := "This is a trace message with logger.\x7b\x7d will be no output",
          args := [Arg.int 1] }
        (set_max_level LevelFilter.Debug (set_logger (.object 0) (World.start {})).2)).trace
        = [] ∧
      enabled_calls (LOG_PP_TRACE (macro_test.program c) here
        { fmt := "This is a trace message with logger.\x7b\x7d will be no output",
          args := [Arg.int 1] }
        (set_max_level LevelFilter.Debug (set_logger (.object 0) (World.start {})).2)).trace
        = []) ∧
    (∀ (σ : Type) (P : Program σ) (S : LoggerRef) (L : Level) (T : String)
      (module : source_location) (fmt : String) (args : FormatArgs σ)
      (kvs : List (BasicKV σ)) (w : World σ),
      (log_impl P S L T module fmt args kvs w).user =
        (if (enabled P S L T w).1 = true then
          (P.deref S).log (dispatched_record L T module fmt args kvs)
            (enabled P S L T w).2.user
        else (enabled P S L T w).2.user)) ∧
    (∀ (σ : Type) (P : Program σ) (L : Level) (here : source_location) (va : CallArgs σ)
      (w : World σ),
      (LOG_PP P L here va w).user =
        (if (enabled P (va.sink w) L va.target_text w).1 = true then
          (P.deref (va.sink w)).log
            (dispatched_record L va.target_text here va.fmt (make_format_args va.args)
              va.fields)
            (enabled P (va.sink w) L va.target_text w).2.user
        else (enabled P (va.sink w) L va.target_text w).2.user)) ∧
    (∀ c : LevelFilter,
      (LOG_PP_DEBUG (macro_test.program c)
        { function_name := "TestBody", file_name := "macro_test.cpp", line := 152 }
        { target := some { val := "a" },
          fmt := "This is a trace message with logger.\x7b\x7d",
          args := [Arg.int 1] }
        (set_max_level LevelFilter.Debug (set_logger (.object 0) (World.start {})).2)).user.stdout
        = (if Level.Debug.le_filter c = true then
            "Enabled check: DEBUG - a\n\n[DEBUG] [a] [] [TestBody] [macro_test.cpp:152] This is a trace message with logger.1\n"
          else "")) := by
  have key : ∀ (σ : Type) (P : Program σ) (S : LoggerRef) (L : Level) (T : String)
      (module : source_location) (fmt : String) (args : FormatArgs σ)
      (kvs : List (BasicKV σ)) (w : World σ),
      log_calls (log_impl P S L T module fmt args kvs w).trace =
        log_calls w.trace ++
          (if (enabled P S L T w).1 = true then
            [(S, dispatched_record L T module fmt args kvs)]
          else []) := by
    intro σ P S L T module fmt args kvs w
    rw [log_impl_eq]
    by_cases h : (enabled P S L T w).1 = true
    · simp only [h, if_true]
      rw [enabled_eq] at h ⊢
      by_cases h1 : L.val ≤ P.LOG_PP_DETAIL_ACTIVE_COMPILE_LEVEL.val
      · by_cases h2 : L.val ≤ w.MAX_LOG_LEVEL_FILTER.val
        · simp [h1, h2, log_calls]
        · simp [h1, h2] at h
      · simp [h1] at h
    · simp only [h, if_false]
      rw [enabled_eq]
      by_cases h1 : L.val ≤ P.LOG_PP_DETAIL_ACTIVE_COMPILE_LEVEL.val
      · by_cases h2 : L.val ≤ w.MAX_LOG_LEVEL_FILTER.val
        · simp [h1, h2, log_calls]
        · simp [h1, h2, log_calls]
      · simp [h1]
  have user_key : ∀ (σ : Type) (P : Program σ) (S : LoggerRef) (L : Level) (T : String)
      (module : source_location) (fmt : String) (args : FormatArgs σ)
      (kvs : List (BasicKV σ)) (w : World σ),
      (log_impl P S L T module fmt args kvs w).user =
        (if (enabled P S L T w).1 = true then
          (P.deref S).log (dispatched_record L T module fmt args kvs)
            (enabled P S L T w).2.user
        else (enabled P S L T w).2.user) := by
    intro σ P S L T module fmt args kvs w
    rw [log_impl_eq]
    by_cases h : (enabled P S L T w).1 = true
    · simp [h]
    · simp [h]
  have capture : ∀ (σ : Type) (P : Program σ) (S : LoggerRef) (L : Level) (T : String)
      (w : World σ) (events : List (Event σ)),
      (enabled P S L T { w with trace := w.trace ++ events }).1 = (enabled P S L T w).1 ∧
      (enabled P S L T { w with trace := w.trace ++ events }).2.user =
        (enabled P S L T w).2.user := by
    intro σ P S L T w events
    rw [enabled_eq, enabled_eq]
    by_cases h1 : L.val ≤ P.LOG_PP_DETAIL_ACTIVE_COMPILE_LEVEL.val
    · by_cases h2 : L.val ≤ w.MAX_LOG_LEVEL_FILTER.val
      · simp [h1, h2]
      · simp [h1, h2]
    · simp [h1]
  refine ⟨key, ?_, ?_, user_key, ?_, ?_⟩
  · intro σ P L here va w
    rw [LOG_PP_eq, key]
    rw [(capture σ P (va.sink w) L va.target_text w va.capture_events).1]
    simp [log_calls_append, (capture_events_silent va).2.1]
  · intro c here
    simp only [LOG_PP_TRACE]
    rw [LOG_PP_eq, log_impl_eq, enabled_eq]
    simp [set_max_level, set_logger, World.start, LevelFilter.Debug, Level.Trace,
      CallArgs.capture_events, log_calls, enabled_calls]
    split_ifs <;> first | contradiction | simp
  · intro σ P L here va w
    rw [LOG_PP_eq, user_key]
    rw [(capture σ P (va.sink w) L va.target_text w va.capture_events).1,
      (capture σ P (va.sink w) L va.target_text w va.capture_events).2]
  · intro c
    simp only [LOG_PP_DEBUG]
    rw [LOG_PP_eq, log_impl_tiers]
    simp only [Level.le_filter_iff]
    by_cases h : Level.Debug.val ≤ c.val
    · have h1 : Level.Debug.val ≤ (macro_test.program c).LOG_PP_DETAIL_ACTIVE_COMPILE_LEVEL.val := h
      simp only [h, h1, if_true]
      have printed : (macro_test.SimpleLogger.log
          (dispatched_record Level.Debug "a"
            { function_name := "TestBody", file_name := "macro_test.cpp", line := 152 }
            "This is a trace message with logger.\x7b\x7d" (make_format_args [Arg.int 1]) [])
          (macro_test.SimpleLogger.enabled { level := Level.Debug, target := "a" } {}).2).stdout =
          "Enabled check: DEBUG - a\n\n[DEBUG] [a] [] [TestBody] [macro_test.cpp:152] This is a trace message with logger.1\n" := by
        decide
      exact printed
    · have h1 : ¬ Level.Debug.val ≤ (macro_test.program c).LOG_PP_DETAIL_ACTIVE_COMPILE_LEVEL.val := h
      simp only [h, h1, if_false]
      rfl

end log_pp

namespace log_pp

/-- C4: a log call that any of the three tiers rejects runs no key-value
formatter and no positional-argument formatter.  The user memory after the call
is the memory before it when a ceiling rejects, and the memory the sink's own
`enabled` leaves when the sink rejects; neither involves the fields or the
arguments of the call.  The sink's `log` is not called and no record is built,
so every counter that the sink's `enabled` does not touch keeps its value.  In
the key-value test (runtime ceiling Error, Info call with a counting value)
the counter stays 0, while the same call under runtime ceiling Trace sets it
to 1. -/
theorem C4_filtered_call_runs_no_formatter :
    (∀ (σ : Type) (P : Program σ) (L : Level) (here : source_location) (va : CallArgs σ)
      (w : World σ),
      (enabled P (va.sink w) L va.target_text w).1 = false →
        (LOG_PP P L here va w).user =
          (if L.le_filter P.LOG_PP_DETAIL_ACTIVE_COMPILE_LEVEL = true ∧
              L.le_filter (max_level w) = true then
            ((P.deref (va.sink w)).enabled { level := L, target := va.target_text } w.user).2
          else w.user) ∧
        log_calls (LOG_PP P L here va w).trace = log_calls w.trace ∧
        records_built (LOG_PP P L here va w).trace = records_built w.trace ∧
        (∀ counter : σ → Int,
          (∀ md s, counter ((P.deref (va.sink w)).enabled md s).2 = counter s) →
            counter (LOG_PP P L here va w).user = counter w.user)) ∧
    (∀ (c : LevelFilter) (here : source_location),
      (LOG_PP_INFO (kv_test.program c) here kv_test.counted_call
        (set_max_level LevelFilter.Error (World.start {}))).user.g_counting_value_format_calls
        = 0) ∧
    (∀ here : source_location,
      (LOG_PP_INFO (kv_test.program LevelFilter.Trace) here kv_test.counted_call
        (set_max_level LevelFilter.Trace (World.start {}))).user.g_counting_value_format_calls
        = 1) := by
  refine ⟨?_, ?_, ?_⟩
  · intro σ P L here va w h
    have hu : (LOG_PP P L here va w).user =
        (if L.le_filter P.LOG_PP_DETAIL_ACTIVE_COMPILE_LEVEL = true ∧
            L.le_filter (max_level w) = true then
          ((P.deref (va.sink w)).enabled { level := L, target := va.target_text } w.user).2
        else w.user) ∧
        log_calls (LOG_PP P L here va w).trace = log_calls w.trace ∧
        records_built (LOG_PP P L here va w).trace = records_built w.trace := by
      have hn := mt (enabled_true_iff P (va.sink w) L va.target_text w).mpr (by simp [h])
      rw [LOG_PP_eq, log_impl_tiers]
      simp only [max_level, Level.le_filter_iff]
      by_cases h1 : L.val ≤ P.LOG_PP_DETAIL_ACTIVE_COMPILE_LEVEL.val
      · by_cases h2 : L.val ≤ w.MAX_LOG_LEVEL_FILTER.val
        · have h3 : ¬ ((P.deref (va.sink w)).enabled
              { level := L, target := va.target_text } w.user).1 = true :=
            fun h3 => hn ⟨h1, h2, h3⟩
          simp only [h1, h2, h3, if_true, if_false, and_self, List.append_assoc,
            log_calls_append, records_built_append, (capture_events_silent va).2.1,
            (capture_events_silent va).2.2.1, Bool.false_eq_true]
          simp [log_calls, records_built]
        · simp only [h1, h2, if_true, if_false, and_false, List.append_assoc,
            log_calls_append, records_built_append, (capture_events_silent va).2.1,
            (capture_events_silent va).2.2.1]
          simp [log_calls, records_built]
      · simp only [h1, if_false, false_and, log_calls_append, records_built_append,
          (capture_events_silent va).2.1, (capture_events_silent va).2.2.1]
        simp
    refine ⟨hu.1, hu.2.1, hu.2.2, ?_⟩
    intro counter hcounter
    rw [hu.1]
    split_ifs
    · exact hcounter _ _
    · rfl
  · intro c here
    simp only [LOG_PP_INFO]
    rw [LOG_PP_eq, log_impl_tiers]
    simp [set_max_level, World.start, LevelFilter.Error, Level.Info]
    split_ifs <;> first | contradiction | rfl
  · intro here
    rfl

/-- Witness of C4: the filtered call of the key-value test; the sink's
`enabled` does not touch the counter, which is 0 before and after. -/
theorem C4_filtered_call_runs_no_formatter_witness :
    (enabled (kv_test.program LevelFilter.Trace)
        (kv_test.counted_call.sink (set_max_level LevelFilter.Error (World.start {})))
        Level.Info kv_test.counted_call.target_text
        (set_max_level LevelFilter.Error (World.start {}))).1 = false ∧
      (∀ (md : BasicMetadata) (s : kv_test.Memory),
        (((kv_test.program LevelFilter.Trace).deref
          (kv_test.counted_call.sink (set_max_level LevelFilter.Error (World.start {})))).enabled
            md s).2.g_counting_value_format_calls = s.g_counting_value_format_calls) ∧
      (LOG_PP (kv_test.program LevelFilter.Trace) Level.Info ({} : source_location)
        kv_test.counted_call
        (set_max_level LevelFilter.Error (World.start {}))).user.g_counting_value_format_calls
        = 0 :=
  ⟨by decide, fun _ _ => rfl,
    (C4_filtered_call_runs_no_formatter.1 kv_test.Memory (kv_test.program LevelFilter.Trace)
      Level.Info ({} : source_location) kv_test.counted_call
      (set_max_level LevelFilter.Error (World.start {}))
      (by decide)).2.2.2 (fun m => m.g_counting_value_format_calls) (fun _ _ => rfl)⟩

end log_pp

namespace log_pp

/-- C5: for every level above the static ceiling a log call performs no sink
interaction: neither the sink's `enabled` nor its `log` is called and the user
memory is unchanged, whatever the runtime ceiling is and whatever the sink
would answer.  In the release-fallback test (static ceiling Info, runtime
ceiling Trace, always-enabled capture sink bound) the Debug call and then the
Trace call leave the captured level and message as they were, and the Info
call is delivered with level Info and message "info 1". -/
theorem C5_above_static_ceiling_no_sink_interaction :
    (∀ (σ : Type) (P : Program σ) (L : Level) (here : source_location) (va : CallArgs σ)
      (w : World σ),
      ¬ (L.le_filter P.LOG_PP_DETAIL_ACTIVE_COMPILE_LEVEL = true) →
        enabled_calls (LOG_PP P L here va w).trace = enabled_calls w.trace ∧
        log_calls (LOG_PP P L here va w).trace = log_calls w.trace ∧
        (LOG_PP P L here va w).user = w.user) ∧
    (∀ here : source_location,
      (LOG_PP_DEBUG (fallback_test.program LevelFilter.Info) here fallback_test.debug_call
        fallback_test.arranged).user
        = { last_message := "", last_level := Level.Error } ∧
      (LOG_PP_TRACE (fallback_test.program LevelFilter.Info) here fallback_test.trace_call
        (LOG_PP_DEBUG (fallback_test.program LevelFilter.Info) here fallback_test.debug_call
          fallback_test.arranged)).user
        = { last_message := "", last_level := Level.Error } ∧
      (LOG_PP_INFO (fallback_test.program LevelFilter.Info) here fallback_test.info_call
        (LOG_PP_TRACE (fallback_test.program LevelFilter.Info) here fallback_test.trace_call
          (LOG_PP_DEBUG (fallback_test.program LevelFilter.Info) here fallback_test.debug_call
            fallback_test.arranged))).user
        = { last_message := "info 1", last_level := Level.Info }) := by
  refine ⟨?_, ?_⟩
  · intro σ P L here va w h
    rw [LOG_PP_above_static P L here va w h]
    simp [enabled_calls_append, log_calls_append, (capture_events_silent va).1,
      (capture_events_silent va).2.1]
  · intro here
    have hd : ¬ (Level.Debug.le_filter
        (fallback_test.program LevelFilter.Info).LOG_PP_DETAIL_ACTIVE_COMPILE_LEVEL = true) := by
      decide
    have ht : ¬ (Level.Trace.le_filter
        (fallback_test.program LevelFilter.Info).LOG_PP_DETAIL_ACTIVE_COMPILE_LEVEL = true) := by
      decide
    simp only [LOG_PP_DEBUG, LOG_PP_TRACE, LOG_PP_INFO]
    rw [LOG_PP_above_static _ _ _ _ _ hd, LOG_PP_above_static _ _ _ _ _ ht]
    refine ⟨rfl, rfl, ?_⟩
    rw [LOG_PP_eq, log_impl_tiers]
    simp [fallback_test.program, fallback_test.arranged, fallback_test.info_call,
      set_max_level, set_logger, World.start, LevelFilter.Info, LevelFilter.Trace, Level.Info,
      Program.deref, fallback_test.CaptureLogger, fallback_test.CaptureLogger.log,
      dispatched_record, BasicRecord.get_level, BasicRecord.get_format_string,
      BasicRecord.get_args, CallArgs.sink, CallArgs.target_text, logger]
    rfl

/-- Witness of C5: the Debug call of the release-fallback test. -/
theorem C5_above_static_ceiling_no_sink_interaction_witness :
    ¬ (Level.Debug.le_filter
        (fallback_test.program LevelFilter.Info).LOG_PP_DETAIL_ACTIVE_COMPILE_LEVEL = true) ∧
      (enabled_calls (LOG_PP (fallback_test.program LevelFilter.Info) Level.Debug
          ({} : source_location) fallback_test.debug_call fallback_test.arranged).trace
        = enabled_calls fallback_test.arranged.trace ∧
      log_calls (LOG_PP (fallback_test.program LevelFilter.Info) Level.Debug
          ({} : source_location) fallback_test.debug_call fallback_test.arranged).trace
        = log_calls fallback_test.arranged.trace ∧
      (LOG_PP (fallback_test.program LevelFilter.Info) Level.Debug
          ({} : source_location) fallback_test.debug_call fallback_test.arranged).user
        = fallback_test.arranged.user) :=
  ⟨by decide,
    C5_above_static_ceiling_no_sink_interaction.1 fallback_test.Memory
      (fallback_test.program LevelFilter.Info) Level.Debug ({} : source_location)
      fallback_test.debug_call fallback_test.arranged (by decide)⟩

/-- C6, as stated, fails: a Debug call under static ceiling Info is above the
static ceiling, yet its key-value field and its positional-argument bundle are
constructed; only metadata, record and sink calls are absent. -/
theorem C6_counterexample_capture_precedes_static_check :
    ¬ (Level.Debug.le_filter
        (kv_test.program LevelFilter.Info).LOG_PP_DETAIL_ACTIVE_COMPILE_LEVEL = true) ∧
      kvs_constructed (LOG_PP (kv_test.program LevelFilter.Info) Level.Debug ({} : source_location)
        kv_test.counted_call (World.start {})).trace = ["counted"] ∧
      args_bundles (LOG_PP (kv_test.program LevelFilter.Info) Level.Debug ({} : source_location)
        kv_test.counted_call (World.start {})).trace = [1] := by
  refine ⟨by decide, rfl, rfl⟩

/-- C6, amended: when the level exceeds the static ceiling, the log call builds
no metadata and no record, calls no sink member and leaves the user memory
unchanged (no formatter runs); what it does is construct the key-value fields
of its braced list, in order, and one positional-argument bundle, because the
static test is made inside `enabled`, after the arguments were evaluated. -/
theorem C6_above_static_ceiling_only_capture (σ : Type) (P : Program σ) (L : Level)
    (here : source_location) (va : CallArgs σ) (w : World σ)
    (h : ¬ (L.le_filter P.LOG_PP_DETAIL_ACTIVE_COMPILE_LEVEL = true)) :
    metadata_built (LOG_PP P L here va w).trace = metadata_built w.trace ∧
    records_built (LOG_PP P L here va w).trace = records_built w.trace ∧
    enabled_calls (LOG_PP P L here va w).trace = enabled_calls w.trace ∧
    log_calls (LOG_PP P L here va w).trace = log_calls w.trace ∧
    (LOG_PP P L here va w).user = w.user ∧
    kvs_constructed (LOG_PP P L here va w).trace =
      kvs_constructed w.trace ++ va.inits.map KVInit.in_key ∧
    args_bundles (LOG_PP P L here va w).trace = args_bundles w.trace ++ [va.args.length] := by
  rw [LOG_PP_above_static P L here va w h]
  simp [enabled_calls_append, log_calls_append, records_built_append, metadata_built_append,
    kvs_constructed_append, args_bundles_append, (capture_events_silent va).1,
    (capture_events_silent va).2.1, (capture_events_silent va).2.2.1,
    (capture_events_silent va).2.2.2, (capture_events_content va).1,
    (capture_events_content va).2]

/-- Witness of the amended C6: the counting call at Debug under static ceiling
Info. -/
theorem C6_above_static_ceiling_only_capture_witness :
    ¬ (Level.Debug.le_filter
        (kv_test.program LevelFilter.Info).LOG_PP_DETAIL_ACTIVE_COMPILE_LEVEL = true) ∧
      (LOG_PP (kv_test.program LevelFilter.Info) Level.Debug ({} : source_location) kv_test.counted_call
        (World.start {})).user = {} :=
  ⟨by decide,
    (C6_above_static_ceiling_only_capture kv_test.Memory (kv_test.program LevelFilter.Info)
      Level.Debug ({} : source_location) kv_test.counted_call (World.start {}) (by decide)).2.2.2.2.1⟩

end log_pp

namespace log_pp

/-- C7: for every admitted log call with level `L`, target `T` (the empty
string when the call names none), format string `F` and braced key-value list
`K`, the sink's `log` is called on a record with `get_level() = L`,
`get_target() = T`, `get_format_string() = F`, the call site present, and
`get_kvs()` of the length of `K` with the keys of `K` and, in every memory, the
rendered values of `K`, in order (the empty list when the call has no
key-values).  In the key-value test without target the sink captures target
"" and the dump "id=100;user=alice;ratio=1.25". -/
theorem C7_record_passed_to_sink :
    (∀ (σ : Type) (P : Program σ) (L : Level) (here : source_location) (va : CallArgs σ)
      (w : World σ),
      (enabled P (va.sink w) L va.target_text w).1 = true →
        ∃ r : BasicRecord σ,
          log_calls (LOG_PP P L here va w).trace = log_calls w.trace ++ [(va.sink w, r)] ∧
          (LOG_PP P L here va w).user =
            (P.deref (va.sink w)).log r
              ((P.deref (va.sink w)).enabled { level := L, target := va.target_text } w.user).2 ∧
          r.get_level = L ∧
          r.get_target = va.target_text ∧
          (va.target = none → r.get_target = "") ∧
          (∀ t, va.target = some t → r.get_target = t.val) ∧
          r.get_format_string = va.fmt ∧
          r.get_module_path = some here.function_name ∧
          r.get_file = some here.file_name ∧
          r.get_line = some here.line ∧
          r.get_kvs.length = va.inits.length ∧
          r.get_kvs.map BasicKV.get_key = va.inits.map KVInit.in_key ∧
          (∀ s, rendered_values r.get_kvs s = va.inits.map (fun i => i.rendered s)) ∧
          (va.kvs = none → r.get_kvs = [])) ∧
    (∀ here : source_location,
      (LOG_PP (kv_test.program LevelFilter.Trace) Level.Info here kv_test.without_target_call
        (World.start {})).user
        = { last_target := "", last_message := "message ok 7",
            last_kv_dump := "id=100;user=alice;ratio=1.25" }) := by
  refine ⟨?_, ?_⟩
  · intro σ P L here va w h
    obtain ⟨h1, h2, h3⟩ := (enabled_true_iff P (va.sink w) L va.target_text w).mp h
    refine ⟨dispatched_record L va.target_text here va.fmt (make_format_args va.args)
      va.fields, ?_, ?_, rfl, rfl, ?_, ?_, rfl, rfl, rfl, rfl, fields_length va,
      fields_keys va, fields_rendered va, ?_⟩
    · rw [LOG_PP_eq, log_impl_tiers]
      simp only [h1, h2, h3, if_true, List.append_assoc, log_calls_append,
        (capture_events_silent va).2.1]
      simp [log_calls]
    · rw [LOG_PP_eq, log_impl_tiers]
      simp only [h1, h2, h3, if_true]
    · intro ht
      simp [BasicRecord.get_target, dispatched_record, CallArgs.target_text, ht]
    · intro t ht
      simp [BasicRecord.get_target, dispatched_record, CallArgs.target_text, ht]
    · intro hk
      simp [BasicRecord.get_kvs, dispatched_record, CallArgs.fields, hk]
  · intro here
    rw [LOG_PP_eq, log_impl_tiers]
    simp [kv_test.program, kv_test.without_target_call, World.start, LevelFilter.Trace,
      Level.Info, Program.deref, kv_test.CaptureLogger, kv_test.CaptureLogger.log,
      dispatched_record, BasicRecord.get_target, BasicRecord.get_format_string,
      BasicRecord.get_args, BasicRecord.get_kvs, CallArgs.sink, CallArgs.target_text,
      CallArgs.fields]
    rfl

/-- Witness of C7: the admitted call of the key-value test without target, and
the admitted Info call of the fallback test, which has neither target nor
key-values. -/
theorem C7_record_passed_to_sink_witness :
    ((enabled (kv_test.program LevelFilter.Trace)
        (kv_test.without_target_call.sink (World.start {})) Level.Info
        kv_test.without_target_call.target_text (World.start {})).1 = true ∧
      ∃ r : BasicRecord kv_test.Memory,
        log_calls (LOG_PP (kv_test.program LevelFilter.Trace) Level.Info ({} : source_location)
          kv_test.without_target_call (World.start {})).trace = [(.object 0, r)] ∧
        r.get_target = "" ∧
        r.get_kvs.map BasicKV.get_key = ["id", "user", "ratio"] ∧
        rendered_values r.get_kvs {} =
          [.returned "100", .returned "alice", .returned "1.25"]) ∧
    ((enabled (fallback_test.program LevelFilter.Info)
        (fallback_test.info_call.sink fallback_test.arranged) Level.Info
        fallback_test.info_call.target_text fallback_test.arranged).1 = true ∧
      ∃ r : BasicRecord fallback_test.Memory,
        log_calls (LOG_PP (fallback_test.program LevelFilter.Info) Level.Info
          ({} : source_location) fallback_test.info_call fallback_test.arranged).trace
          = [(.object 0, r)] ∧
        r.get_level = Level.Info ∧ r.get_target = "" ∧ r.get_kvs = []) := by
  refine ⟨⟨by decide, ?_⟩, ⟨by decide, ?_⟩⟩
  · obtain ⟨r, h1, _, _, _, h5, _, _, _, _, _, _, h12, h13, _⟩ :=
      C7_record_passed_to_sink.1 kv_test.Memory (kv_test.program LevelFilter.Trace) Level.Info
        ({} : source_location) kv_test.without_target_call (World.start {}) (by decide)
    exact ⟨r, h1, h5 rfl, h12, (h13 {}).trans (by decide)⟩
  · obtain ⟨r, h1, _, h3, _, h5, _, _, _, _, _, _, _, _, h14⟩ :=
      C7_record_passed_to_sink.1 fallback_test.Memory (fallback_test.program LevelFilter.Info)
        Level.Info ({} : source_location) fallback_test.info_call fallback_test.arranged
        (by decide)
    exact ⟨r, h1, h3, h5 rfl, h14 rfl⟩

end log_pp

namespace log_pp

/-- C8: in a sequential series of `set_logger` calls made while the once-flag
is still unused (as in the initial state), the first call binds its argument
and returns true, and every later call returns true exactly when its argument
is the bound sink.  In every state, `set_logger(s)` returns true if and only
if `logger()` is `s` right after the call. -/
theorem C8_set_logger_series_results :
    (∀ (σ : Type) (w : World σ) (first : LoggerRef) (later : List LoggerRef),
      w.flag_used = false →
        (set_logger first w).1 = true ∧
        logger (set_logger first w).2 = first ∧
        (set_logger_series (first :: later) w).1 =
          true :: later.map (fun a => decide (a = first)) ∧
        logger (set_logger_series (first :: later) w).2 = first) ∧
    (∀ (σ : Type) (w : World σ) (s : LoggerRef),
      (set_logger s w).1 = true ↔ logger (set_logger s w).2 = s) ∧
    (∀ (σ : Type) (s : σ), (World.start s).flag_used = false) := by
  refine ⟨?_, ?_, fun _ _ => rfl⟩
  · intro σ w first later h
    have hflag := set_logger_flag first w
    have hser := set_logger_series_used later (set_logger first w).2 hflag
    simp only [set_logger_series, hser]
    rw [set_logger_unused first w h]
    simp [logger]
  · intro σ w s
    cases h : w.flag_used
    · rw [set_logger_unused s w h]
      simp [logger]
    · rw [set_logger_used s w h]
      simp [logger]

/-- Witness of C8: three calls from the initial state of the local-logger
example, the first and the third with the same sink. -/
theorem C8_set_logger_series_results_witness :
    (World.start ({} : ConsoleMemory)).flag_used = false ∧
      (set_logger_series [.object 0, .object 1, .object 0]
        (World.start ({} : ConsoleMemory))).1 = [true, false, true] :=
  ⟨rfl,
    ((C8_set_logger_series_results.1 ConsoleMemory (World.start {}) (.object 0)
      [.object 1, .object 0] rfl).2.2.1).trans (by decide)⟩

/-- C9: once a first `set_logger` call has completed, the binding is permanent:
after every later series of `set_logger` calls, and after every later sequence
of facade calls of any kind, `logger()` is still the sink that first call
bound; a `set_logger` call made once the flag is used leaves the whole state
as it was. -/
theorem C9_binding_is_permanent :
    (∀ (σ : Type) (P : Program σ) (w : World σ) (first : LoggerRef) (later : List LoggerRef)
      (steps : List (Step σ)),
      w.flag_used = false →
        logger (set_logger_series later (set_logger first w).2).2 = first ∧
        logger (run P steps (set_logger first w).2) = first) ∧
    (∀ (σ : Type) (w : World σ) (a : LoggerRef),
      w.flag_used = true → (set_logger a w).2 = w) := by
  refine ⟨?_, ?_⟩
  · intro σ P w first later steps h
    have hflag := set_logger_flag first w
    have hcur : (set_logger first w).2.current = first := by
      rw [set_logger_unused first w h]
    refine ⟨?_, ?_⟩
    · rw [set_logger_series_used later _ hflag]
      exact hcur
    · exact ((run_used P steps _ hflag).2).trans hcur
  · intro σ w a h
    rw [set_logger_used a w h]

/-- Witness of C9: in the local-logger example, after `set_logger(logger)` a log
call, the rebind attempt `set_logger(local_logger)`, a change of the runtime
ceiling and a call on the explicit local logger leave the first sink bound. -/
theorem C9_binding_is_permanent_witness :
    (World.start ({} : ConsoleMemory)).flag_used = false ∧
      logger (run (local_logger.program LevelFilter.Trace)
        [.log Level.Info {} { fmt := "This message will be logged by global logger" },
          .set_logger (.object 1),
          .set_max_level LevelFilter.Off,
          .log Level.Info {}
            { explicit_logger := some (.object 1),
              fmt := "Global logger can not change but can use local logger" }]
        (set_logger (.object 0) (World.start ({} : ConsoleMemory))).2) = .object 0 :=
  ⟨rfl,
    (C9_binding_is_permanent.1 ConsoleMemory (local_logger.program LevelFilter.Trace)
      (World.start {}) (.object 0) []
      [.log Level.Info {} { fmt := "This message will be logged by global logger" },
        .set_logger (.object 1),
        .set_max_level LevelFilter.Off,
        .log Level.Info {}
          { explicit_logger := some (.object 1),
            fmt := "Global logger can not change but can use local logger" }]
      rfl).2⟩

end log_pp

namespace log_pp

/-- C10: before any `set_logger` call (the initial state followed by any facade
calls other than `set_logger`, under any runtime ceiling `f`), `logger()` is
the built-in default sink, whose `enabled` answers false on every metadata and
changes nothing; so a log call through a global-logger overload, at any level
and with any target, calls no `log`, builds no record and leaves the user
memory unchanged. -/
theorem C10_unbound_global_logger_emits_nothing (σ : Type) (P : Program σ) (s : σ)
    (steps : List (Step σ)) (f : LevelFilter)
    (hsteps : ∀ st ∈ steps, st.is_set_logger = false) :
    logger (set_max_level f (run P steps (World.start s))) = .default_logger ∧
    (∀ (md : BasicMetadata) (m : σ),
      (P.deref (logger (set_max_level f (run P steps (World.start s))))).enabled md m
        = (false, m)) ∧
    (∀ (L : Level) (here : source_location) (va : CallArgs σ),
      va.explicit_logger = none →
        log_calls (LOG_PP P L here va (set_max_level f (run P steps (World.start s)))).trace
          = log_calls (set_max_level f (run P steps (World.start s))).trace ∧
        records_built (LOG_PP P L here va (set_max_level f (run P steps (World.start s)))).trace
          = records_built (set_max_level f (run P steps (World.start s))).trace ∧
        (LOG_PP P L here va (set_max_level f (run P steps (World.start s)))).user
          = (set_max_level f (run P steps (World.start s))).user) := by
  have hcur : logger (set_max_level f (run P steps (World.start s))) = .default_logger := by
    have := (run_without_set_logger P steps (World.start s) hsteps).2
    simp only [logger, set_max_level]
    rw [this]
    rfl
  refine ⟨hcur, ?_, ?_⟩
  · intro md m
    rw [hcur]
    rfl
  · intro L here va hva
    generalize set_max_level f (run P steps (World.start s)) = w at hcur ⊢
    have hsink : va.sink w = .default_logger := by
      simp only [CallArgs.sink, hva]
      exact hcur
    rw [LOG_PP_eq, log_impl_tiers, hsink]
    by_cases h1 : L.val ≤ P.LOG_PP_DETAIL_ACTIVE_COMPILE_LEVEL.val
    · by_cases h2 : L.val ≤ w.MAX_LOG_LEVEL_FILTER.val
      · simp only [h1, h2, if_true, Program.deref, default_logger_t, Bool.false_eq_true,
          if_false, List.append_assoc, log_calls_append, records_built_append,
          (capture_events_silent va).2.1, (capture_events_silent va).2.2.1]
        simp [log_calls, records_built]
      · simp only [h1, h2, if_true, if_false, List.append_assoc, log_calls_append,
          records_built_append, (capture_events_silent va).2.1,
          (capture_events_silent va).2.2.1]
        simp [log_calls, records_built]
    · simp only [h1, if_false, log_calls_append, records_built_append,
        (capture_events_silent va).2.1, (capture_events_silent va).2.2.1]
      simp

/-- Witness of C10: the macro test before any binding, after a change of the
runtime ceiling and an earlier log call; a further Trace call through the
global-logger overload prints nothing. -/
theorem C10_unbound_global_logger_emits_nothing_witness :
    (∀ st ∈ ([.set_max_level LevelFilter.Trace,
        .log Level.Trace {} { fmt := "This is a trace message without logger" }] :
        List (Step ConsoleMemory)), st.is_set_logger = false) ∧
      ({ fmt := "This is a trace message without logger.\x7b\x7d", args := [Arg.int 1] } :
        CallArgs ConsoleMemory).explicit_logger = none ∧
      logger (set_max_level LevelFilter.Trace
        (run (macro_test.program LevelFilter.Trace)
          [.set_max_level LevelFilter.Trace,
            .log Level.Trace {} { fmt := "This is a trace message without logger" }]
          (World.start ({} : ConsoleMemory)))) = .default_logger ∧
      (LOG_PP (macro_test.program LevelFilter.Trace) Level.Trace ({} : source_location)
        { fmt := "This is a trace message without logger.\x7b\x7d", args := [Arg.int 1] }
        (set_max_level LevelFilter.Trace
          (run (macro_test.program LevelFilter.Trace)
            [.set_max_level LevelFilter.Trace,
              .log Level.Trace {} { fmt := "This is a trace message without logger" }]
            (World.start ({} : ConsoleMemory))))).user = {} :=
  ⟨by simp [Step.is_set_logger], rfl,
    (C10_unbound_global_logger_emits_nothing ConsoleMemory (macro_test.program LevelFilter.Trace)
      {} [.set_max_level LevelFilter.Trace,
        .log Level.Trace {} { fmt := "This is a trace message without logger" }]
      LevelFilter.Trace (by simp [Step.is_set_logger])).1,
    ((C10_unbound_global_logger_emits_nothing ConsoleMemory
      (macro_test.program LevelFilter.Trace)
      {} [.set_max_level LevelFilter.Trace,
        .log Level.Trace {} { fmt := "This is a trace message without logger" }]
      LevelFilter.Trace (by simp [Step.is_set_logger])).2.2 Level.Trace ({} : source_location)
      { fmt := "This is a trace message without logger.\x7b\x7d", args := [Arg.int 1] }
      rfl).2.2.trans (by decide)⟩

end log_pp

namespace log_pp

/-! ## Lemmas on call sites and on the level operators -/

/-- The sink `enabled` calls a call site adds to the trace. -/
theorem LOG_PP_enabled_calls {σ : Type} (P : Program σ) (L : Level) (here : source_location)
    (va : CallArgs σ) (w : World σ) :
    enabled_calls (LOG_PP P L here va w).trace =
      enabled_calls w.trace ++
        (if L.le_filter P.LOG_PP_DETAIL_ACTIVE_COMPILE_LEVEL = true ∧
            L.le_filter (max_level w) = true then
          [(va.sink w, { level := L, target := va.target_text })]
        else []) := by
  rw [LOG_PP_eq, log_impl_tiers]
  simp only [max_level, Level.le_filter_iff]
  by_cases h1 : L.val ≤ P.LOG_PP_DETAIL_ACTIVE_COMPILE_LEVEL.val
  · by_cases h2 : L.val ≤ w.MAX_LOG_LEVEL_FILTER.val
    · by_cases h3 : ((P.deref (va.sink w)).enabled
          { level := L, target := va.target_text } w.user).1 = true
      · simp only [h1, h2, h3, if_true, and_self, List.append_assoc, enabled_calls_append,
          (capture_events_silent va).1]
        simp [enabled_calls]
      · simp only [h1, h2, h3, if_true, if_false, and_self, List.append_assoc,
          enabled_calls_append, (capture_events_silent va).1, Bool.false_eq_true]
        simp [enabled_calls]
    · simp only [h1, h2, if_true, if_false, and_false, List.append_assoc,
        enabled_calls_append, (capture_events_silent va).1]
      simp [enabled_calls]
  · simp only [h1, if_false, false_and, enabled_calls_append, (capture_events_silent va).1]

/-- The sink `log` calls a call site adds to the trace. -/
theorem LOG_PP_log_calls {σ : Type} (P : Program σ) (L : Level) (here : source_location)
    (va : CallArgs σ) (w : World σ) :
    log_calls (LOG_PP P L here va w).trace =
      log_calls w.trace ++
        (if (enabled P (va.sink w) L va.target_text w).1 = true then
          [(va.sink w, dispatched_record L va.target_text here va.fmt
            (make_format_args va.args) va.fields)]
        else []) := by
  rw [LOG_PP_eq, log_impl_tiers]
  by_cases h : (enabled P (va.sink w) L va.target_text w).1 = true
  · obtain ⟨h1, h2, h3⟩ := (enabled_true_iff P (va.sink w) L va.target_text w).mp h
    simp only [h, h1, h2, h3, if_true, List.append_assoc, log_calls_append,
      (capture_events_silent va).2.1]
    simp [log_calls]
  · have hn := mt (enabled_true_iff P (va.sink w) L va.target_text w).mpr h
    simp only [h, if_false]
    by_cases h1 : L.val ≤ P.LOG_PP_DETAIL_ACTIVE_COMPILE_LEVEL.val
    · by_cases h2 : L.val ≤ w.MAX_LOG_LEVEL_FILTER.val
      · have h3 : ¬ ((P.deref (va.sink w)).enabled
            { level := L, target := va.target_text } w.user).1 = true :=
          fun h3 => hn ⟨h1, h2, h3⟩
        simp only [h1, h2, h3, if_true, if_false, List.append_assoc, log_calls_append,
          (capture_events_silent va).2.1, Bool.false_eq_true]
        simp [log_calls]
      · simp only [h1, h2, if_true, if_false, List.append_assoc, log_calls_append,
          (capture_events_silent va).2.1]
        simp [log_calls]
    · simp only [h1, if_false, log_calls_append, (capture_events_silent va).2.1]
      simp

/-- C11: a global-logger overload of `log` behaves exactly as the explicit-logger
overload called with `logger()` as the sink: the two calls leave the same
state, trace and user memory included.  An explicit-logger call on a sink `S`
applies the three tiers against `S`: its `enabled` call, if any, and its `log`
call, if any, are on `S`, and when the globally bound sink is a different sink
the call adds no `enabled` and no `log` call on it. -/
theorem C11_global_overload_is_explicit_on_logger :
    (∀ (σ : Type) (P : Program σ) (L : Level) (here : source_location) (va : CallArgs σ)
      (w : World σ),
      va.explicit_logger = none →
        LOG_PP P L here va w =
          LOG_PP P L here { va with explicit_logger := some (logger w) } w) ∧
    (∀ (σ : Type) (P : Program σ) (L : Level) (here : source_location) (va : CallArgs σ)
      (w : World σ) (S : LoggerRef),
      va.explicit_logger = some S →
        enabled_calls (LOG_PP P L here va w).trace =
          enabled_calls w.trace ++
            (if L.le_filter P.LOG_PP_DETAIL_ACTIVE_COMPILE_LEVEL = true ∧
                L.le_filter (max_level w) = true then
              [(S, { level := L, target := va.target_text })]
            else []) ∧
        log_calls (LOG_PP P L here va w).trace =
          log_calls w.trace ++
            (if (enabled P S L va.target_text w).1 = true then
              [(S, dispatched_record L va.target_text here va.fmt
                (make_format_args va.args) va.fields)]
            else []) ∧
        (logger w ≠ S →
          (enabled_calls (LOG_PP P L here va w).trace).filter
              (fun c => decide (c.1 = logger w)) =
            (enabled_calls w.trace).filter (fun c => decide (c.1 = logger w)) ∧
          (log_calls (LOG_PP P L here va w).trace).filter
              (fun c => decide (c.1 = logger w)) =
            (log_calls w.trace).filter (fun c => decide (c.1 = logger w)))) := by
  refine ⟨?_, ?_⟩
  · intro σ P L here va w h
    rw [LOG_PP_eq, LOG_PP_eq]
    simp [CallArgs.sink, CallArgs.target_text, CallArgs.fields, CallArgs.capture_events, h]
  · intro σ P L here va w S h
    have hs : va.sink w = S := by simp [CallArgs.sink, h]
    have he := LOG_PP_enabled_calls P L here va w
    have hl := LOG_PP_log_calls P L here va w
    rw [hs] at he hl
    refine ⟨he, hl, ?_⟩
    intro hne
    have hne2 : ¬ (S = logger w) := fun e => hne e.symm
    rw [he, hl]
    constructor
    · split_ifs <;> simp [List.filter_append, hne2]
    · split_ifs <;> simp [List.filter_append, hne2]

/-- Witness of C11: in the local-logger example with the static `SimpleLogger`
bound, the global-overload Info call equals the explicit call on `logger()`,
and the Info call on the explicit local logger (object 1) adds no call on the
bound sink (object 0). -/
theorem C11_global_overload_is_explicit_on_logger_witness :
    (({ fmt := "This message will be logged by global logger" } :
        CallArgs ConsoleMemory).explicit_logger = none ∧
      LOG_PP (local_logger.program LevelFilter.Trace) Level.Info ({} : source_location)
          { fmt := "This message will be logged by global logger" }
          (set_logger (.object 0) (World.start ({} : ConsoleMemory))).2 =
        LOG_PP (local_logger.program LevelFilter.Trace) Level.Info ({} : source_location)
          { explicit_logger := some (.object 0),
            fmt := "This message will be logged by global logger" }
          (set_logger (.object 0) (World.start ({} : ConsoleMemory))).2) ∧
    (logger (set_logger (.object 0) (World.start ({} : ConsoleMemory))).2 ≠ .object 1 ∧
      (log_calls (LOG_PP (local_logger.program LevelFilter.Trace) Level.Info
          ({} : source_location)
          { explicit_logger := some (.object 1),
            fmt := "This message will be logged by LocalLogger" }
          (set_logger (.object 0) (World.start ({} : ConsoleMemory))).2).trace).filter
          (fun c => decide (c.1 = LoggerRef.object 0)) = [] ∧
      (LOG_PP (local_logger.program LevelFilter.Trace) Level.Info ({} : source_location)
          { explicit_logger := some (.object 1),
            fmt := "This message will be logged by LocalLogger" }
          (set_logger (.object 0) (World.start ({} : ConsoleMemory))).2).user.stdout =
        "LocalLogger: [INFO] [] This message will be logged by LocalLogger\n") :=
  ⟨⟨rfl,
    C11_global_overload_is_explicit_on_logger.1 ConsoleMemory
      (local_logger.program LevelFilter.Trace) Level.Info ({} : source_location)
      { fmt := "This message will be logged by global logger" }
      (set_logger (.object 0) (World.start ({} : ConsoleMemory))).2 rfl⟩,
    ⟨by decide,
      ((C11_global_overload_is_explicit_on_logger.2 ConsoleMemory
        (local_logger.program LevelFilter.Trace) Level.Info ({} : source_location)
        { explicit_logger := some (.object 1),
          fmt := "This message will be logged by LocalLogger" }
        (set_logger (.object 0) (World.start ({} : ConsoleMemory))).2 (.object 1) rfl).2.2
        (by decide)).2,
      by decide⟩⟩

end log_pp

namespace log_pp

/-- The three-way comparison of two integers says `lt` exactly when the first
is smaller. -/
theorem compare_lt_iff (a b : Int) : (compare a b == Ordering.lt) = true ↔ a < b := by
  simp only [compare, compareOfLessAndEq]
  split_ifs with h1 h2
  · exact ⟨fun _ => h1, fun _ => rfl⟩
  · exact ⟨fun h => absurd h (by decide), fun h => absurd h h1⟩
  · exact ⟨fun h => absurd h (by decide), fun h => absurd h h1⟩

/-- The three-way comparison of two integers says `gt` exactly when the first
is larger. -/
theorem compare_gt_iff (a b : Int) : (compare a b == Ordering.gt) = true ↔ b < a := by
  simp only [compare, compareOfLessAndEq]
  split_ifs with h1 h2
  · exact ⟨fun h => absurd h (by decide), fun h => by omega⟩
  · exact ⟨fun h => absurd h (by decide), fun h => by omega⟩
  · exact ⟨fun _ => by omega, fun _ => rfl⟩

/-- The three-way comparison of two integers is `isGE` exactly when the first
is not smaller. -/
theorem compare_isGE_iff (a b : Int) : (compare a b).isGE = true ↔ b ≤ a := by
  simp only [compare, compareOfLessAndEq]
  split_ifs with h1 h2
  · simp [Ordering.isGE]; omega
  · simp [Ordering.isGE]; omega
  · simp [Ordering.isGE]; omega

/-- C12: the comparison operators on `Level` order the enumerators
Error < Warning < Info < Debug < Trace; for every two levels exactly one of
`a < b`, `a == b`, `a > b` holds; `<` is transitive; `!=` is the negation of
`==`; and every operator agrees with the comparison of the underlying
integers, where Error is 1, Warning 2, Info 3, Debug 4 and Trace 5, also with
an `int` on either side. -/
theorem C12_level_order_is_strict_total :
    (Level.Error.lt Level.Warning = true ∧ Level.Warning.lt Level.Info = true ∧
      Level.Info.lt Level.Debug = true ∧ Level.Debug.lt Level.Trace = true) ∧
    (∀ a b : Level,
      (a.lt b = true ∧ a.eq b = false ∧ a.gt b = false) ∨
      (a.lt b = false ∧ a.eq b = true ∧ a.gt b = false) ∨
      (a.lt b = false ∧ a.eq b = false ∧ a.gt b = true)) ∧
    (∀ a b c : Level, a.lt b = true → b.lt c = true → a.lt c = true) ∧
    (∀ a b : Level, a.ne b = !(a.eq b)) ∧
    (∀ (a : Level) (n : Int), a.ne_int n = !(a.eq_int n) ∧
      Level.int_ne n a = !(Level.int_eq n a)) ∧
    (Level.Error.val = 1 ∧ Level.Warning.val = 2 ∧ Level.Info.val = 3 ∧
      Level.Debug.val = 4 ∧ Level.Trace.val = 5) ∧
    (∀ a b : Level,
      (a.lt b = true ↔ a.val < b.val) ∧ (a.gt b = true ↔ b.val < a.val) ∧
      (a.le b = true ↔ a.val ≤ b.val) ∧ (a.ge b = true ↔ b.val ≤ a.val) ∧
      (a.eq b = true ↔ a.val = b.val) ∧ (a.eq b = true ↔ a = b)) ∧
    (∀ (a : Level) (n : Int),
      (a.lt_int n = true ↔ a.val < n) ∧ (a.gt_int n = true ↔ n < a.val) ∧
      (a.eq_int n = true ↔ a.val = n) ∧
      (Level.int_lt n a = true ↔ n < a.val) ∧ (Level.int_gt n a = true ↔ a.val < n) ∧
      (Level.int_eq n a = true ↔ n = a.val)) ∧
    (Level.Error.eq_int 1 = true ∧ Level.Warning.eq_int 2 = true ∧
      Level.Info.eq_int 3 = true ∧ Level.Debug.eq_int 4 = true ∧
      Level.Trace.eq_int 5 = true ∧ Level.int_eq 1 Level.Error = true ∧
      Level.int_eq 2 Level.Warning = true ∧ Level.int_eq 3 Level.Info = true ∧
      Level.int_eq 4 Level.Debug = true ∧ Level.int_eq 5 Level.Trace = true ∧
      Level.Error.lt_int 2 = true ∧ Level.int_gt 5 Level.Debug = true) := by
  have hlt : ∀ a b : Level, a.lt b = true ↔ a.val < b.val := fun a b => by
    unfold Level.lt Level.spaceship
    exact compare_lt_iff a.val b.val
  have hgt : ∀ a b : Level, a.gt b = true ↔ b.val < a.val := fun a b => by
    unfold Level.gt Level.spaceship
    exact compare_gt_iff a.val b.val
  have heq : ∀ a b : Level, a.eq b = true ↔ a.val = b.val := fun a b => by
    simp [Level.eq]
  refine ⟨by decide, ?_, ?_, fun _ _ => rfl, fun _ _ => ⟨rfl, rfl⟩, by decide, ?_, ?_,
    by decide⟩
  · intro a b
    have h1 := hlt a b
    have h2 := hgt a b
    have h3 := heq a b
    rcases lt_trichotomy a.val b.val with h | h | h
    · left
      refine ⟨h1.mpr h, ?_, ?_⟩
      · cases hx : a.eq b
        · rfl
        · have := h3.mp hx; omega
      · cases hx : a.gt b
        · rfl
        · have := h2.mp hx; omega
    · right; left
      refine ⟨?_, h3.mpr h, ?_⟩
      · cases hx : a.lt b
        · rfl
        · have := h1.mp hx; omega
      · cases hx : a.gt b
        · rfl
        · have := h2.mp hx; omega
    · right; right
      refine ⟨?_, ?_, h2.mpr h⟩
      · cases hx : a.lt b
        · rfl
        · have := h1.mp hx; omega
      · cases hx : a.eq b
        · rfl
        · have := h3.mp hx; omega
  · intro a b c hab hbc
    exact (hlt a c).mpr (lt_trans ((hlt a b).mp hab) ((hlt b c).mp hbc))
  · intro a b
    refine ⟨hlt a b, hgt a b, Level.le_iff a b, ?_, heq a b, ?_⟩
    · unfold Level.ge Level.spaceship
      exact compare_isGE_iff a.val b.val
    · rw [heq]
      constructor
      · intro h
        cases a; cases b; simp_all
      · intro h
        rw [h]
  · intro a n
    refine ⟨?_, ?_, by simp [Level.eq_int], ?_, ?_, ?_⟩
    · unfold Level.lt_int Level.spaceship_int
      exact compare_lt_iff a.val n
    · unfold Level.gt_int Level.spaceship_int
      exact compare_gt_iff a.val n
    · unfold Level.int_lt Level.int_spaceship
      exact compare_lt_iff n a.val
    · unfold Level.int_gt Level.int_spaceship
      exact compare_gt_iff n a.val
    · simp [Level.int_eq, Level.eq_int, eq_comm]

/-- Witness of C12: transitivity through Error < Info and Info < Trace. -/
theorem C12_level_order_is_strict_total_witness :
    Level.Error.lt Level.Info = true ∧ Level.Info.lt Level.Trace = true ∧
      Level.Error.lt Level.Trace = true :=
  ⟨by decide, by decide,
    C12_level_order_is_strict_total.2.2.1 Level.Error Level.Info Level.Trace
      (by decide) (by decide)⟩

/-- C13: the comparison operators on `LevelFilter` order the enumerators
Off < Error < Warn < Info < Debug < Trace.  Across the two types, every filter
other than Off compares equal, in either operand order, to the level of the
same name and unequal to each other level, and Off is strictly less than, and
unequal to, each of the five levels.  So for each of the five levels `L`,
`L <= LevelFilter::Off` is false and `L <= LevelFilter::Trace` is true.  All of
it is the comparison of the underlying integers. -/
theorem C13_level_filter_order_and_cross_type :
    (LevelFilter.Off.lt LevelFilter.Error = true ∧ LevelFilter.Error.lt LevelFilter.Warn = true ∧
      LevelFilter.Warn.lt LevelFilter.Info = true ∧
      LevelFilter.Info.lt LevelFilter.Debug = true ∧
      LevelFilter.Debug.lt LevelFilter.Trace = true) ∧
    (∀ p ∈ same_named, ∀ l ∈ Level.enumerators,
      p.1.eq_level l = decide (l = p.2) ∧ l.eq_filter p.1 = decide (l = p.2) ∧
      p.1.ne_level l = !(decide (l = p.2)) ∧ l.ne_filter p.1 = !(decide (l = p.2)) ∧
      (p.1.spaceship_level l = Ordering.eq ↔ l = p.2) ∧
      (l.spaceship_filter p.1 = Ordering.eq ↔ l = p.2)) ∧
    (∀ l ∈ Level.enumerators,
      LevelFilter.Off.lt_level l = true ∧ l.gt_filter LevelFilter.Off = true ∧
      LevelFilter.Off.eq_level l = false ∧ l.eq_filter LevelFilter.Off = false ∧
      LevelFilter.Off.ne_level l = true ∧ l.ne_filter LevelFilter.Off = true) ∧
    (∀ l ∈ Level.enumerators,
      l.le_filter LevelFilter.Off = false ∧ l.le_filter LevelFilter.Trace = true) ∧
    (∀ (f g : LevelFilter) (l : Level),
      (f.lt g = true ↔ f.val < g.val) ∧ (f.gt g = true ↔ g.val < f.val) ∧
      (f.le g = true ↔ f.val ≤ g.val) ∧
      (f.eq g = true ↔ f.val = g.val) ∧ f.ne g = !(f.eq g) ∧
      (f.eq_level l = true ↔ f.val = l.val) ∧ (l.eq_filter f = true ↔ f.val = l.val) ∧
      (f.lt_level l = true ↔ f.val < l.val) ∧ (f.gt_level l = true ↔ l.val < f.val) ∧
      (l.lt_filter f = true ↔ l.val < f.val) ∧ (l.gt_filter f = true ↔ f.val < l.val) ∧
      (l.le_filter f = true ↔ l.val ≤ f.val)) := by
  refine ⟨by decide, by decide, by decide, by decide, ?_⟩
  intro f g l
  refine ⟨?_, ?_, ?_, by simp [LevelFilter.eq], rfl, by simp [LevelFilter.eq_level],
    by simp [Level.eq_filter, LevelFilter.eq_level], ?_, ?_, ?_, ?_, Level.le_filter_iff l f⟩
  · unfold LevelFilter.lt LevelFilter.spaceship
    exact compare_lt_iff f.val g.val
  · unfold LevelFilter.gt LevelFilter.spaceship
    exact compare_gt_iff f.val g.val
  · unfold LevelFilter.le LevelFilter.spaceship
    simp only [compare, compareOfLessAndEq]
    split_ifs with h1 h2
    · simp [Ordering.isLE]; omega
    · simp [Ordering.isLE]; omega
    · simp [Ordering.isLE]; omega
  · unfold LevelFilter.lt_level LevelFilter.spaceship_level
    exact compare_lt_iff f.val l.val
  · unfold LevelFilter.gt_level LevelFilter.spaceship_level
    exact compare_gt_iff f.val l.val
  · unfold Level.lt_filter Level.spaceship_filter
    exact compare_lt_iff l.val f.val
  · unfold Level.gt_filter Level.spaceship_filter
    exact compare_gt_iff l.val f.val

/-- Witness of C13: `LevelFilter::Warn` against `Level::Warning` and against
`Level::Info`, and `Level::Info` against the two extreme ceilings. -/
theorem C13_level_filter_order_and_cross_type_witness :
    ((LevelFilter.Warn, Level.Warning) ∈ same_named ∧ Level.Warning ∈ Level.enumerators ∧
      Level.Info ∈ Level.enumerators) ∧
    (LevelFilter.Warn.eq_level Level.Warning = true ∧
      Level.Info.eq_filter LevelFilter.Warn = false) ∧
    (Level.Info.le_filter LevelFilter.Off = false ∧
      Level.Info.le_filter LevelFilter.Trace = true) :=
  ⟨⟨by decide, by decide, by decide⟩,
    ⟨(C13_level_filter_order_and_cross_type.2.1 (LevelFilter.Warn, Level.Warning) (by decide)
        Level.Warning (by decide)).1.trans (by decide),
      (C13_level_filter_order_and_cross_type.2.1 (LevelFilter.Warn, Level.Warning) (by decide)
        Level.Info (by decide)).2.1.trans (by decide)⟩,
    C13_level_filter_order_and_cross_type.2.2.2.1 Level.Info (by decide)⟩

end log_pp

namespace log_pp

/-- Within the range of `int`, `+=` on a level clamps the exact sum. -/
theorem Level.add_assign_in_range (l : Level) (n : Int)
    (h : INT_MIN ≤ l.val + n ∧ l.val + n ≤ INT_MAX) :
    l.add_assign n = some (⟨std_clamp (l.val + n) 1 5⟩, ⟨std_clamp (l.val + n) 1 5⟩) := by
  simp [Level.add_assign, int_add, h, Level.Error, Level.Trace]

/-- Within the range of `int`, `-=` on a level clamps the exact difference. -/
theorem Level.sub_assign_in_range (l : Level) (n : Int)
    (h : INT_MIN ≤ l.val - n ∧ l.val - n ≤ INT_MAX) :
    l.sub_assign n = some (⟨std_clamp (l.val - n) 1 5⟩, ⟨std_clamp (l.val - n) 1 5⟩) := by
  simp [Level.sub_assign, int_sub, h, Level.Error, Level.Trace]

/-- Within the range of `int`, `+=` on a filter clamps the exact sum. -/
theorem LevelFilter.filter_add_assign_in_range (f : LevelFilter) (n : Int)
    (h : INT_MIN ≤ f.val + n ∧ f.val + n ≤ INT_MAX) :
    f.add_assign n = some (⟨std_clamp (f.val + n) 0 5⟩, ⟨std_clamp (f.val + n) 0 5⟩) := by
  simp [LevelFilter.add_assign, int_add, h, LevelFilter.Off, LevelFilter.Trace]

/-- Within the range of `int`, `-=` on a filter clamps the exact difference. -/
theorem LevelFilter.filter_sub_assign_in_range (f : LevelFilter) (n : Int)
    (h : INT_MIN ≤ f.val - n ∧ f.val - n ≤ INT_MAX) :
    f.sub_assign n = some (⟨std_clamp (f.val - n) 0 5⟩, ⟨std_clamp (f.val - n) 0 5⟩) := by
  simp [LevelFilter.sub_assign, int_sub, h, LevelFilter.Off, LevelFilter.Trace]

/-- C14 at its failing inputs: `Level::Trace += INT_MAX`, `Level::Error -= INT_MIN`,
`LevelFilter::Trace += INT_MAX` and `LevelFilter::Off -= INT_MIN` add or
subtract in `int` before `std::clamp` sees the value; the sum or difference is
outside `int`, so the operator has no defined result, where the clamp of the
exact integer would give the upper bound 5.  The three examples of the claim
(`Debug += 10`, `Warning -= 10`, `LevelFilter::Warn -= 10`) are in range and
give Trace, Error and Off. -/
theorem C14_compound_assignment_overflows_before_clamp :
    (Level.Trace.add_assign INT_MAX = none ∧
      std_clamp (Level.Trace.val + INT_MAX) 1 5 = Level.Trace.val) ∧
    (Level.Error.sub_assign INT_MIN = none ∧
      std_clamp (Level.Error.val - INT_MIN) 1 5 = Level.Trace.val) ∧
    (LevelFilter.Trace.add_assign INT_MAX = none ∧
      std_clamp (LevelFilter.Trace.val + INT_MAX) 0 5 = LevelFilter.Trace.val) ∧
    (LevelFilter.Off.sub_assign INT_MIN = none ∧
      std_clamp (LevelFilter.Off.val - INT_MIN) 0 5 = LevelFilter.Trace.val) ∧
    (Level.Debug.add_assign 10 = some (Level.Trace, Level.Trace) ∧
      Level.Warning.sub_assign 10 = some (Level.Error, Level.Error) ∧
      LevelFilter.Warn.sub_assign 10 = some (LevelFilter.Off, LevelFilter.Off)) := by
  decide

/-- C15: on the enumerators, `l++` is the next level up except that
`Trace++` is Trace, and `l--` the next level down except that `Error--` is
Error; likewise on the filters, with `Trace++` Trace and `Off--` Off; the
overloads on a mutable operand return and store the same values.  So any
number of successive increments of Trace, of either type, leaves Trace, and
any number of successive decrements leaves `Level::Error` at Error and
`LevelFilter::Off` at Off. -/
theorem C15_step_saturates_at_the_bounds :
    (Level.enumerators.map Level.post_inc_const =
        [some (Level.Warning, Level.Error), some (Level.Info, Level.Warning),
          some (Level.Debug, Level.Info), some (Level.Trace, Level.Debug),
          some (Level.Trace, Level.Trace)] ∧
      Level.enumerators.map Level.post_inc =
        [some (Level.Warning, Level.Warning), some (Level.Info, Level.Info),
          some (Level.Debug, Level.Debug), some (Level.Trace, Level.Trace),
          some (Level.Trace, Level.Trace)]) ∧
    (Level.enumerators.map Level.post_dec_const =
        [some (Level.Error, Level.Error), some (Level.Error, Level.Warning),
          some (Level.Warning, Level.Info), some (Level.Info, Level.Debug),
          some (Level.Debug, Level.Trace)] ∧
      Level.enumerators.map Level.post_dec =
        [some (Level.Error, Level.Error), some (Level.Error, Level.Error),
          some (Level.Warning, Level.Warning), some (Level.Info, Level.Info),
          some (Level.Debug, Level.Debug)]) ∧
    (LevelFilter.enumerators.map LevelFilter.post_inc_const =
        [some (LevelFilter.Error, LevelFilter.Off), some (LevelFilter.Warn, LevelFilter.Error),
          some (LevelFilter.Info, LevelFilter.Warn), some (LevelFilter.Debug, LevelFilter.Info),
          some (LevelFilter.Trace, LevelFilter.Debug),
          some (LevelFilter.Trace, LevelFilter.Trace)] ∧
      LevelFilter.enumerators.map LevelFilter.post_inc =
        [some (LevelFilter.Error, LevelFilter.Error), some (LevelFilter.Warn, LevelFilter.Warn),
          some (LevelFilter.Info, LevelFilter.Info), some (LevelFilter.Debug, LevelFilter.Debug),
          some (LevelFilter.Trace, LevelFilter.Trace),
          some (LevelFilter.Trace, LevelFilter.Trace)]) ∧
    (LevelFilter.enumerators.map LevelFilter.post_dec_const =
        [some (LevelFilter.Off, LevelFilter.Off), some (LevelFilter.Off, LevelFilter.Error),
          some (LevelFilter.Error, LevelFilter.Warn), some (LevelFilter.Warn, LevelFilter.Info),
          some (LevelFilter.Info, LevelFilter.Debug),
          some (LevelFilter.Debug, LevelFilter.Trace)] ∧
      LevelFilter.enumerators.map LevelFilter.post_dec =
        [some (LevelFilter.Off, LevelFilter.Off), some (LevelFilter.Off, LevelFilter.Off),
          some (LevelFilter.Error, LevelFilter.Error), some (LevelFilter.Warn, LevelFilter.Warn),
          some (LevelFilter.Info, LevelFilter.Info),
          some (LevelFilter.Debug, LevelFilter.Debug)]) ∧
    (∀ k : Nat, repeat_statement Level.post_inc k Level.Trace = some Level.Trace) ∧
    (∀ k : Nat, repeat_statement LevelFilter.post_inc k LevelFilter.Trace
      = some LevelFilter.Trace) ∧
    (∀ k : Nat, repeat_statement Level.post_dec k Level.Error = some Level.Error) ∧
    (∀ k : Nat, repeat_statement LevelFilter.post_dec k LevelFilter.Off
      = some LevelFilter.Off) := by
  refine ⟨by decide, by decide, by decide, by decide, ?_, ?_, ?_, ?_⟩
  · intro k
    induction k with
    | zero => rfl
    | succ k ih =>
      have h : Level.post_inc Level.Trace = some (Level.Trace, Level.Trace) := by decide
      simp only [repeat_statement, h]
      exact ih
  · intro k
    induction k with
    | zero => rfl
    | succ k ih =>
      have h : LevelFilter.post_inc LevelFilter.Trace =
          some (LevelFilter.Trace, LevelFilter.Trace) := by decide
      simp only [repeat_statement, h]
      exact ih
  · intro k
    induction k with
    | zero => rfl
    | succ k ih =>
      have h : Level.post_dec Level.Error = some (Level.Error, Level.Error) := by decide
      simp only [repeat_statement, h]
      exact ih
  · intro k
    induction k with
    | zero => rfl
    | succ k ih =>
      have h : LevelFilter.post_dec LevelFilter.Off =
          some (LevelFilter.Off, LevelFilter.Off) := by decide
      simp only [repeat_statement, h]
      exact ih

end log_pp

namespace log_pp

/-- C16: the postfix operators on a mutable `Level` or `LevelFilter` variable
store the stepped value in the variable and return that same value, not the
value the variable had: whenever the call has a result, the returned value and
the stored value are equal.  So `x = x++` leaves `x` one step higher (Warning
becomes Info) and `x = x--` one step lower (Debug becomes Info), for both
types.  The overloads on a `const` operand return the same stepped value and
leave their operand as it was. -/
theorem C16_postfix_returns_the_stepped_value :
    (∀ (x : Level) (r : Level × Level),
      x.post_inc = some r → r.1 = r.2 ∧ x.post_inc_const = some (r.1, x)) ∧
    (∀ (x : Level) (r : Level × Level),
      x.post_dec = some r → r.1 = r.2 ∧ x.post_dec_const = some (r.1, x)) ∧
    (∀ (x : LevelFilter) (r : LevelFilter × LevelFilter),
      x.post_inc = some r → r.1 = r.2 ∧ x.post_inc_const = some (r.1, x)) ∧
    (∀ (x : LevelFilter) (r : LevelFilter × LevelFilter),
      x.post_dec = some r → r.1 = r.2 ∧ x.post_dec_const = some (r.1, x)) ∧
    (Level.Warning.post_inc = some (Level.Info, Level.Info) ∧
      assign_result Level.post_inc Level.Warning = some Level.Info ∧
      Level.Debug.post_dec = some (Level.Info, Level.Info) ∧
      assign_result Level.post_dec Level.Debug = some Level.Info) ∧
    (LevelFilter.Warn.post_inc = some (LevelFilter.Info, LevelFilter.Info) ∧
      assign_result LevelFilter.post_inc LevelFilter.Warn = some LevelFilter.Info ∧
      LevelFilter.Debug.post_dec = some (LevelFilter.Info, LevelFilter.Info) ∧
      assign_result LevelFilter.post_dec LevelFilter.Debug = some LevelFilter.Info) := by
  refine ⟨?_, ?_, ?_, ?_, by decide, by decide⟩
  · intro x r h
    unfold Level.post_inc at h
    unfold Level.post_inc_const
    cases hv : int_add x.val 1 with
    | none => simp [hv] at h
    | some v =>
      simp only [hv, Option.map_some', Option.some.injEq] at h
      subst h
      exact ⟨rfl, rfl⟩
  · intro x r h
    unfold Level.post_dec at h
    unfold Level.post_dec_const
    cases hv : int_sub x.val 1 with
    | none => simp [hv] at h
    | some v =>
      simp only [hv, Option.map_some', Option.some.injEq] at h
      subst h
      exact ⟨rfl, rfl⟩
  · intro x r h
    unfold LevelFilter.post_inc at h
    unfold LevelFilter.post_inc_const
    cases hv : int_add x.val 1 with
    | none => simp [hv] at h
    | some v =>
      simp only [hv, Option.map_some', Option.some.injEq] at h
      subst h
      exact ⟨rfl, rfl⟩
  · intro x r h
    unfold LevelFilter.post_dec at h
    unfold LevelFilter.post_dec_const
    cases hv : int_sub x.val 1 with
    | none => simp [hv] at h
    | some v =>
      simp only [hv, Option.map_some', Option.some.injEq] at h
      subst h
      exact ⟨rfl, rfl⟩

/-- Witness of C16: `level++` on a variable holding Warning returns Info and
stores Info, and the `const` overload on Warning returns Info and keeps
Warning. -/
theorem C16_postfix_returns_the_stepped_value_witness :
    Level.Warning.post_inc = some (Level.Info, Level.Info) ∧
      ((Level.Info, Level.Info).1 = (Level.Info, Level.Info).2 ∧
        Level.Warning.post_inc_const = some (Level.Info, Level.Warning)) :=
  ⟨by decide,
    C16_postfix_returns_the_stepped_value.1 Level.Warning (Level.Info, Level.Info)
      (by decide)⟩

/-- Formatting one argument under `{}` is formatting it with the empty
spec. -/
theorem std_vformat_single {σ : Type} (a : FormatArg σ) (s s1 : σ) (text : String)
    (h : a [] s = (.ok text, s1)) :
    std_vformat "\x7b\x7d" [a] s = (.ok text, s1) := by
  have hd : ("\x7b\x7d" : String).data = [lbrace, rbrace] := by decide
  have hne : ¬ (rbrace = lbrace) := by decide
  unfold std_vformat
  rw [hd]
  simp [vformat_go, consume_field, replacement_spec, hne, h]

/-- A level formats to its `to_str` text. -/
theorem format_Level {σ : Type} (l : Level) (s : σ) :
    std_vformat "\x7b\x7d" [fun spec => std_formatter_Level spec l] s = (.ok (to_str l), s) := by
  apply std_vformat_single
  show std_vformat "\x7b\x7d" [fun sp => std_formatter_string sp (to_str l)] s = _
  apply std_vformat_single
  rfl

/-- A filter formats to the `to_str` text of the level with its value. -/
theorem format_LevelFilter {σ : Type} (f : LevelFilter) (s : σ) :
    std_vformat "\x7b\x7d" [fun spec => std_formatter_LevelFilter spec f] s
      = (.ok (to_str f.to_level), s) := by
  apply std_vformat_single
  show std_vformat "\x7b\x7d" [fun sp => std_formatter_Level sp f.to_level] s = _
  exact format_Level f.to_level s

/-- C17: `to_str` maps Error, Warning, Info, Debug, Trace to "ERROR",
"WARNING", "INFO", "DEBUG", "TRACE" and every other value of the type to
"UNKNOWN"; `std::format("{}", level)` is exactly `to_str(level)`; and
`std::format("{}", filter)` is the name of the level with the same name (Warn
prints "WARNING"), and "UNKNOWN" for Off. -/
theorem C17_to_str_and_formatting :
    (to_str Level.Error = "ERROR" ∧ to_str Level.Warning = "WARNING" ∧
      to_str Level.Info = "INFO" ∧ to_str Level.Debug = "DEBUG" ∧
      to_str Level.Trace = "TRACE") ∧
    (∀ l : Level, l ∉ Level.enumerators → to_str l = "UNKNOWN") ∧
    (∀ (σ : Type) (l : Level) (s : σ),
      std_vformat "\x7b\x7d" [fun spec => std_formatter_Level spec l] s
        = (.ok (to_str l), s)) ∧
    (∀ (σ : Type) (s : σ), ∀ p ∈ same_named,
      std_vformat "\x7b\x7d" [fun spec => std_formatter_LevelFilter spec p.1] s
        = (.ok (to_str p.2), s)) ∧
    (∀ (σ : Type) (s : σ),
      std_vformat "\x7b\x7d" [fun spec => std_formatter_LevelFilter spec LevelFilter.Warn] s
        = (.ok "WARNING", s) ∧
      std_vformat "\x7b\x7d" [fun spec => std_formatter_LevelFilter spec LevelFilter.Off] s
        = (.ok "UNKNOWN", s)) := by
  refine ⟨by decide, ?_, fun σ l s => format_Level l s, ?_, ?_⟩
  · intro l hl
    have h1 : l.val ≠ 1 := fun h => hl (by
      have : l = Level.Error := by cases l; simp_all [Level.Error]
      rw [this]; decide)
    have h2 : l.val ≠ 2 := fun h => hl (by
      have : l = Level.Warning := by cases l; simp_all [Level.Warning]
      rw [this]; decide)
    have h3 : l.val ≠ 3 := fun h => hl (by
      have : l = Level.Info := by cases l; simp_all [Level.Info]
      rw [this]; decide)
    have h4 : l.val ≠ 4 := fun h => hl (by
      have : l = Level.Debug := by cases l; simp_all [Level.Debug]
      rw [this]; decide)
    have h5 : l.val ≠ 5 := fun h => hl (by
      have : l = Level.Trace := by cases l; simp_all [Level.Trace]
      rw [this]; decide)
    simp [to_str, h1, h2, h3, h4, h5]
  · intro σ s p hp
    rw [format_LevelFilter]
    have : to_str p.1.to_level = to_str p.2 := by
      revert p
      decide
    rw [this]
  · intro σ s
    rw [format_LevelFilter, format_LevelFilter]
    exact ⟨rfl, rfl⟩

/-- Witness of C17: the zero value and the value 6 are no enumerators and print
"UNKNOWN"; `LevelFilter::Debug` prints "DEBUG". -/
theorem C17_to_str_and_formatting_witness :
    ((⟨0⟩ : Level) ∉ Level.enumerators ∧ to_str ⟨0⟩ = "UNKNOWN") ∧
    ((⟨6⟩ : Level) ∉ Level.enumerators ∧ to_str ⟨6⟩ = "UNKNOWN") ∧
    ((LevelFilter.Debug, Level.Debug) ∈ same_named ∧
      std_vformat "\x7b\x7d" [fun spec => std_formatter_LevelFilter spec LevelFilter.Debug] ()
        = (.ok "DEBUG", ())) :=
  ⟨⟨by decide, C17_to_str_and_formatting.2.1 ⟨0⟩ (by decide)⟩,
    ⟨by decide, C17_to_str_and_formatting.2.1 ⟨6⟩ (by decide)⟩,
    ⟨by decide,
      C17_to_str_and_formatting.2.2.2.1 Unit () (LevelFilter.Debug, Level.Debug) (by decide)⟩⟩

end log_pp

namespace log_pp

/-- The text `std::vformat` produces depends on the memory only through the
texts its arguments produce. -/
theorem vformat_go_text {σ : Type} (cs : List Char) :
    ∀ (mode : ScanMode) (args : FormatArgs σ) (out : List Char),
      (∀ a ∈ args, ∀ (spec : List Char) (s s1 : σ), (a spec s).1 = (a spec s1).1) →
      ∀ s s1 : σ, (vformat_go cs mode args out s).1 = (vformat_go cs mode args out s1).1 := by
  induction cs with
  | nil =>
    intro mode args out _ s s1
    cases mode <;> rfl
  | cons c cs ih =>
    intro mode args out hargs s s1
    have hfield : ∀ content : List Char,
        (match consume_field content args s with
          | (.ok (txt, rest), s2) => vformat_go cs .text rest (out ++ txt) s2
          | (.error e, s2) => (.error e, s2)).1 =
        (match consume_field content args s1 with
          | (.ok (txt, rest), s2) => vformat_go cs .text rest (out ++ txt) s2
          | (.error e, s2) => (.error e, s2)).1 := by
      intro content
      cases args with
      | nil => rfl
      | cons a rest =>
        have hrest : ∀ b ∈ rest, ∀ (spec : List Char) (s s1 : σ), (b spec s).1 = (b spec s1).1 :=
          fun b hb => hargs b (List.mem_cons_of_mem _ hb)
        cases hspec : replacement_spec content with
        | none => simp [consume_field, hspec]
        | some spec =>
          have ha := hargs a (List.mem_cons_self _ _) spec s s1
          cases h1 : a spec s with
          | mk r1 m1 =>
            cases h2 : a spec s1 with
            | mk r2 m2 =>
              rw [h1, h2] at ha
              simp only at ha
              subst ha
              cases r1 with
              | error e => simp [consume_field, hspec, h1, h2]
              | ok txt =>
                simp only [consume_field, hspec, h1, h2]
                exact ih .text rest (out ++ txt.data) hrest m1 m2
    cases mode with
    | text =>
      simp only [vformat_go]
      split_ifs
      · exact ih .opened args out hargs s s1
      · exact ih .closed args out hargs s s1
      · exact ih .text args (out ++ [c]) hargs s s1
    | closed =>
      simp only [vformat_go]
      split_ifs
      · exact ih .text args (out ++ [rbrace]) hargs s s1
      · rfl
    | opened =>
      simp only [vformat_go]
      split_ifs
      · exact ih .text args (out ++ [lbrace]) hargs s s1
      · exact hfield []
      · exact ih (.field [c]) args out hargs s s1
    | field content =>
      simp only [vformat_go]
      split_ifs
      · exact hfield content
      · exact ih (.field (content ++ [c])) args out hargs s s1

/-- What a braced element renders depends on the memory only through the value
its argument denotes there, when the formatter's text depends on the value
only. -/
theorem rendered_by_value {σ : Type} (i : KVInit σ) (s s1 : σ)
    (hf : Formatter.text_by_value i.formatter) (hv : i.in_value.read s1 = i.in_value.read s) :
    i.rendered s1 = i.rendered s := by
  unfold KVInit.rendered
  simp only [hv]
  have h := vformat_go_text
    (match i.in_format with
      | some f => f
      | none => "\x7b\x7d").data .text [fun spec => i.formatter spec (i.in_value.read s)] []
    (by
      intro a ha spec m m1
      simp only [List.mem_singleton] at ha
      subst ha
      exact hf spec _ m m1) s1 s
  unfold std_vformat
  rw [h]

end log_pp

namespace log_pp

/-- The text of the standard string formatter depends on the value only. -/
theorem std_formatter_string_text_by_value {σ : Type} :
    Formatter.text_by_value (std_formatter_string : Formatter σ String) := by
  intro spec v s s1
  cases spec <;> rfl

/-- The texts of the standard formatters of integers, booleans and doubles
depend on the format spec and the value only. -/
theorem std_formatters_text_by_value {σ : Type} :
    Formatter.text_by_value (std_formatter_int : Formatter σ Int) ∧
    Formatter.text_by_value (std_formatter_bool : Formatter σ Bool) ∧
    Formatter.text_by_value (std_formatter_double : Formatter σ Double) := by
  refine ⟨?_, ?_, ?_⟩
  · intro spec v s s1
    rfl
  · intro spec v s s1
    cases spec <;> rfl
  · intro spec v s s1
    cases spec <;> rfl

/-- C18, as stated, fails: the field on the named variable `user` of a value
type whose formatter writes the text followed by a global counter reads
"alice0", leaves `user` as it was, and then reads "alice1".  Two reads with no
change of the variable in between need not return equal strings. -/
theorem C18_counterexample_formatter_reads_memory :
    (kv_test.stamped_element.construct.get_value {}).1 = .returned "alice0" ∧
    kv_test.stamped_element.in_value.read
        (kv_test.stamped_element.construct.get_value {}).2 =
      kv_test.stamped_element.in_value.read {} ∧
    (kv_test.stamped_element.construct.get_value
        (kv_test.stamped_element.construct.get_value {}).2).1 = .returned "alice1" ∧
    (kv_test.stamped_element.construct.get_value
        (kv_test.stamped_element.construct.get_value {}).2).1 ≠
      (kv_test.stamped_element.construct.get_value {}).1 ∧
    ¬ (∀ (σ : Type) (i : KVInit σ) (s : σ),
      i.in_value.read (i.construct.get_value s).2 = i.in_value.read s →
        (i.construct.get_value (i.construct.get_value s).2).1 =
          (i.construct.get_value s).1) := by
  have h1 : (kv_test.stamped_element.construct.get_value {}).1 = .returned "alice0" := rfl
  have h2 : (kv_test.stamped_element.construct.get_value
      (kv_test.stamped_element.construct.get_value {}).2).1 = .returned "alice1" := rfl
  have hne : (kv_test.stamped_element.construct.get_value
      (kv_test.stamped_element.construct.get_value {}).2).1 ≠
      (kv_test.stamped_element.construct.get_value {}).1 := by
    rw [h1, h2]
    decide
  exact ⟨h1, rfl, h2, hne, fun h => hne (h kv_test.StampedLocals kv_test.stamped_element {} rfl)⟩

/-- C18, amended: a field constructed from a named variable (an lvalue)
formats, at every `get_value()` call, the value the variable holds in the
memory of that call, under the default format or under the field's own format:
reading it is reading an owned field on that current value.  In the test, the
field on `user` reads "alice" before the assignment `user = "bob"` and "bob"
after it.  Two reads with no change of the variable in between return the same
text when the text of the value type's formatter depends on the format spec
and the value only, as it does for the standard formatters of strings,
integers, booleans and doubles, and the key stays the key given at
construction. -/
theorem C18_lvalue_field_reads_current_value :
    (∀ (σ T : Type) (fmtr : Formatter σ T) (key : String) (read : σ → T) (s : σ),
      (BasicKV.ctor fmtr key (.lvalue read)).value_formatter s =
        format_kv_value fmtr (read s) default_kv_value_format s ∧
      (BasicKV.ctor fmtr key (.lvalue read)).get_value s =
        (BasicKV.ctor fmtr key (.rvalue (read s))).get_value s ∧
      (∀ format : String,
        (BasicKV.ctor_format fmtr key (.lvalue read) format).value_formatter s =
          format_kv_value fmtr (read s) format s ∧
        (BasicKV.ctor_format fmtr key (.lvalue read) format).get_value s =
          (BasicKV.ctor_format fmtr key (.rvalue (read s)) format).get_value s)) ∧
    ((kv_test.kv_on_variable.get_value { user := "alice" }).1 = .returned "alice" ∧
      (kv_test.kv_on_variable.get_value
        (kv_test.assign_user "bob" { user := "alice" })).1 = .returned "bob" ∧
      kv_test.kv_on_variable.get_key = "user") ∧
    (∀ (σ : Type) (i : KVInit σ) (s : σ),
      Formatter.text_by_value i.formatter →
      i.in_value.read (i.construct.get_value s).2 = i.in_value.read s →
        (i.construct.get_value (i.construct.get_value s).2).1 = (i.construct.get_value s).1 ∧
        i.construct.get_key = i.in_key) ∧
    (∀ σ : Type,
      Formatter.text_by_value (std_formatter_string : Formatter σ String) ∧
      Formatter.text_by_value (std_formatter_int : Formatter σ Int) ∧
      Formatter.text_by_value (std_formatter_bool : Formatter σ Bool) ∧
      Formatter.text_by_value (std_formatter_double : Formatter σ Double)) := by
  refine ⟨?_, by decide, ?_, fun σ => ⟨std_formatter_string_text_by_value,
    std_formatters_text_by_value.1, std_formatters_text_by_value.2.1,
    std_formatters_text_by_value.2.2⟩⟩
  · intro σ T fmtr key read s
    exact ⟨rfl, rfl, fun format => ⟨rfl, rfl⟩⟩
  · intro σ i s hf hv
    refine ⟨?_, ?_⟩
    · rw [construct_get_value, construct_get_value]
      exact rendered_by_value i s _ hf hv
    · obtain ⟨T, formatter, in_key, in_value, in_format⟩ := i
      cases in_format <;> rfl

/-- Witness of C18: two reads of the field on `user` while `user` holds
"bob". -/
theorem C18_lvalue_field_reads_current_value_witness :
    (Formatter.text_by_value kv_test.variable_element.formatter ∧
      kv_test.variable_element.in_value.read
          (kv_test.variable_element.construct.get_value { user := "bob" }).2 =
        kv_test.variable_element.in_value.read { user := "bob" }) ∧
    (kv_test.variable_element.construct.get_value
        (kv_test.variable_element.construct.get_value { user := "bob" }).2).1 =
      .returned "bob" :=
  ⟨⟨std_formatter_string_text_by_value, rfl⟩,
    (C18_lvalue_field_reads_current_value.2.2.1 kv_test.Locals kv_test.variable_element
      { user := "bob" } std_formatter_string_text_by_value rfl).1.trans (by decide)⟩

/-- C19, as stated, fails: the field constructed from the temporary view
`NameView{&user}` owns a copy of the view, which is a copy of the pointer and
not of the string; it reads "alice" while `user` holds "alice" and "bob" after
the call site assigns `user = "bob"`.  What a field on a temporary returns is
not independent of every later change at the call site. -/
theorem C19_counterexample_temporary_view :
    kv_test.view_element.in_value = .rvalue { name := .of_user } ∧
    (kv_test.view_element.construct.get_value { user := "alice" }).1 = .returned "alice" ∧
    (kv_test.view_element.construct.get_value
      (kv_test.assign_user "bob" { user := "alice" })).1 = .returned "bob" ∧
    (kv_test.view_element.construct.get_value
      (kv_test.assign_user "bob" { user := "alice" })).1 ≠
      (kv_test.view_element.construct.get_value { user := "alice" }).1 ∧
    ¬ (∀ (σ : Type) (i : KVInit σ) (v : i.T) (s s1 : σ),
      i.in_value = .rvalue v →
        (i.construct.get_value s1).1 = (i.construct.get_value s).1) := by
  have h1 : (kv_test.view_element.construct.get_value { user := "alice" }).1 =
      .returned "alice" := rfl
  have h2 : (kv_test.view_element.construct.get_value
      (kv_test.assign_user "bob" { user := "alice" })).1 = .returned "bob" := rfl
  have hne : (kv_test.view_element.construct.get_value
      (kv_test.assign_user "bob" { user := "alice" })).1 ≠
      (kv_test.view_element.construct.get_value { user := "alice" }).1 := by
    rw [h1, h2]
    decide
  exact ⟨rfl, h1, h2, hne,
    fun h => hne (h kv_test.Locals kv_test.view_element { name := .of_user }
      { user := "alice" } (kv_test.assign_user "bob" { user := "alice" }) rfl)⟩

/-- C19, amended: a field constructed from a temporary (an rvalue) `v` owns a
copy of `v`: its stored formatter formats that copy, under the default format
or under the field's own format, and reads no variable of the call site; so,
when the text of the value type's formatter depends on the format spec and the
value only (which excludes a view or pointer into storage of the call site, of
which the copy is the handle alone), every `get_value()` returns the same text
in every memory; so it is for temporaries of the standard string, integer,
boolean and double types, under every format.  In the test,
`KV{"user", std::string{"alice"}}.get_value()` is "alice" in every memory. -/
theorem C19_rvalue_field_owns_its_value :
    (∀ (σ T : Type) (fmtr : Formatter σ T) (key : String) (v : T) (s : σ),
      (BasicKV.ctor fmtr key (.rvalue v)).value_formatter s =
        format_kv_value fmtr v default_kv_value_format s ∧
      (∀ format : String,
        (BasicKV.ctor_format fmtr key (.rvalue v) format).value_formatter s =
          format_kv_value fmtr v format s)) ∧
    (∀ (σ : Type) (i : KVInit σ) (v : i.T) (s s1 : σ),
      i.in_value = .rvalue v → Formatter.text_by_value i.formatter →
        (i.construct.get_value s1).1 = (i.construct.get_value s).1) ∧
    (∀ m : kv_test.Locals, kv_test.kv_on_temporary.get_value m = (.returned "alice", m)) ∧
    (∀ (σ : Type) (key format : String) (s s1 : σ),
      (∀ v : String,
        ((BasicKV.ctor_format std_formatter_string key (.rvalue v) format).get_value s1).1 =
          ((BasicKV.ctor_format std_formatter_string key (.rvalue v) format).get_value s).1) ∧
      (∀ v : Int,
        ((BasicKV.ctor_format std_formatter_int key (.rvalue v) format).get_value s1).1 =
          ((BasicKV.ctor_format std_formatter_int key (.rvalue v) format).get_value s).1) ∧
      (∀ v : Bool,
        ((BasicKV.ctor_format std_formatter_bool key (.rvalue v) format).get_value s1).1 =
          ((BasicKV.ctor_format std_formatter_bool key (.rvalue v) format).get_value s).1) ∧
      (∀ v : Double,
        ((BasicKV.ctor_format std_formatter_double key (.rvalue v) format).get_value s1).1 =
          ((BasicKV.ctor_format std_formatter_double key (.rvalue v) format).get_value s).1)) := by
  have owned : ∀ (σ : Type) (i : KVInit σ) (v : i.T) (s s1 : σ),
      i.in_value = .rvalue v → Formatter.text_by_value i.formatter →
        (i.construct.get_value s1).1 = (i.construct.get_value s).1 := by
    intro σ i v s s1 hv hf
    rw [construct_get_value, construct_get_value]
    apply rendered_by_value i s s1 hf
    rw [hv]
    rfl
  refine ⟨?_, owned, ?_, ?_⟩
  · intro σ T fmtr key v s
    exact ⟨rfl, fun format => rfl⟩
  rotate_left
  · intro σ key format s s1
    exact ⟨fun v => owned σ (KVInit.mk String std_formatter_string key (.rvalue v) (some format)) v s s1 rfl
        std_formatter_string_text_by_value,
      fun v => owned σ (KVInit.mk Int std_formatter_int key (.rvalue v) (some format)) v s s1 rfl
        std_formatters_text_by_value.1,
      fun v => owned σ (KVInit.mk Bool std_formatter_bool key (.rvalue v) (some format)) v s s1 rfl
        std_formatters_text_by_value.2.1,
      fun v => owned σ (KVInit.mk Double std_formatter_double key (.rvalue v) (some format)) v s s1 rfl
        std_formatters_text_by_value.2.2⟩
  · intro m
    have h : kv_test.kv_on_temporary.value_formatter m = (.ok "alice", m) := by
      show std_vformat "\x7b\x7d" [fun spec => std_formatter_string spec "alice"] m = _
      exact std_vformat_single _ m m "alice" rfl
    simp only [BasicKV.get_value, h]

/-- Witness of C19: the field on the temporary "alice" reads the same before
and after the call site assigns "bob" to its variable. -/
theorem C19_rvalue_field_owns_its_value_witness :
    (kv_test.temporary_element.in_value = .rvalue "alice" ∧
      Formatter.text_by_value kv_test.temporary_element.formatter) ∧
    (kv_test.temporary_element.construct.get_value
        (kv_test.assign_user "bob" { user := "alice" })).1 = .returned "alice" :=
  ⟨⟨rfl, std_formatter_string_text_by_value⟩,
    (C19_rvalue_field_owns_its_value.2.1 kv_test.Locals kv_test.temporary_element "alice"
      { user := "alice" } (kv_test.assign_user "bob" { user := "alice" }) rfl
      std_formatter_string_text_by_value).trans (by decide)⟩

end log_pp

namespace log_pp

end log_pp

namespace log_pp

/-- The uppercase of a lowercase hexadecimal digit character. -/
theorem toUpper_digitChar (k : Nat) (h : k < 16) :
    (Nat.digitChar k).toUpper = upper_hex_digit k := by
  interval_cases k <;> decide

/-- The digits the library numeral routine produces in base sixteen, in
uppercase, are the uppercase hexadecimal numeral. -/
theorem toDigitsCore_upper (fuel : Nat) :
    ∀ (n : Nat) (ds : List Char), n < fuel →
      (Nat.toDigitsCore 16 fuel n ds).map Char.toUpper =
        upper_hex_upto fuel n ++ ds.map Char.toUpper := by
  induction fuel with
  | zero => intro n ds h; omega
  | succ fuel ih =>
    intro n ds h
    simp only [Nat.toDigitsCore, upper_hex_upto]
    by_cases hn : n < 16
    · have h0 : n / 16 = 0 := Nat.div_eq_of_lt hn
      have hm : n % 16 = n := Nat.mod_eq_of_lt hn
      simp [h0, hn, hm, toUpper_digitChar n hn]
    · have h0 : ¬ (n / 16 = 0) := by omega
      have hlt : n / 16 < fuel := by omega
      have hm : n % 16 < 16 := Nat.mod_lt _ (by decide)
      simp [h0, hn, ih (n / 16) _ hlt, toUpper_digitChar (n % 16) hm]

theorem toDigits_upper (n : Nat) :
    (Nat.toDigits 16 n).map Char.toUpper = upper_hex n := by
  unfold Nat.toDigits upper_hex
  simpa using toDigitsCore_upper (n + 1) n [] (by omega)

/-- The integer formatter under the spec `04X`, on a natural number. -/
theorem format_int_04X (v : Nat) :
    format_int [Char.ofNat 48, Char.ofNat 52, Char.ofNat 88] (v : Int) =
      .ok (String.mk (zero_padded 4 (upper_hex v))) := by
  have h1 : List.takeWhile Char.isDigit [Char.ofNat 52, Char.ofNat 88] = [Char.ofNat 52] := by
    decide
  have h2 : List.dropWhile Char.isDigit [Char.ofNat 52, Char.ofNat 88] = [Char.ofNat 88] := by
    decide
  have h3 : ¬ ((v : Int) < 0) := by omega
  have h4 : ¬ (Char.ofNat 88 = Char.ofNat 100) := by decide
  have h5 : ¬ (Char.ofNat 88 = Char.ofNat 120) := by decide
  have h6 : (Char.ofNat 52).toNat - 48 = 4 := by decide
  simp only [format_int, List.head?, List.tail, if_true, h1, h2, h3, h4, h5, if_false,
    List.foldl, h6, Int.natAbs_ofNat, toDigits_upper, pad_left, zero_padded, List.length_nil,
    List.nil_append, Nat.sub_zero, Nat.mul_zero, Nat.zero_add]

/-- The integer formatter under the spec `X`, on a natural number. -/
theorem format_int_X (v : Nat) :
    format_int [Char.ofNat 88] (v : Int) = .ok (String.mk (upper_hex v)) := by
  have h0 : ¬ (Char.ofNat 88 = Char.ofNat 48) := by decide
  have h1 : List.takeWhile Char.isDigit [Char.ofNat 88] = [] := by decide
  have h2 : List.dropWhile Char.isDigit [Char.ofNat 88] = [Char.ofNat 88] := by decide
  have h3 : ¬ ((v : Int) < 0) := by omega
  have h4 : ¬ (Char.ofNat 88 = Char.ofNat 100) := by decide
  have h5 : ¬ (Char.ofNat 88 = Char.ofNat 120) := by decide
  simp [format_int, h0, h1, h2, h3, h4, h5, toDigits_upper, pad_left]

end log_pp

namespace log_pp

/-- C21 at its failing input: the field `KV{"id", 255, "{:s}"}` carries a format
spec that is invalid for an integer.  Its construction is an ordinary value
with key "id", and the stored formatter throws `std::format_error` when it is
run; but `get_value()` is `noexcept`, so the exception does not reach the
caller reading the value: the call ends in `std::terminate`, for every field
whose stored formatter throws.  A log call with that field is constructed,
admitted and handed to the capture sink, whose loop over the fields is cut
short by the termination. -/
theorem C21_invalid_format_terminates_in_get_value :
    (BasicKV.ctor_format (std_formatter_int : Formatter Unit Int) "id" (.rvalue 255)
        "\x7b:s\x7d").get_key = "id" ∧
    (BasicKV.ctor_format (std_formatter_int : Formatter Unit Int) "id" (.rvalue 255)
        "\x7b:s\x7d").value_formatter () =
      (.error ⟨"invalid presentation type for an integer"⟩, ()) ∧
    (BasicKV.ctor_format (std_formatter_int : Formatter Unit Int) "id" (.rvalue 255)
        "\x7b:s\x7d").get_value () = (.terminated, ()) ∧
    (∀ (σ : Type) (kv : BasicKV σ) (s : σ),
      (kv.get_value s).1 = .terminated ↔ ∃ e, (kv.value_formatter s).1 = .error e) ∧
    ((log_calls (LOG_PP (kv_test.program LevelFilter.Trace) Level.Info ({} : source_location)
        kv_test.invalid_format_call (World.start {})).trace).length = 1 ∧
      (LOG_PP (kv_test.program LevelFilter.Trace) Level.Info ({} : source_location)
        kv_test.invalid_format_call (World.start {})).user =
        { last_message := "formatted kv", stopped := true }) := by
  refine ⟨rfl, rfl, rfl, ?_, by decide⟩
  intro σ kv s
  unfold BasicKV.get_value
  cases h : kv.value_formatter s with
  | mk r s1 =>
    cases r with
    | error e => simp
    | ok text => simp

end log_pp

namespace log_pp

/-- Scanning the format `0x{:04X}` over one argument: the literal `0x`, then
the argument under the spec `04X`. -/
theorem std_vformat_0x_04X {σ : Type} (a : FormatArg σ) (s s1 : σ) (text : String)
    (h : a [Char.ofNat 48, Char.ofNat 52, Char.ofNat 88] s = (.ok text, s1)) :
    std_vformat "0x\x7b:04X\x7d" [a] s = (.ok ("0x" ++ text), s1) := by
  have hd : ("0x\x7b:04X\x7d" : String).data =
      [Char.ofNat 48, Char.ofNat 120, lbrace, colon, Char.ofNat 48, Char.ofNat 52,
        Char.ofNat 88, rbrace] := by decide
  unfold std_vformat
  rw [hd]
  have e1 : ¬ (Char.ofNat 48 = lbrace) := by decide
  have e2 : ¬ (Char.ofNat 48 = rbrace) := by decide
  have e3 : ¬ (Char.ofNat 120 = lbrace) := by decide
  have e4 : ¬ (Char.ofNat 120 = rbrace) := by decide
  have e5 : ¬ (colon = lbrace) := by decide
  have e6 : ¬ (colon = rbrace) := by decide
  have e7 : ¬ (Char.ofNat 52 = rbrace) := by decide
  have e8 : ¬ (Char.ofNat 88 = rbrace) := by decide
  simp only [vformat_go, consume_field, replacement_spec, e1, e2, e3, e4, e5, e6, e7, e8,
    if_true, if_false, List.nil_append, List.cons_append, h]
  rfl

/-- Scanning the format `0x{:X}` over one argument: the literal `0x`, then the
argument under the spec `X`. -/
theorem std_vformat_0x_X {σ : Type} (a : FormatArg σ) (s s1 : σ) (text : String)
    (h : a [Char.ofNat 88] s = (.ok text, s1)) :
    std_vformat "0x\x7b:X\x7d" [a] s = (.ok ("0x" ++ text), s1) := by
  have hd : ("0x\x7b:X\x7d" : String).data =
      [Char.ofNat 48, Char.ofNat 120, lbrace, colon, Char.ofNat 88, rbrace] := by decide
  unfold std_vformat
  rw [hd]
  have e1 : ¬ (Char.ofNat 48 = lbrace) := by decide
  have e2 : ¬ (Char.ofNat 48 = rbrace) := by decide
  have e3 : ¬ (Char.ofNat 120 = lbrace) := by decide
  have e4 : ¬ (Char.ofNat 120 = rbrace) := by decide
  have e5 : ¬ (colon = lbrace) := by decide
  have e6 : ¬ (colon = rbrace) := by decide
  have e8 : ¬ (Char.ofNat 88 = rbrace) := by decide
  simp only [vformat_go, consume_field, replacement_spec, e1, e2, e3, e4, e5, e6, e8,
    if_true, if_false, List.nil_append, List.cons_append, h]
  rfl

/-- C22: for every non-negative integer `v`, the field `KV(key, v, "0x{:04X}")`
reads as "0x" followed by the uppercase hexadecimal digits of `v`, left-padded
with zeros to at least four digits, and `KV(key, v, "0x{:X}")` as "0x"
followed by the unpadded uppercase hexadecimal digits; reading changes no
memory, and `get_key()` is `key`.  So 255 reads "0x00FF" and 26 reads
"0x1A". -/
theorem C22_hex_format_of_a_field :
    (∀ (σ : Type) (key : String) (v : Nat) (s : σ),
      (BasicKV.ctor_format std_formatter_int key (.rvalue (v : Int))
          "0x\x7b:04X\x7d").get_value s =
        (.returned ("0x" ++ String.mk (zero_padded 4 (upper_hex v))), s) ∧
      (BasicKV.ctor_format std_formatter_int key (.rvalue (v : Int))
          "0x\x7b:X\x7d").get_value s =
        (.returned ("0x" ++ String.mk (upper_hex v)), s) ∧
      (BasicKV.ctor_format (std_formatter_int : Formatter σ Int) key (.rvalue (v : Int))
          "0x\x7b:04X\x7d").get_key = key ∧
      (BasicKV.ctor_format (std_formatter_int : Formatter σ Int) key (.rvalue (v : Int))
          "0x\x7b:X\x7d").get_key = key) ∧
    (upper_hex 255 = "FF".data ∧ zero_padded 4 (upper_hex 255) = "00FF".data ∧
      upper_hex 26 = "1A".data ∧ zero_padded 4 (upper_hex 74565) = "12345".data) ∧
    ((BasicKV.ctor_format (std_formatter_int : Formatter Unit Int) "id" (.rvalue 255)
        "0x\x7b:04X\x7d").get_value () = (.returned "0x00FF", ()) ∧
      (BasicKV.ctor_format (std_formatter_int : Formatter Unit Int) "id" (.rvalue 26)
        "0x\x7b:X\x7d").get_value () = (.returned "0x1A", ()) ∧
      (BasicKV.ctor_format (std_formatter_int : Formatter Unit Int) "id" (.rvalue 26)
        "0x\x7b:X\x7d").get_key = "id") := by
  refine ⟨?_, by decide, by decide⟩
  intro σ key v s
  refine ⟨?_, ?_, rfl, rfl⟩
  · have h : (BasicKV.ctor_format std_formatter_int key (.rvalue (v : Int))
        "0x\x7b:04X\x7d").value_formatter s =
        (.ok ("0x" ++ String.mk (zero_padded 4 (upper_hex v))), s) := by
      show std_vformat "0x\x7b:04X\x7d" [fun spec => std_formatter_int spec (v : Int)] s = _
      apply std_vformat_0x_04X
      simp only [std_formatter_int, format_int_04X]
    simp only [BasicKV.get_value, h]
  · have h : (BasicKV.ctor_format std_formatter_int key (.rvalue (v : Int))
        "0x\x7b:X\x7d").value_formatter s =
        (.ok ("0x" ++ String.mk (upper_hex v)), s) := by
      show std_vformat "0x\x7b:X\x7d" [fun spec => std_formatter_int spec (v : Int)] s = _
      apply std_vformat_0x_X
      simp only [std_formatter_int, format_int_X]
    simp only [BasicKV.get_value, h]

end log_pp

namespace log_pp

/-- C23: `build()` is total, on every builder state it returns the accumulated
record; and the record built by a fresh builder on which no setter was called
has an empty target, an empty format string, an empty key-value list, an
empty argument bundle and no call site, so `get_module_path()`, `get_file()`
and `get_line()` all return no value. -/
theorem C23_fresh_builder_builds_zero_values (σ : Type) :
    (∀ b : BasicRecordBuilder σ, b.build = b.record) ∧
    ((BasicRecordBuilder.mk {} : BasicRecordBuilder σ).build.get_target = "" ∧
      (BasicRecordBuilder.mk {} : BasicRecordBuilder σ).build.get_format_string = "" ∧
      (BasicRecordBuilder.mk {} : BasicRecordBuilder σ).build.get_kvs = [] ∧
      (BasicRecordBuilder.mk {} : BasicRecordBuilder σ).build.get_args = [] ∧
      (BasicRecordBuilder.mk {} : BasicRecordBuilder σ).build.module = none ∧
      (BasicRecordBuilder.mk {} : BasicRecordBuilder σ).build.get_module_path = none ∧
      (BasicRecordBuilder.mk {} : BasicRecordBuilder σ).build.get_file = none ∧
      (BasicRecordBuilder.mk {} : BasicRecordBuilder σ).build.get_line = none ∧
      (BasicRecordBuilder.mk {} : BasicRecordBuilder σ).build.get_metadata =
        { level := ⟨0⟩, target := "" }) :=
  ⟨fun _ => rfl, rfl, rfl, rfl, rfl, rfl, rfl, rfl, rfl, rfl⟩

/-- C24: each setter of the record builder sets the field it names to the given
value and leaves every other field of the accumulated record as it was; so
setters of different fields commute and the last write to a field wins.
`build()` returns the accumulated record and is a read: two builds of the same
builder are equal, and a record built before a setter call is the record
built from the builder as it was. -/
theorem C24_record_builder_setters_frame (σ : Type) (b : BasicRecordBuilder σ)
    (level level1 : Level) (target target1 : String) (fmt fmt1 : String)
    (args args1 : FormatArgs σ) (kvs kvs1 : BasicKVList σ)
    (module module1 : source_location) :
    -- set_level
    ((b.set_level level).build.get_level = level ∧
      (b.set_level level).build.get_target = b.build.get_target ∧
      (b.set_level level).build.get_format_string = b.build.get_format_string ∧
      (b.set_level level).build.get_args = b.build.get_args ∧
      (b.set_level level).build.get_kvs = b.build.get_kvs ∧
      (b.set_level level).build.module = b.build.module) ∧
    -- set_target
    ((b.set_target target).build.get_target = target ∧
      (b.set_target target).build.get_level = b.build.get_level ∧
      (b.set_target target).build.get_format_string = b.build.get_format_string ∧
      (b.set_target target).build.get_args = b.build.get_args ∧
      (b.set_target target).build.get_kvs = b.build.get_kvs ∧
      (b.set_target target).build.module = b.build.module) ∧
    -- set_format_string
    ((b.set_format_string fmt).build.get_format_string = fmt ∧
      (b.set_format_string fmt).build.get_level = b.build.get_level ∧
      (b.set_format_string fmt).build.get_target = b.build.get_target ∧
      (b.set_format_string fmt).build.get_args = b.build.get_args ∧
      (b.set_format_string fmt).build.get_kvs = b.build.get_kvs ∧
      (b.set_format_string fmt).build.module = b.build.module) ∧
    -- set_args
    ((b.set_args args).build.get_args = args ∧
      (b.set_args args).build.get_level = b.build.get_level ∧
      (b.set_args args).build.get_target = b.build.get_target ∧
      (b.set_args args).build.get_format_string = b.build.get_format_string ∧
      (b.set_args args).build.get_kvs = b.build.get_kvs ∧
      (b.set_args args).build.module = b.build.module) ∧
    -- set_kvs
    ((b.set_kvs kvs).build.get_kvs = kvs ∧
      (b.set_kvs kvs).build.get_level = b.build.get_level ∧
      (b.set_kvs kvs).build.get_target = b.build.get_target ∧
      (b.set_kvs kvs).build.get_format_string = b.build.get_format_string ∧
      (b.set_kvs kvs).build.get_args = b.build.get_args ∧
      (b.set_kvs kvs).build.module = b.build.module) ∧
    -- set_module
    ((b.set_module module).build.module = some module ∧
      (b.set_module module).build.get_module_path = some module.function_name ∧
      (b.set_module module).build.get_file = some module.file_name ∧
      (b.set_module module).build.get_line = some module.line ∧
      (b.set_module module).build.get_level = b.build.get_level ∧
      (b.set_module module).build.get_target = b.build.get_target ∧
      (b.set_module module).build.get_format_string = b.build.get_format_string ∧
      (b.set_module module).build.get_args = b.build.get_args ∧
      (b.set_module module).build.get_kvs = b.build.get_kvs) ∧
    -- setters of different fields commute
    ((b.set_level level).set_target target = (b.set_target target).set_level level ∧
      (b.set_level level).set_format_string fmt = (b.set_format_string fmt).set_level level ∧
      (b.set_level level).set_args args = (b.set_args args).set_level level ∧
      (b.set_level level).set_kvs kvs = (b.set_kvs kvs).set_level level ∧
      (b.set_level level).set_module module = (b.set_module module).set_level level ∧
      (b.set_target target).set_format_string fmt =
        (b.set_format_string fmt).set_target target ∧
      (b.set_target target).set_args args = (b.set_args args).set_target target ∧
      (b.set_target target).set_kvs kvs = (b.set_kvs kvs).set_target target ∧
      (b.set_target target).set_module module = (b.set_module module).set_target target ∧
      (b.set_format_string fmt).set_args args = (b.set_args args).set_format_string fmt ∧
      (b.set_format_string fmt).set_kvs kvs = (b.set_kvs kvs).set_format_string fmt ∧
      (b.set_format_string fmt).set_module module =
        (b.set_module module).set_format_string fmt ∧
      (b.set_args args).set_kvs kvs = (b.set_kvs kvs).set_args args ∧
      (b.set_args args).set_module module = (b.set_module module).set_args args ∧
      (b.set_kvs kvs).set_module module = (b.set_module module).set_kvs kvs) ∧
    -- the last write to a field wins
    ((b.set_level level).set_level level1 = b.set_level level1 ∧
      (b.set_target target).set_target target1 = b.set_target target1 ∧
      (b.set_format_string fmt).set_format_string fmt1 = b.set_format_string fmt1 ∧
      (b.set_args args).set_args args1 = b.set_args args1 ∧
      (b.set_kvs kvs).set_kvs kvs1 = b.set_kvs kvs1 ∧
      (b.set_module module).set_module module1 = b.set_module module1) ∧
    -- build is a read
    (b.build = b.record ∧ (BasicRecordBuilder.mk b.build : BasicRecordBuilder σ) = b) :=
  ⟨⟨rfl, rfl, rfl, rfl, rfl, rfl⟩, ⟨rfl, rfl, rfl, rfl, rfl, rfl⟩,
    ⟨rfl, rfl, rfl, rfl, rfl, rfl⟩, ⟨rfl, rfl, rfl, rfl, rfl, rfl⟩,
    ⟨rfl, rfl, rfl, rfl, rfl, rfl⟩, ⟨rfl, rfl, rfl, rfl, rfl, rfl, rfl, rfl, rfl⟩,
    ⟨rfl, rfl, rfl, rfl, rfl, rfl, rfl, rfl, rfl, rfl, rfl, rfl, rfl, rfl, rfl⟩,
    ⟨rfl, rfl, rfl, rfl, rfl, rfl⟩, ⟨rfl, rfl⟩⟩

/-- C25: for every level `l` and target `t`, the metadata built after
`set_level(l)` and `set_target(t)`, in either order, has `get_level() = l` and
`get_target() = t`; without `set_target` the target is empty; each setter
leaves the other field as it was, the last write wins, and `build()` returns
the accumulated metadata without changing the builder. -/
theorem C25_metadata_builder (b : BasicMetadataBuilder) (l l1 : Level) (t t1 : String) :
    ((((BasicMetadataBuilder.mk {}).set_level l).set_target t).build.get_level = l ∧
      (((BasicMetadataBuilder.mk {}).set_level l).set_target t).build.get_target = t ∧
      (((BasicMetadataBuilder.mk {}).set_target t).set_level l).build.get_level = l ∧
      (((BasicMetadataBuilder.mk {}).set_target t).set_level l).build.get_target = t ∧
      (((BasicMetadataBuilder.mk {}).set_level l).set_target t).build =
        (((BasicMetadataBuilder.mk {}).set_target t).set_level l).build) ∧
    (((BasicMetadataBuilder.mk {}).set_level l).build.get_target = "" ∧
      ((BasicMetadataBuilder.mk {}).set_level l).build.get_level = l ∧
      (BasicMetadataBuilder.mk {}).build.get_target = "") ∧
    ((b.set_level l).build.get_level = l ∧
      (b.set_level l).build.get_target = b.build.get_target ∧
      (b.set_target t).build.get_target = t ∧
      (b.set_target t).build.get_level = b.build.get_level ∧
      (b.set_level l).set_target t = (b.set_target t).set_level l ∧
      (b.set_level l).set_level l1 = b.set_level l1 ∧
      (b.set_target t).set_target t1 = b.set_target t1) ∧
    (b.build = b.metadata ∧ BasicMetadataBuilder.mk b.build = b) :=
  ⟨⟨rfl, rfl, rfl, rfl, rfl⟩, ⟨rfl, rfl, rfl⟩, ⟨rfl, rfl, rfl, rfl, rfl, rfl, rfl⟩, ⟨rfl, rfl⟩⟩

end log_pp

namespace log_pp

/-- C26: in single-threaded use `max_level()` returns `f` right after
`set_max_level(f)`, whatever was set before (the last value set wins), and
`set_max_level` changes nothing else of the state; a later log call or
`set_logger` call does not change the ceiling.  Before any `set_max_level`
call `max_level()` is `LevelFilter::Trace`, so the runtime tier admits each of
the five levels. -/
theorem C26_runtime_ceiling_last_set_wins :
    (∀ (σ : Type) (w : World σ) (f g : LevelFilter),
      max_level (set_max_level f w) = f ∧
      max_level (set_max_level f (set_max_level g w)) = f ∧
      (set_max_level f w).current = w.current ∧
      (set_max_level f w).flag_used = w.flag_used ∧
      (set_max_level f w).user = w.user ∧
      (set_max_level f w).trace = w.trace) ∧
    (∀ (σ : Type) (P : Program σ) (w : World σ) (f : LevelFilter) (L : Level)
      (here : source_location) (va : CallArgs σ) (l : LoggerRef),
      max_level (LOG_PP P L here va (set_max_level f w)) = f ∧
      max_level (set_logger l (set_max_level f w)).2 = f) ∧
    (∀ (σ : Type) (s : σ),
      max_level (World.start s) = LevelFilter.Trace ∧
      ∀ L ∈ Level.enumerators, L.le_filter (max_level (World.start s)) = true) := by
  refine ⟨fun σ w f g => ⟨rfl, rfl, rfl, rfl, rfl, rfl⟩, ?_, ?_⟩
  · intro σ P w f L here va l
    refine ⟨?_, ?_⟩
    · have h := (LOG_PP_frame P L here va (set_max_level f w)).2.2
      simp only [max_level, h]
      rfl
    · simp only [max_level, set_logger]
      split_ifs <;> rfl
  · intro σ s
    refine ⟨rfl, ?_⟩
    show ∀ L ∈ Level.enumerators, L.le_filter LevelFilter.Trace = true
    decide

/-- Witness of C26: at process start the runtime tier admits `Level::Trace`. -/
theorem C26_runtime_ceiling_last_set_wins_witness :
    Level.Trace ∈ Level.enumerators ∧
      Level.Trace.le_filter (max_level (World.start ())) = true :=
  ⟨by decide, (C26_runtime_ceiling_last_set_wins.2.2 Unit ()).2 Level.Trace (by decide)⟩

/-- C28: when the first `set_logger` call is made with the built-in default sink
itself, as in `set_logger(logger())` before any binding, it returns true and
uses up the once-flag; after any later facade calls, `set_logger(s)` with any
other sink `s` returns false, and `logger()` is still the default sink. -/
theorem C28_first_bind_of_the_default_sink (σ : Type) (P : Program σ) (w : World σ)
    (steps : List (Step σ)) (s : LoggerRef)
    (hflag : w.flag_used = false) (hcur : w.current = .default_logger)
    (hs : s ≠ .default_logger) :
    logger w = .default_logger ∧
    (set_logger (logger w) w).1 = true ∧
    (set_logger (logger w) w).2.flag_used = true ∧
    logger (set_logger (logger w) w).2 = .default_logger ∧
    (set_logger s (run P steps (set_logger (logger w) w).2)).1 = false ∧
    logger (set_logger s (run P steps (set_logger (logger w) w).2)).2 = .default_logger ∧
    logger (run P steps (set_logger (logger w) w).2) = .default_logger := by
  have h1 : set_logger (logger w) w = (true, { w with current := logger w, flag_used := true }) :=
    set_logger_unused (logger w) w hflag
  have hflag1 : (set_logger (logger w) w).2.flag_used = true := by rw [h1]
  have hcur1 : (set_logger (logger w) w).2.current = .default_logger := by
    rw [h1]
    exact hcur
  have hrun := run_used P steps _ hflag1
  have hcur2 : (run P steps (set_logger (logger w) w).2).current = .default_logger :=
    hrun.2.trans hcur1
  have h2 := set_logger_used s _ hrun.1
  refine ⟨hcur, by rw [h1], hflag1, hcur1, ?_, ?_, hcur2⟩
  · rw [h2, hcur2]
    simp only [decide_eq_false_iff_not]
    exact fun e => hs e.symm
  · rw [h2]
    exact hcur2

/-- Witness of C28: in the local-logger example, `set_logger(logger())` at
process start, then a change of the runtime ceiling and a log call; the later
`set_logger(logger)` on the static `SimpleLogger` (object 0) returns false. -/
theorem C28_first_bind_of_the_default_sink_witness :
    ((World.start ({} : ConsoleMemory)).flag_used = false ∧
      (World.start ({} : ConsoleMemory)).current = .default_logger ∧
      LoggerRef.object 0 ≠ .default_logger) ∧
    (set_logger (.object 0)
      (run (local_logger.program LevelFilter.Trace)
        [.set_max_level LevelFilter.Trace,
          .log Level.Info {} { fmt := "This message will be logged by global logger" }]
        (set_logger (logger (World.start ({} : ConsoleMemory)))
          (World.start ({} : ConsoleMemory))).2)).1 = false :=
  ⟨⟨rfl, rfl, by decide⟩,
    (C28_first_bind_of_the_default_sink ConsoleMemory (local_logger.program LevelFilter.Trace)
      (World.start {})
      [.set_max_level LevelFilter.Trace,
        .log Level.Info {} { fmt := "This message will be logged by global logger" }]
      (.object 0) rfl rfl (by decide)).2.2.2.2.1⟩

/-- C29: a metadata or a record built without any `set_level` call has the level
of numeric value 0, whatever the other setters were given: that level equals
none of the five enumerators, compares strictly below `Level::Error` and equal
to `LevelFilter::Off` in either operand order, and `to_str` renders it as
"UNKNOWN". -/
theorem C29_unset_level_is_zero :
    (∀ t : String,
      (BasicMetadataBuilder.mk {}).build.get_level = ⟨0⟩ ∧
      ((BasicMetadataBuilder.mk {}).set_target t).build.get_level = ⟨0⟩) ∧
    (∀ (σ : Type) (t fmt : String) (args : FormatArgs σ) (kvs : BasicKVList σ)
      (module : source_location),
      (BasicRecordBuilder.mk {} : BasicRecordBuilder σ).build.get_level = ⟨0⟩ ∧
      ((((((BasicRecordBuilder.mk {} : BasicRecordBuilder σ).set_target t).set_args
        args).set_kvs kvs).set_format_string fmt).set_module module).build.get_level = ⟨0⟩ ∧
      ((((((BasicRecordBuilder.mk {} : BasicRecordBuilder σ).set_target t).set_args
        args).set_kvs kvs).set_format_string fmt).set_module
          module).build.get_metadata.get_level = ⟨0⟩) ∧
    ((⟨0⟩ : Level).val = 0 ∧
      (∀ l ∈ Level.enumerators, Level.eq ⟨0⟩ l = false ∧ Level.ne ⟨0⟩ l = true ∧
        (⟨0⟩ : Level) ≠ l) ∧
      Level.lt ⟨0⟩ Level.Error = true ∧ Level.eq ⟨0⟩ Level.Error = false ∧
      LevelFilter.Off.eq_level ⟨0⟩ = true ∧ Level.eq_filter ⟨0⟩ LevelFilter.Off = true ∧
      LevelFilter.Off.spaceship_level ⟨0⟩ = Ordering.eq ∧
      Level.spaceship_filter ⟨0⟩ LevelFilter.Off = Ordering.eq ∧
      to_str ⟨0⟩ = "UNKNOWN") := by
  refine ⟨fun t => ⟨rfl, rfl⟩, fun σ t fmt args kvs module => ⟨rfl, rfl, rfl⟩, ?_⟩
  decide

/-- Witness of C29: the unset level against `Level::Info`. -/
theorem C29_unset_level_is_zero_witness :
    Level.Info ∈ Level.enumerators ∧ Level.eq ⟨0⟩ Level.Info = false :=
  ⟨by decide, (C29_unset_level_is_zero.2.2.2.1 Level.Info (by decide)).1⟩

end log_pp

namespace log_pp

/-- A call is emitted exactly when the three tiers pass. -/
theorem emitted_iff {σ : Type} (P : Program σ) (L : Level) (here : source_location)
    (va : CallArgs σ) (w : World σ) :
    emitted P L here va w ↔
      (L.le_filter P.LOG_PP_DETAIL_ACTIVE_COMPILE_LEVEL = true ∧
        L.le_filter (max_level w) = true ∧
        ((P.deref (va.sink w)).enabled { level := L, target := va.target_text } w.user).1
          = true) := by
  unfold emitted
  rw [LOG_PP_log_calls]
  simp only [max_level, Level.le_filter_iff]
  rw [← enabled_true_iff P (va.sink w) L va.target_text w]
  by_cases h : (enabled P (va.sink w) L va.target_text w).1 = true
  · simp [h]
  · simp [h]

/-- C30: whether a log call is emitted depends only on the level, the target,
the static ceiling, the runtime ceiling and the answer of the sink's
`enabled`.  Two calls at the same level and with the same target text, made
in programs with the same static ceiling and in states with the same runtime
ceiling, whose sinks give the same answer on the metadata, are both emitted
or both dropped, whatever their format strings, positional arguments,
key-value lists and call sites are. -/
theorem C30_admission_ignores_the_payload (σ τ : Type) (P : Program σ) (Q : Program τ)
    (L : Level) (here here1 : source_location) (va : CallArgs σ) (vb : CallArgs τ)
    (w : World σ) (u : World τ)
    (hstatic : P.LOG_PP_DETAIL_ACTIVE_COMPILE_LEVEL = Q.LOG_PP_DETAIL_ACTIVE_COMPILE_LEVEL)
    (hruntime : max_level w = max_level u)
    (htarget : va.target_text = vb.target_text)
    (hsink : ((P.deref (va.sink w)).enabled { level := L, target := va.target_text } w.user).1 =
      ((Q.deref (vb.sink u)).enabled { level := L, target := va.target_text } u.user).1) :
    (emitted P L here va w ↔ emitted Q L here1 vb u) ∧
    (log_calls (LOG_PP P L here va w).trace = log_calls w.trace ↔
      log_calls (LOG_PP Q L here1 vb u).trace = log_calls u.trace) := by
  have key : emitted P L here va w ↔ emitted Q L here1 vb u := by
    rw [emitted_iff, emitted_iff, hstatic, hruntime, hsink, htarget]
  refine ⟨key, ?_⟩
  have hdrop : ∀ (ρ : Type) (R : Program ρ) (h : source_location) (v : CallArgs ρ)
      (x : World ρ),
      (log_calls (LOG_PP R L h v x).trace = log_calls x.trace ↔ ¬ emitted R L h v x) := by
    intro ρ R h v x
    unfold emitted
    rw [LOG_PP_log_calls]
    by_cases he : (enabled R (v.sink x) L v.target_text x).1 = true
    · simp [he]
    · simp [he]
  rw [hdrop, hdrop, key]

/-- Witness of C30: in the key-value test, the Info call with three fields and
the Info call with one counted field differ in format string, arguments,
fields and call site; both are emitted. -/
theorem C30_admission_ignores_the_payload_witness :
    ((kv_test.program LevelFilter.Trace).LOG_PP_DETAIL_ACTIVE_COMPILE_LEVEL =
        (kv_test.program LevelFilter.Trace).LOG_PP_DETAIL_ACTIVE_COMPILE_LEVEL ∧
      max_level (World.start ({} : kv_test.Memory)) =
        max_level (World.start ({} : kv_test.Memory)) ∧
      kv_test.without_target_call.target_text = kv_test.counted_call.target_text ∧
      (((kv_test.program LevelFilter.Trace).deref
          (kv_test.without_target_call.sink (World.start {}))).enabled
          { level := Level.Info, target := kv_test.without_target_call.target_text }
          ({} : kv_test.Memory)).1 =
        (((kv_test.program LevelFilter.Trace).deref
          (kv_test.counted_call.sink (World.start {}))).enabled
          { level := Level.Info, target := kv_test.without_target_call.target_text }
          ({} : kv_test.Memory)).1) ∧
    (emitted (kv_test.program LevelFilter.Trace) Level.Info
        { function_name := "first", file_name := "kv_test.cpp", line := 70 }
        kv_test.without_target_call (World.start {}) ↔
      emitted (kv_test.program LevelFilter.Trace) Level.Info
        { function_name := "second", file_name := "kv_test.cpp", line := 154 }
        kv_test.counted_call (World.start {})) :=
  ⟨⟨rfl, rfl, rfl, rfl⟩,
    (C30_admission_ignores_the_payload kv_test.Memory kv_test.Memory
      (kv_test.program LevelFilter.Trace) (kv_test.program LevelFilter.Trace) Level.Info
      { function_name := "first", file_name := "kv_test.cpp", line := 70 }
      { function_name := "second", file_name := "kv_test.cpp", line := 154 }
      kv_test.without_target_call kv_test.counted_call (World.start {}) (World.start {})
      rfl rfl rfl rfl).1⟩

end log_pp
